import Mathlib

/-!
Click1Solutions security module: credential gate, session bookkeeping and
encrypted store.

A shallow embedding of `src/security.js` (configuration, hashing wrapper,
encryption and encrypted store, session management, login-attempt tracking,
admin authentication) together with theorems about it.

Modelling conventions

* `Date.now()` is the parameter `now : Int` (milliseconds). One call of an
  operation reads one clock value: the clock does not advance while an
  operation runs.
* JavaScript numbers are integers or `NaN` (`Option Int`, `none` is `NaN`).
  All timestamps and counters the module writes are integers; fractional
  numbers, infinities and integers beyond 2^53 are outside the model. A string
  in a numeric position is converted by `stringToNumber`, which follows the
  grammar `StringNumericLiteral` and is exact whenever the denoted number is
  an integer; a string that denotes a fraction or an infinity denotes a number
  outside the model.
* A string held in `localStorage` / `sessionStorage` is represented by what
  the module observes of it: whether it is the empty string, and otherwise
  the outcome of `JSON.parse` on it (`Item`). `JSON.stringify` followed by
  `setItem` stores the value that `JSON.parse` would give back.
* Parsed JSON documents are primitives or objects with primitive fields
  (`Json`); arrays and objects as property values are outside the model. The
  statements about stored records are about records of this shape, which is
  the shape of every record the module writes.
* `crypto.subtle.digest('SHA-256', _)` and `crypto.getRandomValues` are
  platform primitives and are parameters (`digest`, `random`); `sha256Digest`
  is the SHA-256 function itself, for the statements about concrete hashes.
  `crypto.getRandomValues` fills at most 65536 bytes in one call and raises a
  QuotaExceededError for a longer array.
* The encrypted store sees `localStorage` as raw strings (`RawStorage`);
  `btoa`, `atob`, `TextEncoder` and `TextDecoder` follow their standards, and
  AES-GCM and the JSON functions are parameters (`AesGcm`, `JsonCodec`).
* The number of arguments that one call accepts depends on the engine and is
  the parameter `maxArguments` of the functions that spread an array into a
  call.
* `async` functions are run to completion; a rejected promise is an
  `Except.error`.
-/

namespace Click1

/-! ## Configuration -/

/-- The shape of the object `SECURITY_CONFIG`. -/
structure SecurityConfig where
  MAX_LOGIN_ATTEMPTS : Int
  LOCKOUT_DURATION_MINUTES : Int
  SESSION_DURATION_MINUTES : Int
  INACTIVITY_TIMEOUT_MINUTES : Int
  MIN_PASSWORD_LENGTH : Nat
  TOKEN_LENGTH : Nat

/-- The constant `SECURITY_CONFIG` (security.js lines 13-20). -/
def SECURITY_CONFIG : SecurityConfig where
  MAX_LOGIN_ATTEMPTS := 3
  LOCKOUT_DURATION_MINUTES := 10
  SESSION_DURATION_MINUTES := 15
  INACTIVITY_TIMEOUT_MINUTES := 5
  MIN_PASSWORD_LENGTH := 8
  TOKEN_LENGTH := 32

/-- The shape of the object `ADMIN_CREDENTIALS`. -/
structure AdminCredentials where
  usernameHash : String
  passwordHash : String

/-- The constant `ADMIN_CREDENTIALS` (security.js lines 24-27). -/
def ADMIN_CREDENTIALS : AdminCredentials where
  usernameHash := "8c6976e5b5410415bde908bd4dee15dfb167a9c873fc4bb8a81f6f2ab448a918"
  passwordHash := "9bae9f9a0120f788b1838162c1413762115340596aff8e626ee1c9f5d5f3b469"

/-- Storage key of the login-attempt record. -/
def LOGIN_ATTEMPTS_KEY : String := "loginAttempts"

/-- Storage key of the lockout record. -/
def LOCKOUT_KEY : String := "loginLockout"

/-- Storage key of the session record (the literal 'adminSession'). -/
def SESSION_KEY : String := "adminSession"

/-! ## JavaScript values -/

/-- Primitive JavaScript values. `undefined` and `nan` arise only at run time
(a missing property, arithmetic on a non-number); `JSON.parse` never yields
them. -/
inductive Val where
  | undefined
  | null
  | bool (b : Bool)
  | num (n : Int)
  | nan
  | str (s : String)
  deriving DecidableEq, Repr

/-- A value as `JSON.parse` returns it: a primitive, or an object given by its
own properties in insertion order, each holding a primitive. Arrays, and
objects that hold an array or an object, are outside the model. -/
inductive Json where
  | prim (v : Val)
  | obj (fields : List (String × Val))
  deriving DecidableEq, Repr

/-- Exceptions the module can raise. -/
inductive JSError where
  | syntaxError
  | typeError
  | quotaExceededError
  deriving DecidableEq, Repr

/-- Whether a character is `WhiteSpace` or `LineTerminator`: the characters
that `StringToNumber` skips at both ends of a text. -/
def isStrWhiteSpaceChar (c : Char) : Bool :=
  decide (c.toNat ∈ [9, 10, 11, 12, 13, 32, 160, 5760, 8232, 8233, 8239, 8287, 12288, 65279])
    || (decide (8192 ≤ c.toNat) && decide (c.toNat ≤ 8202))

/-- Whether a character is one of the decimal digits `0` to `9`. -/
def isDecimalDigit (c : Char) : Bool :=
  decide (48 ≤ c.toNat) && decide (c.toNat ≤ 57)

/-- The value of a digit character (`0`-`9`, `a`-`f`, `A`-`F`). -/
def digitValue (c : Char) : Option Nat :=
  let n := c.toNat
  if 48 ≤ n ∧ n ≤ 57 then some (n - 48)
  else if 97 ≤ n ∧ n ≤ 102 then some (n - 87)
  else if 65 ≤ n ∧ n ≤ 70 then some (n - 55)
  else none

/-- The number written by a run of digits of base `base`, continuing from
`acc`; `none` when a character is not a digit of that base. -/
def digitsValue (base : Nat) : List Char → Nat → Option Nat
  | [], acc => some acc
  | c :: cs, acc =>
    match digitValue c with
    | some d => if d < base then digitsValue base cs (acc * base + d) else none
    | none => none

/-- The grammar symbol `NonDecimalIntegerLiteral`: `0x`, `0o` or `0b` (either
case) followed by at least one digit of that base, and nothing else. -/
def nonDecimalInteger : List Char → Option Nat
  | '0' :: p :: ds =>
    if ds = [] then none
    else if p = 'x' ∨ p = 'X' then digitsValue 16 ds 0
    else if p = 'o' ∨ p = 'O' then digitsValue 8 ds 0
    else if p = 'b' ∨ p = 'B' then digitsValue 2 ds 0
    else none
  | _ => none

/-- The grammar symbol `ExponentPart`, optional, at the end of a literal: the
exponent it denotes, 0 when there is none; `none` when the characters are not
an exponent part. -/
def exponentValue : List Char → Option Int
  | [] => some 0
  | c :: rest =>
    if c = 'e' ∨ c = 'E' then
      match rest with
      | '+' :: ds => if ds = [] then none else (digitsValue 10 ds 0).map Int.ofNat
      | '-' :: ds => if ds = [] then none else (digitsValue 10 ds 0).map (fun n => -Int.ofNat n)
      | ds => if ds = [] then none else (digitsValue 10 ds 0).map Int.ofNat
    else none

/-- The grammar symbol `StrUnsignedDecimalLiteral` other than `Infinity`:
digits, an optional point with digits, an optional exponent part, with at least
one digit before the exponent. The result `(m, e)` denotes `m * 10 ^ e`. -/
def unsignedDecimal (cs : List Char) : Option (Nat × Int) :=
  let intDigits := cs.takeWhile isDecimalDigit
  let rest := cs.dropWhile isDecimalDigit
  let fracDigits := match rest with
    | '.' :: more => more.takeWhile isDecimalDigit
    | _ => []
  let rest1 := match rest with
    | '.' :: more => more.dropWhile isDecimalDigit
    | _ => rest
  if intDigits = [] ∧ fracDigits = [] then none
  else
    match digitsValue 10 (intDigits ++ fracDigits) 0, exponentValue rest1 with
    | some m, some e => some (m, e - fracDigits.length)
    | _, _ => none

/-- The integer `m * 10 ^ e`, when that number is an integer. -/
def decimalInteger (m : Nat) (e : Int) : Option Int :=
  if 0 ≤ e then some (m * 10 ^ e.toNat)
  else if m % 10 ^ (-e).toNat = 0 then some (m / 10 ^ (-e).toNat)
  else none

/-- The abstract operation `StringToNumber`, in the integer model. White
space and line terminators are dropped at both ends; the empty text is 0; a
`NonDecimalIntegerLiteral` is its value; an optionally signed decimal literal
(with optional fraction and exponent) is its value when that is an integer;
every text outside the grammar `StringNumericLiteral` is `NaN`. A text that
denotes a fraction or an infinity (`1.5`, `Infinity`) denotes a number outside
the integer model and is read as `NaN`. -/
def stringToNumber (s : String) : Option Int :=
  let text := ((s.data.dropWhile isStrWhiteSpaceChar).reverse.dropWhile
    isStrWhiteSpaceChar).reverse
  if text = [] then some 0
  else
    match nonDecimalInteger text with
    | some n => some n
    | none =>
      match text with
      | '+' :: body => (unsignedDecimal body).bind (fun p => decimalInteger p.1 p.2)
      | '-' :: body =>
        ((unsignedDecimal body).bind (fun p => decimalInteger p.1 p.2)).map (fun n => -n)
      | body => (unsignedDecimal body).bind (fun p => decimalInteger p.1 p.2)

/-- The abstract operation `ToNumber`; `none` is `NaN`. -/
def toNumber : Val → Option Int
  | .undefined => none
  | .null => some 0
  | .bool true => some 1
  | .bool false => some 0
  | .num n => some n
  | .nan => none
  | .str s => stringToNumber s

/-- A number as a value. -/
def numToVal : Option Int → Val
  | some n => .num n
  | none => .nan

/-- Numeric `a < b`; false when either side is `NaN`. -/
def numLt : Option Int → Option Int → Bool
  | some a, some b => decide (a < b)
  | _, _ => false

/-- Numeric `a > b`; false when either side is `NaN`. -/
def numGt (a b : Option Int) : Bool := numLt b a

/-- Numeric `a >= b`; false when either side is `NaN`. -/
def numGe : Option Int → Option Int → Bool
  | some a, some b => decide (b ≤ a)
  | _, _ => false

/-- Numeric `a === b`; false when either side is `NaN`. -/
def numStrictEq : Option Int → Option Int → Bool
  | some a, some b => decide (a = b)
  | _, _ => false

/-- Numeric `a - b`. -/
def numSub : Option Int → Option Int → Option Int
  | some a, some b => some (a - b)
  | _, _ => none

/-- Numeric `a + b`. -/
def numAdd : Option Int → Option Int → Option Int
  | some a, some b => some (a + b)
  | _, _ => none

/-- The value of `Math.ceil(x / 1000 / 60)` for a number `x`. -/
def ceilMinutes : Option Int → Option Int
  | some x => some ((x + 59999) / 60000)
  | none => none

/-- A number inside a template literal. -/
def numToString : Option Int → String
  | some n => toString n
  | none => "NaN"

/-- Truthiness of a primitive. -/
def Val.truthy : Val → Bool
  | .undefined => false
  | .null => false
  | .bool b => b
  | .num n => decide (n ≠ 0)
  | .nan => false
  | .str s => decide (s ≠ "")

/-- Truthiness of a parsed value; every object is truthy. -/
def Json.truthy : Json → Bool
  | .prim v => v.truthy
  | .obj _ => true

/-- Whether a property read on the value raises a TypeError. -/
def Json.nullish : Json → Bool
  | .prim .null => true
  | .prim .undefined => true
  | _ => false

/-- Property read `j.k` on a value that is not nullish. None of the names the
module reads exists on a primitive wrapper, so a primitive yields
`undefined`. -/
def Json.get : Json → String → Val
  | .obj fields, k => (fields.lookup k).getD .undefined
  | .prim _, _ => .undefined

/-- Replace the first binding of `k`, or append one. -/
def setField : List (String × Val) → String → Val → List (String × Val)
  | [], k, v => [(k, v)]
  | (k', v') :: rest, k, v =>
    if k' = k then (k, v) :: rest else (k', v') :: setField rest k v

/-- Property write `j.k = v` on a value that is not nullish. The file is not
in strict mode, so a write on a primitive is silently dropped. -/
def Json.set : Json → String → Val → Json
  | .obj fields, k, v => .obj (setField fields k v)
  | .prim p, _, _ => .prim p

/-- A stored string, as the module observes it. -/
inductive Item where
  | empty
  | invalid
  | json (j : Json)
  deriving DecidableEq, Repr

/-- What `JSON.stringify` keeps of a field: `undefined` is dropped and `NaN`
is written as `null`. -/
def stringifyField : String × Val → Option (String × Val)
  | (_, .undefined) => none
  | (k, .nan) => some (k, .null)
  | (k, v) => some (k, v)

/-- The stored string produced by `JSON.stringify(j)`. -/
def stringify : Json → Item
  | .obj fields => .json (.obj (fields.filterMap stringifyField))
  | .prim .undefined => .invalid
  | .prim .nan => .json (.prim .null)
  | .prim v => .json (.prim v)

/-! ## Storage -/

/-- A Web Storage area. -/
abbrev Storage := String → Option Item

/-- The method `setItem`. -/
def Storage.setItem (st : Storage) (key : String) (v : Item) : Storage :=
  fun k => if k = key then some v else st k

/-- The method `removeItem`. -/
def Storage.removeItem (st : Storage) (key : String) : Storage :=
  fun k => if k = key then none else st k

/-- The two storage areas the module uses. -/
structure State where
  localStorage : Storage
  sessionStorage : Storage

/-- Both storage areas empty. -/
def State.init : State where
  localStorage := fun _ => none
  sessionStorage := fun _ => none

/-- The method `getItem`. -/
def Storage.getItem (st : Storage) (key : String) : Option Item := st key

/-- Whether `!x` holds for the result `x` of `getItem`: the key is absent
(`null`) or holds the empty string. -/
def falsyItem : Option Item → Bool
  | none => true
  | some .empty => true
  | some _ => false

/-! ## SHA-256 hashing -/

/-- The UTF-8 bytes of the code point `n`. -/
def utf8EncodeCodePoint (n : Nat) : List Nat :=
  if n < 128 then [n]
  else if n < 2048 then [192 + n / 64, 128 + n % 64]
  else if n < 65536 then [224 + n / 4096, 128 + n / 64 % 64, 128 + n % 64]
  else [240 + n / 262144, 128 + n / 4096 % 64, 128 + n / 64 % 64, 128 + n % 64]

/-- The bytes `new TextEncoder().encode(input)`. -/
def utf8Encode (input : String) : List Nat :=
  input.data.flatMap (fun c => utf8EncodeCodePoint c.toNat)

/-- One byte as `b.toString(16).padStart(2, '0')`. -/
def hexByte (b : Nat) : String :=
  let digits := Nat.toDigits 16 b
  String.mk (List.replicate (2 - digits.length) '0' ++ digits)

/-- The function `sha256`: the hexadecimal text of the digest of the UTF-8
bytes of `input`. The parameter `digest` is `crypto.subtle.digest('SHA-256', _)`. -/
def sha256 (digest : List Nat → List Nat) (input : String) : String :=
  let data := utf8Encode input
  let hashArray := digest data
  String.join (hashArray.map hexByte)

/-- The function `verifyHash`. -/
def verifyHash (digest : List Nat → List Nat) (input storedHash : String) : Bool :=
  let inputHash := sha256 digest input
  decide (inputHash = storedHash)

/-- The property `length` of a string: its number of UTF-16 code units. -/
def jsLength (s : String) : Nat :=
  (s.data.map (fun c => if c.toNat < 65536 then 1 else 2)).sum

/-! ## Session management -/

/-- The alphabet `chars` of `generateSessionToken`. -/
def TOKEN_CHARS : String :=
  "ABCDEFGHIJKLMNOPQRSTUVWXYZabcdefghijklmnopqrstuvwxyz0123456789!@#$%^&*"

/-- The largest number of bytes that `crypto.getRandomValues` fills in one
call (Web Cryptography API); a longer array makes it raise a
QuotaExceededError. -/
def RANDOM_VALUES_QUOTA : Nat := 65536

/-- The expression `Array.from(array, byte => chars[byte % chars.length]).join('')`
of `generateSessionToken`; an index outside the alphabet would give
`undefined`, which `join` renders as the empty string. -/
def tokenFromBytes (array : List Nat) : String :=
  String.mk (array.filterMap (fun byte => TOKEN_CHARS.data.get? (byte % jsLength TOKEN_CHARS)))

/-- The function `generateSessionToken`. `random i` is the value that
`crypto.getRandomValues` puts at index `i` of the `Uint8Array`; the call raises
a QuotaExceededError when the array has more than 65536 bytes, and the
exception leaves the function. -/
def generateSessionToken (random : Nat → Nat) (length : Nat) : Except JSError String :=
  if RANDOM_VALUES_QUOTA < length then .error .quotaExceededError
  else
    let array := (List.range length).map (fun i => random i % 256)
    .ok (tokenFromBytes array)

/-- The session object built by `createSession`. -/
structure Session where
  token : String
  createdAt : Int
  expiresAt : Int
  lastActivity : Int
  deriving DecidableEq, Repr

/-- The session object as a JavaScript object, fields in literal order. -/
def Session.toJson (x : Session) : Json :=
  .obj [("token", .str x.token), ("createdAt", .num x.createdAt),
    ("expiresAt", .num x.expiresAt), ("lastActivity", .num x.lastActivity)]

/-- The function `clearSession`. -/
def clearSession (s : State) : State :=
  { s with sessionStorage := s.sessionStorage.removeItem SESSION_KEY }

/-- The function `createSession`. It calls `generateSessionToken()` with the
default length TOKEN_LENGTH (32), which is below the quota of
`crypto.getRandomValues`, so the call returns a token; the branch for an
exception is never taken. -/
def createSession (random : Nat → Nat) (now : Int) (s : State) : Session × State :=
  let token :=
    match generateSessionToken random SECURITY_CONFIG.TOKEN_LENGTH with
    | .ok token => token
    | .error _ => ""
  let session : Session :=
    { token := token
      createdAt := now
      expiresAt := now + SECURITY_CONFIG.SESSION_DURATION_MINUTES * 60 * 1000
      lastActivity := now }
  (session, { s with sessionStorage := s.sessionStorage.setItem SESSION_KEY (stringify session.toJson) })

/-- The function `getSession`; the result `null` is `Json.prim Val.null`. A
SyntaxError of `JSON.parse` and a TypeError of `session.expiresAt` are caught
and give `null` without touching storage. -/
def getSession (now : Int) (s : State) : Json × State :=
  let sessionData := s.sessionStorage.getItem SESSION_KEY
  if falsyItem sessionData then (.prim .null, s)
  else
    match sessionData with
    | some (.json session) =>
      if session.nullish then (.prim .null, s)
      else if numGt (some now) (toNumber (session.get "expiresAt")) then
        (.prim .null, clearSession s)
      else (session, s)
    | _ => (.prim .null, s)

/-- The function `updateActivity`. -/
def updateActivity (now : Int) (s : State) : State :=
  let (session, s1) := getSession now s
  if session.truthy then
    let session1 := session.set "lastActivity" (.num now)
    { s1 with sessionStorage := s1.sessionStorage.setItem SESSION_KEY (stringify session1) }
  else s1

/-- The function `isSessionValid`. -/
def isSessionValid (now : Int) (s : State) : Bool × State :=
  let (session, s1) := getSession now s
  if !session.truthy then (false, s1)
  else if numGt (some now) (toNumber (session.get "expiresAt")) then
    (false, clearSession s1)
  else
    let inactiveTime := numSub (some now) (toNumber (session.get "lastActivity"))
    let maxInactiveTime := SECURITY_CONFIG.INACTIVITY_TIMEOUT_MINUTES * 60 * 1000
    if numGt inactiveTime (some maxInactiveTime) then (false, clearSession s1)
    else (true, s1)

/-! ## Login attempt tracking -/

/-- The function `getLoginAttempts`. -/
def getLoginAttempts (s : State) : Except JSError Json :=
  let data := s.localStorage.getItem LOGIN_ATTEMPTS_KEY
  if falsyItem data then .ok (.obj [("count", .num 0), ("timestamp", .null)])
  else
    match data with
    | some (.json attempts) => .ok attempts
    | _ => .error .syntaxError

/-- The function `resetLoginAttempts`. -/
def resetLoginAttempts (s : State) : State :=
  { s with localStorage := s.localStorage.removeItem LOGIN_ATTEMPTS_KEY }

/-- The function `setLockout`. -/
def setLockout (now : Int) (s : State) : State :=
  let lockoutEnd := now + SECURITY_CONFIG.LOCKOUT_DURATION_MINUTES * 60 * 1000
  { s with localStorage :=
      s.localStorage.setItem LOCKOUT_KEY (stringify (.obj [("until", .num lockoutEnd)])) }

/-- The function `recordFailedAttempt`. `attempts.count++` on `null` raises a
TypeError. -/
def recordFailedAttempt (now : Int) (s : State) : Except JSError State :=
  match getLoginAttempts s with
  | .error e => .error e
  | .ok attempts =>
    if attempts.nullish then .error .typeError
    else
      let attempts1 := attempts.set "count"
        (numToVal (numAdd (toNumber (attempts.get "count")) (some 1)))
      let attempts2 := attempts1.set "timestamp" (.num now)
      let s1 : State :=
        { s with localStorage := s.localStorage.setItem LOGIN_ATTEMPTS_KEY (stringify attempts2) }
      if numGe (toNumber (attempts2.get "count")) (some SECURITY_CONFIG.MAX_LOGIN_ATTEMPTS) then
        .ok (setLockout now s1)
      else .ok s1

/-- The object returned by `isLoginLocked`. -/
structure LockStatus where
  locked : Bool
  remaining : Option Int
  deriving DecidableEq, Repr

/-- The function `isLoginLocked`. `JSON.parse` is not guarded here: a stored
string that is not JSON raises a SyntaxError and a stored `null` a
TypeError. -/
def isLoginLocked (now : Int) (s : State) : Except JSError (LockStatus × State) :=
  let lockData := s.localStorage.getItem LOCKOUT_KEY
  if falsyItem lockData then .ok ({ locked := false, remaining := some 0 }, s)
  else
    match lockData with
    | some (.json lockout) =>
      if lockout.nullish then .error .typeError
      else if numLt (some now) (toNumber (lockout.get "until")) then
        let remaining := ceilMinutes (numSub (toNumber (lockout.get "until")) (some now))
        .ok ({ locked := true, remaining := remaining }, s)
      else
        let s1 : State := { s with localStorage := s.localStorage.removeItem LOCKOUT_KEY }
        .ok ({ locked := false, remaining := some 0 }, resetLoginAttempts s1)
    | _ => .error .syntaxError

/-! ## Admin authentication -/

/-- The object returned by `authenticateAdmin`; `locked` and `token` are
`none` where the object literal has no such property. -/
structure AuthResult where
  success : Bool
  message : String
  locked : Option Bool
  token : Option String
  deriving DecidableEq, Repr

/-- The function `authenticateAdmin`. -/
def authenticateAdmin (digest : List Nat → List Nat) (random : Nat → Nat) (now : Int)
    (username password : String) (s : State) : Except JSError (AuthResult × State) :=
  match isLoginLocked now s with
  | .error e => .error e
  | .ok (lockStatus, s1) =>
    if lockStatus.locked then
      .ok ({ success := false
             message := "Account locked. Try again in " ++ numToString lockStatus.remaining
               ++ " minutes."
             locked := some true
             token := none }, s1)
    else if jsLength password < SECURITY_CONFIG.MIN_PASSWORD_LENGTH then
      .ok ({ success := false
             message := "Password must be at least "
               ++ toString SECURITY_CONFIG.MIN_PASSWORD_LENGTH ++ " characters."
             locked := some false
             token := none }, s1)
    else
      let usernameMatch := verifyHash digest username ADMIN_CREDENTIALS.usernameHash
      let passwordMatch := verifyHash digest password ADMIN_CREDENTIALS.passwordHash
      if usernameMatch && passwordMatch then
        let s2 := resetLoginAttempts s1
        let (session, s3) := createSession random now s2
        .ok ({ success := true
               message := "Login successful"
               locked := none
               token := some session.token }, s3)
      else
        match recordFailedAttempt now s1 with
        | .error e => .error e
        | .ok s2 =>
          match getLoginAttempts s2 with
          | .error e => .error e
          | .ok attempts =>
            if attempts.nullish then .error .typeError
            else
              let remaining := numSub (some SECURITY_CONFIG.MAX_LOGIN_ATTEMPTS)
                (toNumber (attempts.get "count"))
              .ok ({ success := false
                     message :=
                       if numGt remaining (some 0) then
                         "Invalid credentials. " ++ numToString remaining
                           ++ " attempts remaining."
                       else "Account locked due to too many failed attempts."
                     locked := some (numStrictEq remaining (some 0))
                     token := none }, s2)

/-! ## Predicates used in the statements -/

/-- Whether an unexpired lockout is stored at time `now`: the lockout entry is
a JSON value whose `until` is a number later than `now`. -/
def lockoutActive (now : Int) (s : State) : Bool :=
  match s.localStorage LOCKOUT_KEY with
  | some (.json lockout) => numLt (some now) (toNumber (lockout.get "until"))
  | _ => false

/-- Whether the lockout entry is a state of the data model as far as
`isLoginLocked` reads it: absent, the empty string, or a JSON text other than
`null`. -/
def lockoutReadable (s : State) : Bool :=
  match s.localStorage LOCKOUT_KEY with
  | some .invalid => false
  | some (.json lockout) => !lockout.nullish
  | _ => true

/-- Whether login is unlocked at time `now`, in a state whose lockout entry
the integer model reads exactly: the entry is absent or the empty string, or it
is a JSON value other than `null` whose `until` is not a string and is not a
number later than `now` (a lockout record that has expired, or a value without
a numeric `until`). -/
def unlockedState (now : Int) (s : State) : Bool :=
  match s.localStorage LOCKOUT_KEY with
  | none => true
  | some .empty => true
  | some .invalid => false
  | some (.json lockout) =>
    !lockout.nullish &&
      (match lockout.get "until" with
       | .str _ => false
       | v => !numLt (some now) (toNumber v))

/-! ## Concrete inputs -/

/-- Digest bytes whose hexadecimal text is `ADMIN_CREDENTIALS.usernameHash`. -/
def usernameDigestBytes : List Nat :=
  [0x8c, 0x69, 0x76, 0xe5, 0xb5, 0x41, 0x04, 0x15, 0xbd, 0xe9, 0x08, 0xbd, 0x4d, 0xee, 0x15, 0xdf,
   0xb1, 0x67, 0xa9, 0xc8, 0x73, 0xfc, 0x4b, 0xb8, 0xa8, 0x1f, 0x6f, 0x2a, 0xb4, 0x48, 0xa9, 0x18]

/-- Digest bytes whose hexadecimal text is `ADMIN_CREDENTIALS.passwordHash`. -/
def passwordDigestBytes : List Nat :=
  [0x9b, 0xae, 0x9f, 0x9a, 0x01, 0x20, 0xf7, 0x88, 0xb1, 0x83, 0x81, 0x62, 0xc1, 0x41, 0x37, 0x62,
   0x11, 0x53, 0x40, 0x59, 0x6a, 0xff, 0x8e, 0x62, 0x6e, 0xe1, 0xc9, 0xf5, 0xd5, 0xf3, 0xb4, 0x69]

/-- A digest function for concrete runs: it answers the two reference digests
on the UTF-8 bytes of "admin" and of "Click1Secure@2024", and 32 zero bytes
elsewhere. -/
def tableDigest (data : List Nat) : List Nat :=
  if data = utf8Encode "admin" then usernameDigestBytes
  else if data = utf8Encode "Click1Secure@2024" then passwordDigestBytes
  else List.replicate 32 0

/-- A source of random values for concrete runs: index `i` gets `i`. -/
def countingBytes (i : Nat) : Nat := i

/-- A storage area with no entry. -/
def emptyStorage : Storage := fun _ => none

/-- A state after three failed logins at time 1000: attempt count 3 and a
lockout until 601000. -/
def lockedState : State where
  localStorage :=
    (emptyStorage.setItem LOGIN_ATTEMPTS_KEY
      (.json (.obj [("count", .num 3), ("timestamp", .num 1000)]))).setItem LOCKOUT_KEY
      (.json (.obj [("until", .num 601000)]))
  sessionStorage := emptyStorage

/-- A state after one failed login at time 1000: attempt count 1, no lockout. -/
def oneFailureState : State where
  localStorage :=
    emptyStorage.setItem LOGIN_ATTEMPTS_KEY
      (.json (.obj [("count", .num 1), ("timestamp", .num 1000)]))
  sessionStorage := emptyStorage

/-- A state holding a session created at time 0 (expiry 900000) whose last
activity was at time 0, with the token that `countingBytes` yields. -/
def idleSessionState : State where
  localStorage := emptyStorage
  sessionStorage :=
    emptyStorage.setItem SESSION_KEY
      (.json (Session.toJson
        { token := "ABCDEFGHIJKLMNOPQRSTUVWXYZabcdef"
          createdAt := 0
          expiresAt := 900000
          lastActivity := 0 }))

/-- A state whose session entry is a text that `JSON.parse` rejects (for
instance a truncated record such as the single character `{`). -/
def corruptSessionState : State where
  localStorage := emptyStorage
  sessionStorage := emptyStorage.setItem SESSION_KEY .invalid

/-- A state whose lockout entry is a text that `JSON.parse` rejects. -/
def corruptLockoutState : State where
  localStorage := emptyStorage.setItem LOCKOUT_KEY .invalid
  sessionStorage := emptyStorage

/-- A state whose attempts entry is a text that `JSON.parse` rejects. -/
def corruptAttemptsState : State where
  localStorage := emptyStorage.setItem LOGIN_ATTEMPTS_KEY .invalid
  sessionStorage := emptyStorage

/-! ## Base64 text encoding (the platform functions `btoa` and `atob`) -/

/-- The base64 alphabet. -/
def BASE64_CHARS : List Char :=
  "ABCDEFGHIJKLMNOPQRSTUVWXYZabcdefghijklmnopqrstuvwxyz0123456789+/".data

/-- The character of a 6-bit group. -/
def base64Char (i : Nat) : Char := BASE64_CHARS.getD i 'A'

/-- The 6-bit group of a character of the alphabet; `none` outside it. -/
def base64Index (c : Char) : Option Nat :=
  if BASE64_CHARS.indexOf c < 64 then some (BASE64_CHARS.indexOf c) else none

/-- The 6-bit groups of a byte sequence, before padding. -/
def sextets : List Nat → List Nat
  | a :: b :: c :: rest =>
    a / 4 :: (a % 4 * 16 + b / 16) :: (b % 16 * 4 + c / 64) :: c % 64 :: sextets rest
  | [a, b] => [a / 4, a % 4 * 16 + b / 16, b % 16 * 4]
  | [a] => [a / 4, a % 4 * 16]
  | [] => []

/-- The function `btoa` applied to the string whose char codes are `codes`;
`none` is the InvalidCharacterError raised for a code above 255. -/
def btoa (codes : List Nat) : Option String :=
  if codes.all (fun b => decide (b < 256)) then
    some (String.mk ((sextets codes).map base64Char
      ++ List.replicate ((3 - codes.length % 3) % 3) '='))
  else none

/-- ASCII whitespace: TAB, LF, FF, CR and SPACE. -/
def isAsciiWhitespace (c : Char) : Bool :=
  c.toNat = 9 || c.toNat = 10 || c.toNat = 12 || c.toNat = 13 || c.toNat = 32

/-- Remove one or two trailing `=`. -/
def stripPadding (cs : List Char) : List Char :=
  match cs.reverse with
  | '=' :: '=' :: rest => rest.reverse
  | '=' :: rest => rest.reverse
  | _ => cs

/-- The bytes of a run of 6-bit groups; the bits left over in a final group of
two or three are dropped. -/
def decodeSextets : List Nat → List Nat
  | a :: b :: c :: d :: rest =>
    (a * 4 + b / 16) :: (b % 16 * 16 + c / 4) :: (c % 4 * 64 + d) :: decodeSextets rest
  | [a, b, c] => [a * 4 + b / 16, b % 16 * 16 + c / 4]
  | [a, b] => [a * 4 + b / 16]
  | _ => []

/-- The 6-bit groups of a run of characters; `none` when one of them is
outside the alphabet. -/
def base64Indices : List Char → Option (List Nat)
  | [] => some []
  | c :: cs =>
    match base64Index c, base64Indices cs with
    | some i, some rest => some (i :: rest)
    | _, _ => none

/-- The function `atob` (forgiving base64 decode), giving the char codes of
the decoded string; `none` is the InvalidCharacterError. ASCII whitespace is
removed; one or two trailing `=` are removed when the length is a multiple of
4; a remaining length of 1 modulo 4 or a character outside the alphabet is an
error. -/
def atob (data : String) : Option (List Nat) :=
  let cs := data.data.filter (fun c => !isAsciiWhitespace c)
  let cs1 := if cs.length % 4 = 0 then stripPadding cs else cs
  if cs1.length % 4 = 1 then none
  else
    match base64Indices cs1 with
    | none => none
    | some groups => some (decodeSextets groups)

/-! ## UTF-8 decoding (the platform object `TextDecoder`) -/

/-- The state of the UTF-8 decoder of the Encoding standard. -/
structure Utf8State where
  codePoint : Nat
  bytesSeen : Nat
  bytesNeeded : Nat
  lowerBoundary : Nat
  upperBoundary : Nat
  deriving DecidableEq, Repr

/-- The decoder state between two characters. -/
def Utf8State.init : Utf8State where
  codePoint := 0
  bytesSeen := 0
  bytesNeeded := 0
  lowerBoundary := 128
  upperBoundary := 191

/-- The decoder on a byte read while no bytes are needed: the code points
emitted and the next state. U+FFFD (65533) stands for a byte that cannot start
a character. -/
def utf8Lead (b : Nat) : List Nat × Utf8State :=
  if b ≤ 127 then ([b], Utf8State.init)
  else if 194 ≤ b ∧ b ≤ 223 then
    ([], { Utf8State.init with bytesNeeded := 1, codePoint := b % 32 })
  else if 224 ≤ b ∧ b ≤ 239 then
    ([], { codePoint := b % 16
           bytesSeen := 0
           bytesNeeded := 2
           lowerBoundary := if b = 224 then 160 else 128
           upperBoundary := if b = 237 then 159 else 191 })
  else if 240 ≤ b ∧ b ≤ 244 then
    ([], { codePoint := b % 8
           bytesSeen := 0
           bytesNeeded := 3
           lowerBoundary := if b = 240 then 144 else 128
           upperBoundary := if b = 244 then 143 else 191 })
  else ([65533], Utf8State.init)

/-- One step of the decoder. A byte outside the boundaries ends the pending
character with U+FFFD and is read again as a lead byte. -/
def utf8Step (st : Utf8State) (b : Nat) : List Nat × Utf8State :=
  if st.bytesNeeded = 0 then utf8Lead b
  else if b < st.lowerBoundary ∨ st.upperBoundary < b then
    (65533 :: (utf8Lead b).1, (utf8Lead b).2)
  else if st.bytesSeen + 1 ≠ st.bytesNeeded then
    ([], { codePoint := st.codePoint * 64 + b % 64
           bytesSeen := st.bytesSeen + 1
           bytesNeeded := st.bytesNeeded
           lowerBoundary := 128
           upperBoundary := 191 })
  else ([st.codePoint * 64 + b % 64], Utf8State.init)

/-- The decoder run over a byte sequence; a character cut short by the end of
the input gives U+FFFD. -/
def utf8DecodeFrom (st : Utf8State) : List Nat → List Nat
  | [] => if st.bytesNeeded = 0 then [] else [65533]
  | b :: rest => (utf8Step st b).1 ++ utf8DecodeFrom (utf8Step st b).2 rest

/-- The method `decode` of `new TextDecoder()`: UTF-8, errors replaced by
U+FFFD, and a leading byte order mark U+FEFF (65279) dropped. -/
def utf8Decode (bytes : List Nat) : String :=
  let codePoints := utf8DecodeFrom Utf8State.init bytes
  let codePoints1 :=
    match codePoints with
    | 65279 :: rest => rest
    | _ => codePoints
  String.mk (codePoints1.map Char.ofNat)

/-! ## Encryption and the encrypted store

`localStorage` is seen here as raw strings (`RawStorage`): the encrypted store
keeps base64 blobs, not JSON texts. The AES-GCM operations of `crypto.subtle`
and the pair `JSON.stringify` / `JSON.parse` are platform primitives and are
parameters (`AesGcm`, `JsonCodec`). A `CryptoKey` is represented by its raw key
bytes. -/

/-- The AES-GCM primitive: `encrypt key iv plaintext` and
`decrypt key iv ciphertext`, on byte sequences; `none` is a rejected promise
(for `decrypt`, the OperationError of a failed authentication). -/
structure AesGcm where
  encrypt : List Nat → List Nat → List Nat → Option (List Nat)
  decrypt : List Nat → List Nat → List Nat → Option (List Nat)

/-- The primitive decrypts what it encrypted under the same key and nonce, and
a ciphertext is a sequence of bytes. -/
def AesGcm.Correct (aes : AesGcm) : Prop :=
  ∀ key iv plaintext ciphertext, aes.encrypt key iv plaintext = some ciphertext →
    (∀ b ∈ ciphertext, b < 256) ∧ aes.decrypt key iv ciphertext = some plaintext

/-- The authentication guarantee of AES-GCM in its ideal form, for one
produced ciphertext: under `key` the primitive accepts no pair of nonce and
ciphertext+tag other than `(iv, ciphertext)`. The real primitive accepts a
forged pair with negligible probability only; a deterministic embedding can
state the guarantee only in this ideal form. -/
def AesGcm.Authenticates (aes : AesGcm) (key iv ciphertext : List Nat) : Prop :=
  ∀ iv1 ciphertext1, (iv1 ≠ iv ∨ ciphertext1 ≠ ciphertext) →
    aes.decrypt key iv1 ciphertext1 = none

/-- The default value of the parameter `keyPassword`. -/
def DEFAULT_KEY_PASSWORD : String := "Click1SecureKey2024"

/-- The salt literal passed to `deriveKey`. -/
def KEY_SALT : String := "Click1Salt"

/-- The function `deriveKey`: the digest of the UTF-8 bytes of
`password + salt`, imported as a raw AES-GCM key. `importKey` raises a
DataError unless the key has 128, 192 or 256 bits. -/
def deriveKey (digest : List Nat → List Nat) (password salt : String) : Option (List Nat) :=
  let passwordData := utf8Encode (password ++ salt)
  let hashBuffer := digest passwordData
  if hashBuffer.length = 16 ∨ hashBuffer.length = 24 ∨ hashBuffer.length = 32 then
    some hashBuffer
  else none

/-- The function `generateIV`: 12 random bytes. -/
def generateIV (random : Nat → Nat) : List Nat :=
  (List.range 12).map (fun i => random i % 256)

/-- The function `encryptData`; `none` is the `null` returned from the `catch`
block. The call `String.fromCharCode(...combined)` passes every byte of
`combined` as one argument; `maxArguments` is the largest number of arguments
that the engine accepts in one call, and a longer array makes the call raise a
RangeError, which the `catch` block turns into `null`. -/
def encryptData (aes : AesGcm) (digest : List Nat → List Nat) (random : Nat → Nat)
    (maxArguments : Nat) (data keyPassword : String) : Option String :=
  let iv := generateIV random
  match deriveKey digest keyPassword KEY_SALT with
  | none => none
  | some key =>
    match aes.encrypt key iv (utf8Encode data) with
    | none => none
    | some encrypted =>
      let combined := iv ++ encrypted
      if maxArguments < combined.length then none
      else btoa combined

/-- The function `decryptData`; `none` is the `null` returned from the `catch`
block. -/
def decryptData (aes : AesGcm) (digest : List Nat → List Nat)
    (encryptedBase64 keyPassword : String) : Option String :=
  match atob encryptedBase64 with
  | none => none
  | some combined =>
    let iv := combined.take 12
    let encrypted := combined.drop 12
    match deriveKey digest keyPassword KEY_SALT with
    | none => none
    | some key =>
      match aes.decrypt key iv encrypted with
      | none => none
      | some decrypted => some (utf8Decode decrypted)

/-- The pair `JSON.stringify` / `JSON.parse` on a type `V` of JSON values;
`parse` gives `none` for a SyntaxError, and `null` is the value `null`. -/
structure JsonCodec (V : Type) where
  stringify : V → String
  parse : String → Option V
  null : V

/-- What the store assumes of the JSON functions: `parse` reads back what
`stringify` wrote, and rejects the empty text and a text that starts with the
byte order mark U+FEFF (which is not JSON white space). -/
def JsonCodec.Lawful {V : Type} (codec : JsonCodec V) : Prop :=
  (∀ v, codec.parse (codec.stringify v) = some v) ∧
  codec.parse "" = none ∧
  (∀ s : String, s.data.head? = some (Char.ofNat 65279) → codec.parse s = none)

/-- The area `localStorage` as raw strings. -/
abbrev RawStorage := String → Option String

/-- The method `setItem` on raw strings. -/
def RawStorage.setItem (st : RawStorage) (key value : String) : RawStorage :=
  fun k => if k = key then some value else st k

/-- The method `removeItem` on raw strings. -/
def RawStorage.removeItem (st : RawStorage) (key : String) : RawStorage :=
  fun k => if k = key then none else st k

/-- The function `secureStore`: the write is skipped when `encryptData`
returned `null` (or an empty string). -/
def secureStore {V : Type} (aes : AesGcm) (digest : List Nat → List Nat) (random : Nat → Nat)
    (maxArguments : Nat) (codec : JsonCodec V) (key : String) (data : V) (st : RawStorage) :
    RawStorage :=
  let jsonData := codec.stringify data
  match encryptData aes digest random maxArguments jsonData DEFAULT_KEY_PASSWORD with
  | none => st
  | some encrypted => if encrypted = "" then st else st.setItem key encrypted

/-- The function `secureRetrieve`: `null` for an absent or empty entry, for a
blob that `decryptData` rejects, for an empty plaintext and for a plaintext
that `JSON.parse` rejects. -/
def secureRetrieve {V : Type} (aes : AesGcm) (digest : List Nat → List Nat)
    (codec : JsonCodec V) (key : String) (st : RawStorage) : V :=
  match st key with
  | none => codec.null
  | some encrypted =>
    if encrypted = "" then codec.null
    else
      match decryptData aes digest encrypted DEFAULT_KEY_PASSWORD with
      | none => codec.null
      | some decrypted =>
        if decrypted = "" then codec.null
        else
          match codec.parse decrypted with
          | none => codec.null
          | some value => value

/-- The function `secureRemove`. -/
def secureRemove (key : String) (st : RawStorage) : RawStorage :=
  st.removeItem key

/-! ## SHA-256 (the function computed by `crypto.subtle.digest('SHA-256', _)`)

The hash function of FIPS 180-4 on byte sequences; 32-bit words are natural
numbers reduced modulo 2^32. -/

/-- The round constants. -/
def SHA256_K : List Nat :=
  [0x428a2f98, 0x71374491, 0xb5c0fbcf, 0xe9b5dba5, 0x3956c25b, 0x59f111f1, 0x923f82a4, 0xab1c5ed5,
   0xd807aa98, 0x12835b01, 0x243185be, 0x550c7dc3, 0x72be5d74, 0x80deb1fe, 0x9bdc06a7, 0xc19bf174,
   0xe49b69c1, 0xefbe4786, 0x0fc19dc6, 0x240ca1cc, 0x2de92c6f, 0x4a7484aa, 0x5cb0a9dc, 0x76f988da,
   0x983e5152, 0xa831c66d, 0xb00327c8, 0xbf597fc7, 0xc6e00bf3, 0xd5a79147, 0x06ca6351, 0x14292967,
   0x27b70a85, 0x2e1b2138, 0x4d2c6dfc, 0x53380d13, 0x650a7354, 0x766a0abb, 0x81c2c92e, 0x92722c85,
   0xa2bfe8a1, 0xa81a664b, 0xc24b8b70, 0xc76c51a3, 0xd192e819, 0xd6990624, 0xf40e3585, 0x106aa070,
   0x19a4c116, 0x1e376c08, 0x2748774c, 0x34b0bcb5, 0x391c0cb3, 0x4ed8aa4a, 0x5b9cca4f, 0x682e6ff3,
   0x748f82ee, 0x78a5636f, 0x84c87814, 0x8cc70208, 0x90befffa, 0xa4506ceb, 0xbef9a3f7, 0xc67178f2]

/-- The eight working words. -/
structure Sha256State where
  a : Nat
  b : Nat
  c : Nat
  d : Nat
  e : Nat
  f : Nat
  g : Nat
  h : Nat
  deriving DecidableEq, Repr

/-- The initial hash value. -/
def Sha256State.init : Sha256State where
  a := 0x6a09e667
  b := 0xbb67ae85
  c := 0x3c6ef372
  d := 0xa54ff53a
  e := 0x510e527f
  f := 0x9b05688c
  g := 0x1f83d9ab
  h := 0x5be0cd19

/-- Rotate a 32-bit word right by `n` bits. -/
def rotr32 (x n : Nat) : Nat :=
  ((x >>> n) ||| (x <<< (32 - n))) % 4294967296

/-- The padded message: the byte 0x80, zero bytes up to 56 modulo 64, and the
bit length as 8 big-endian bytes. -/
def sha256Pad (msg : List Nat) : List Nat :=
  let bits := msg.length * 8
  msg ++ [128] ++ List.replicate ((119 - msg.length % 64) % 64) 0
    ++ (List.range 8).map (fun i => bits / 256 ^ (7 - i) % 256)

/-- The 16 big-endian words of a 64-byte block. -/
def sha256Words (block : List Nat) : List Nat :=
  (List.range 16).map (fun i =>
    block.getD (4 * i) 0 * 16777216 + block.getD (4 * i + 1) 0 * 65536
      + block.getD (4 * i + 2) 0 * 256 + block.getD (4 * i + 3) 0)

/-- The message schedule of a block: 64 words. -/
def sha256Schedule (words : List Nat) : List Nat :=
  (List.range 48).foldl (fun w i =>
    let w2 := w.getD (i + 14) 0
    let w15 := w.getD (i + 1) 0
    let s0 := rotr32 w15 7 ^^^ rotr32 w15 18 ^^^ (w15 >>> 3)
    let s1 := rotr32 w2 17 ^^^ rotr32 w2 19 ^^^ (w2 >>> 10)
    w ++ [(s1 + w.getD (i + 9) 0 + s0 + w.getD i 0) % 4294967296]) words

/-- One round of the compression function. -/
def sha256Round (st : Sha256State) (k w : Nat) : Sha256State :=
  let s1 := rotr32 st.e 6 ^^^ rotr32 st.e 11 ^^^ rotr32 st.e 25
  let ch := (st.e &&& st.f) ^^^ ((4294967295 - st.e) &&& st.g)
  let t1 := (st.h + s1 + ch + k + w) % 4294967296
  let s0 := rotr32 st.a 2 ^^^ rotr32 st.a 13 ^^^ rotr32 st.a 22
  let maj := (st.a &&& st.b) ^^^ (st.a &&& st.c) ^^^ (st.b &&& st.c)
  let t2 := (s0 + maj) % 4294967296
  { a := (t1 + t2) % 4294967296
    b := st.a
    c := st.b
    d := st.c
    e := (st.d + t1) % 4294967296
    f := st.e
    g := st.f
    h := st.g }

/-- The compression of one 64-byte block into the hash value. -/
def sha256Compress (hash : Sha256State) (block : List Nat) : Sha256State :=
  let w := sha256Schedule (sha256Words block)
  let st := (List.range 64).foldl (fun st i =>
    sha256Round st (SHA256_K.getD i 0) (w.getD i 0)) hash
  { a := (hash.a + st.a) % 4294967296
    b := (hash.b + st.b) % 4294967296
    c := (hash.c + st.c) % 4294967296
    d := (hash.d + st.d) % 4294967296
    e := (hash.e + st.e) % 4294967296
    f := (hash.f + st.f) % 4294967296
    g := (hash.g + st.g) % 4294967296
    h := (hash.h + st.h) % 4294967296 }

/-- The four big-endian bytes of a 32-bit word. -/
def wordBytes (w : Nat) : List Nat :=
  [w / 16777216 % 256, w / 65536 % 256, w / 256 % 256, w % 256]

/-- The 32-byte SHA-256 digest of a byte sequence. -/
def sha256Digest (data : List Nat) : List Nat :=
  let padded := sha256Pad data
  let hash := (List.range (padded.length / 64)).foldl (fun hash i =>
    sha256Compress hash ((padded.drop (64 * i)).take 64)) Sha256State.init
  wordBytes hash.a ++ wordBytes hash.b ++ wordBytes hash.c ++ wordBytes hash.d
    ++ wordBytes hash.e ++ wordBytes hash.f ++ wordBytes hash.g ++ wordBytes hash.h

/-- A stand-in for the AES-GCM primitive in concrete runs: the ciphertext is
the plaintext followed by 16 bytes of a checksum of key, nonce and plaintext,
and `decrypt` accepts exactly such ciphertexts. It satisfies `AesGcm.Correct`;
it hides nothing. -/
def demoAesGcm : AesGcm where
  encrypt := fun key iv plaintext =>
    if plaintext.all (fun b => decide (b < 256)) then
      some (plaintext ++ List.replicate 16 ((key.sum + iv.sum + plaintext.sum) % 256))
    else none
  decrypt := fun key iv ciphertext =>
    let body := ciphertext.take (ciphertext.length - 16)
    if ciphertext = body ++ List.replicate 16 ((key.sum + iv.sum + body.sum) % 256) then
      some body
    else none

/-- A stand-in for the AES-GCM primitive that has been used for one message
and authenticates ideally: `encrypt` accepts only the bytes of the text `true`
under the nonce drawn from `countingBytes`, and `decrypt` accepts only the
ciphertext produced for them. It satisfies `AesGcm.Correct`, and
`AesGcm.Authenticates` for its one ciphertext. -/
def singleMessageAesGcm : AesGcm where
  encrypt := fun _ iv plaintext =>
    if iv = generateIV countingBytes ∧ plaintext = [116, 114, 117, 101] then
      some ([116, 114, 117, 101] ++ List.replicate 16 2)
    else none
  decrypt := fun _ iv ciphertext =>
    if iv = generateIV countingBytes
        ∧ ciphertext = [116, 114, 117, 101] ++ List.replicate 16 2 then
      some [116, 114, 117, 101]
    else none

/-- The JSON literals. -/
inductive JsonLiteral where
  | litNull
  | litTrue
  | litFalse
  deriving DecidableEq, Repr

/-- The JSON functions on the three literals, for concrete runs: `stringify`
writes `null`, `true`, `false`, and `parse` reads exactly these texts. -/
def literalCodec : JsonCodec JsonLiteral where
  stringify := fun v =>
    match v with
    | .litNull => "null"
    | .litTrue => "true"
    | .litFalse => "false"
  parse := fun s =>
    if s = "null" then some .litNull
    else if s = "true" then some .litTrue
    else if s = "false" then some .litFalse
    else none
  null := .litNull

/-- A raw storage area with no entry. -/
def emptyRawStorage : RawStorage := fun _ => none

/-- A second source of random values for concrete runs: every index gets 7. -/
def constantBytes (_ : Nat) : Nat := 7

/-! ## Session token check -/

/-- The operator `===` on primitives: `NaN` equals nothing, not even itself. -/
def strictEq : Val → Val → Bool
  | .nan, _ => false
  | _, .nan => false
  | a, b => decide (a = b)

/-- The function `verifySessionToken`: the value of
`session && session.token === token`, that is the falsy session itself
(`null` when there is none) or the result of the comparison. -/
def verifySessionToken (now : Int) (token : Val) (s : State) : Json × State :=
  let (session, s1) := getSession now s
  if session.truthy then (.prim (.bool (strictEq (session.get "token") token)), s1)
  else (session, s1)

/-- A state whose session entry is the JSON text of an empty object. -/
def emptyRecordSessionState : State where
  localStorage := emptyStorage
  sessionStorage := emptyStorage.setItem SESSION_KEY (.json (.obj []))

/-! ## Input sanitization and validation (security.js and script.js) -/

/-- The character `&`. -/
def AMPERSAND : Char := Char.ofNat 38

/-- The character `<`. -/
def LESS_THAN : Char := Char.ofNat 60

/-- The character `>`. -/
def GREATER_THAN : Char := Char.ofNat 62

/-- The double quote character. -/
def DOUBLE_QUOTE : Char := Char.ofNat 34

/-- The apostrophe character. -/
def APOSTROPHE : Char := Char.ofNat 39

/-- The character `/`. -/
def SLASH : Char := Char.ofNat 47

/-- The HTML serialization of one character of a text node: `&`, the
no-break space U+00A0, `<` and `>` are written as character references. -/
def escapeTextChar (c : Char) : List Char :=
  if c = AMPERSAND then "&amp;".data
  else if c.toNat = 160 then "&nbsp;".data
  else if c = LESS_THAN then "&lt;".data
  else if c = GREATER_THAN then "&gt;".data
  else [c]

/-- The value of `div.innerHTML` after `div.textContent = text` on a fresh
`div`. -/
def innerHTMLOfText (text : String) : List Char :=
  text.data.flatMap escapeTextChar

/-- The method call `s.replace(/c/g, replacement)` for a pattern of one
character and a replacement without `$`. -/
def replaceAllChar (c : Char) (replacement : String) (s : List Char) : List Char :=
  s.flatMap (fun x => if x = c then replacement.data else [x])

/-- The function `sanitizeInput` of security.js; a value whose `typeof` is not
'string' gives the empty string. -/
def sanitizeInput (input : Json) : String :=
  match input with
  | .prim (.str text) =>
    String.mk
      (replaceAllChar SLASH "&#x2F;"
        (replaceAllChar APOSTROPHE "&#x27;"
          (replaceAllChar DOUBLE_QUOTE "&quot;"
            (replaceAllChar GREATER_THAN "&gt;"
              (replaceAllChar LESS_THAN "&lt;"
                (replaceAllChar AMPERSAND "&amp;" (innerHTMLOfText text)))))))
  | _ => ""

/-- The function `sanitizeInput` of script.js: the same body. -/
def Script.sanitizeInput (input : Json) : String :=
  match input with
  | .prim (.str text) =>
    String.mk
      (replaceAllChar SLASH "&#x2F;"
        (replaceAllChar APOSTROPHE "&#x27;"
          (replaceAllChar DOUBLE_QUOTE "&quot;"
            (replaceAllChar GREATER_THAN "&gt;"
              (replaceAllChar LESS_THAN "&lt;"
                (replaceAllChar AMPERSAND "&amp;" (innerHTMLOfText text)))))))
  | _ => ""

/-- The class `\s` of a regular expression: white space and line
terminators. -/
def isRegexWhitespace (c : Char) : Bool :=
  decide (c.toNat ∈ [9, 10, 11, 12, 13, 32, 160, 5760, 8232, 8233, 8239, 8287, 12288, 65279])
    || (decide (8192 ≤ c.toNat) && decide (c.toNat ≤ 8202))

/-- The class `\d` of a regular expression: the ASCII digits. -/
def isRegexDigit (c : Char) : Bool :=
  decide (48 ≤ c.toNat) && decide (c.toNat ≤ 57)

/-- The class `[6-9]`. -/
def isSixToNine (c : Char) : Bool :=
  decide (54 ≤ c.toNat) && decide (c.toNat ≤ 57)

/-- A regular expression `^c1 c2 ... cn$` given by its character classes,
tested on a string: every class takes exactly one character and nothing may be
left over. -/
def matchAnchored : List (Char → Bool) → List Char → Bool
  | [], [] => true
  | p :: ps, c :: cs => p c && matchAnchored ps cs
  | _, _ => false

/-- The regular expression `/^[6-9]\d{9}$/`. -/
def PHONE_REGEX : List (Char → Bool) :=
  isSixToNine :: List.replicate 9 isRegexDigit

/-- The function `isValidPhone` of security.js, on a string. -/
def isValidPhone (phone : String) : Bool :=
  matchAnchored PHONE_REGEX (phone.data.filter (fun c => !isRegexWhitespace c))

/-- The function `isValidPhone` of script.js: the same body. -/
def Script.isValidPhone (phone : String) : Bool :=
  matchAnchored PHONE_REGEX (phone.data.filter (fun c => !isRegexWhitespace c))

/-! ## Service worker (service-worker.js): the fetch handler -/

/-- The list `STATIC_ASSETS`, cached at install time. -/
def STATIC_ASSETS : List String :=
  ["/", "/index.html", "/services.html", "/construction.html", "/food.html", "/travel.html",
   "/gst.html", "/marketing.html", "/it.html", "/staff-register.html", "/cancel-request.html",
   "/style.css", "/script.js", "/security.js", "/manifest.json"]

/-- The list `ADMIN_PAGES`. -/
def ADMIN_PAGES : List String :=
  ["/admin-login.html", "/admin-dashboard.html", "/admin.js"]

/-- The method `includes` of a string. -/
def includes (s part : String) : Bool :=
  s.data.tails.any (fun t => part.data.isPrefixOf t)

/-- The method `startsWith` of a string. -/
def startsWith (s part : String) : Bool :=
  part.data.isPrefixOf s.data

/-- The method `endsWith` of a string. -/
def endsWith (s part : String) : Bool :=
  part.data.reverse.isPrefixOf s.data.reverse

/-- What the fetch handler reads of a request: `method`, `url`, the
`pathname` and `protocol` of `new URL(request.url)`, `mode`, and the `accept`
header (`none` when `headers.get` returns `null`). -/
structure FetchRequest where
  method : String
  url : String
  pathname : String
  protocol : String
  mode : String
  accept : Option String

/-- What the fetch handler does with the event: it returns without calling
`respondWith`, or responds with `handleStaticAsset(request)`, or with
`handlePageRequest(request)`. -/
inductive FetchOutcome where
  | notHandled
  | staticAsset
  | page
  deriving DecidableEq, Repr

/-- The function `isStaticAsset`. -/
def isStaticAsset (request : FetchRequest) : Bool :=
  let staticExtensions :=
    [".css", ".js", ".json", ".png", ".jpg", ".jpeg", ".gif", ".svg", ".woff", ".woff2"]
  staticExtensions.any (fun ext => endsWith request.url ext)

/-- The function `isPageRequest`; without `accept` header the call of
`includes` on `null` raises a TypeError. -/
def isPageRequest (request : FetchRequest) : Except JSError Bool :=
  if request.mode = "navigate" then .ok true
  else
    match request.accept with
    | none => .error .typeError
    | some accept => .ok (includes accept "text/html")

/-- The listener of the `fetch` event. -/
def onFetch (request : FetchRequest) : Except JSError FetchOutcome :=
  if request.method ≠ "GET" then .ok .notHandled
  else if ADMIN_PAGES.any (fun page => includes request.pathname page) then .ok .notHandled
  else if !startsWith request.protocol "http" then .ok .notHandled
  else if isStaticAsset request then .ok .staticAsset
  else
    match isPageRequest request with
    | .error e => .error e
    | .ok true => .ok .page
    | .ok false => .ok .notHandled

/-! ## Call sequences of the credential gate -/

/-- One call of the credential gate with the clock value it reads. -/
inductive GateCall where
  | authenticateAdmin (now : Int) (username password : String) (random : Nat → Nat)
  | isLoginLocked (now : Int)
  | isSessionValid (now : Int)
  | updateActivity (now : Int)
  | clearSession

/-- The storage state after one call; an exception is passed on. -/
def runCall (digest : List Nat → List Nat) : GateCall → State → Except JSError State
  | .authenticateAdmin now username password random, s =>
    match authenticateAdmin digest random now username password s with
    | .error e => .error e
    | .ok (_, s1) => .ok s1
  | .isLoginLocked now, s =>
    match isLoginLocked now s with
    | .error e => .error e
    | .ok (_, s1) => .ok s1
  | .isSessionValid now, s => .ok (isSessionValid now s).2
  | .updateActivity now, s => .ok (updateActivity now s)
  | .clearSession, s => .ok (clearSession s)

/-- The storage state after a sequence of calls, first call first. -/
def runCalls (digest : List Nat → List Nat) : List GateCall → State → Except JSError State
  | [], s => .ok s
  | call :: rest, s =>
    match runCall digest call s with
    | .error e => .error e
    | .ok s1 => runCalls digest rest s1

/-- The stored attempt count: the number `getLoginAttempts().count`, which is
0 when no attempt record is stored; `none` when it cannot be read as a
number. -/
def storedAttemptCount (s : State) : Option Int :=
  match getLoginAttempts s with
  | .ok attempts => toNumber (attempts.get "count")
  | .error _ => none

/-- Whether a message is one of the two messages that begin with
`Account locked`. -/
def isLockedMessage (message : String) : Bool :=
  "Account locked".data.isPrefixOf message.data

/-- The shape of the durable login state along the calls of the gate: no
records; or an attempt record with count 1 or 2 and no lockout record; or an
attempt record with count 3 together with a lockout record. -/
def LoginInvariant (s : State) : Prop :=
  (s.localStorage LOGIN_ATTEMPTS_KEY = none ∧ s.localStorage LOCKOUT_KEY = none) ∨
  (∃ c t : Int, (c = 1 ∨ c = 2) ∧
    s.localStorage LOGIN_ATTEMPTS_KEY
      = some (.json (.obj [("count", .num c), ("timestamp", .num t)])) ∧
    s.localStorage LOCKOUT_KEY = none) ∨
  (∃ t u : Int,
    s.localStorage LOGIN_ATTEMPTS_KEY
      = some (.json (.obj [("count", .num 3), ("timestamp", .num t)])) ∧
    s.localStorage LOCKOUT_KEY = some (.json (.obj [("until", .num u)])))

/-! ## Theorems -/

/-! ## Storage lemmas -/

theorem setItem_same (st : Storage) (key : String) (v : Item) :
    st.setItem key v key = some v := by
  simp [Storage.setItem]

theorem setItem_other (st : Storage) (key k : String) (v : Item) (h : k ≠ key) :
    st.setItem key v k = st k := by
  simp [Storage.setItem, h]

theorem removeItem_same (st : Storage) (key : String) :
    st.removeItem key key = none := by
  simp [Storage.removeItem]

theorem removeItem_other (st : Storage) (key k : String) (h : k ≠ key) :
    st.removeItem key k = st k := by
  simp [Storage.removeItem, h]

theorem keys_distinct :
    LOGIN_ATTEMPTS_KEY ≠ LOCKOUT_KEY ∧ LOCKOUT_KEY ≠ LOGIN_ATTEMPTS_KEY := by
  decide

/-- A stored lockout record whose `until` is the number `u`: what
`isLoginLocked` computes. -/
theorem isLoginLocked_record (now : Int) (s : State) (fields : List (String × Val)) (u : Int)
    (hrec : s.localStorage LOCKOUT_KEY = some (.json (.obj fields)))
    (huntil : fields.lookup "until" = some (.num u)) :
    isLoginLocked now s =
      if now < u then
        .ok ({ locked := true, remaining := some ((u - now + 59999) / 60000) }, s)
      else
        .ok ({ locked := false, remaining := some 0 },
          resetLoginAttempts { s with localStorage := s.localStorage.removeItem LOCKOUT_KEY }) := by
  simp [isLoginLocked, Storage.getItem, hrec, falsyItem, Json.nullish, Json.get, huntil,
    toNumber, numLt, numSub, ceilMinutes]

/-- With no lockout entry, `isLoginLocked` reports unlocked and leaves the
state alone. -/
theorem isLoginLocked_absent (now : Int) (s : State)
    (h : s.localStorage LOCKOUT_KEY = none) :
    isLoginLocked now s = .ok ({ locked := false, remaining := some 0 }, s) := by
  simp [isLoginLocked, Storage.getItem, h, falsyItem]

/-- C1: while a lockout record with `now < until` is stored, `authenticateAdmin`
rejects every username and password (the correct ones included) with
`success: false` and `locked: true`, and it returns the storage state it was
given: attempt record, lockout record and session record are untouched. -/
theorem authenticateAdmin_locked_rejects (digest : List Nat → List Nat) (random : Nat → Nat)
    (now : Int) (username password : String) (s : State)
    (fields : List (String × Val)) (u : Int)
    (hrec : s.localStorage LOCKOUT_KEY = some (.json (.obj fields)))
    (huntil : fields.lookup "until" = some (.num u))
    (hlt : now < u) :
    ∃ r : AuthResult,
      authenticateAdmin digest random now username password s = .ok (r, s) ∧
      r.success = false ∧ r.locked = some true ∧ r.token = none ∧
      r.message = "Account locked. Try again in "
        ++ toString ((u - now + 59999) / 60000) ++ " minutes." := by
  have h : authenticateAdmin digest random now username password s =
      .ok ({ success := false
             message := "Account locked. Try again in "
               ++ toString ((u - now + 59999) / 60000) ++ " minutes."
             locked := some true
             token := none }, s) := by
    unfold authenticateAdmin
    rw [isLoginLocked_record now s fields u hrec huntil, if_pos hlt]
    simp [numToString]
  exact ⟨_, h, rfl, rfl, rfl, rfl⟩


/-- C1 at a concrete input: the correct credentials are rejected while locked. -/
theorem authenticateAdmin_locked_rejects_witness :
    (2000 : Int) < 601000 ∧
    ∃ r : AuthResult,
      authenticateAdmin tableDigest countingBytes 2000 "admin" "Click1Secure@2024" lockedState
        = .ok (r, lockedState) ∧
      r.success = false ∧ r.locked = some true ∧ r.token = none ∧
      r.message = "Account locked. Try again in "
        ++ toString (((601000 : Int) - 2000 + 59999) / 60000) ++ " minutes." :=
  ⟨by decide, authenticateAdmin_locked_rejects tableDigest countingBytes 2000 "admin"
    "Click1Secure@2024" lockedState [("until", .num 601000)] 601000 rfl rfl (by decide)⟩

/-- When `isLoginLocked` returns, its `locked` flag is `lockoutActive`. -/
theorem isLoginLocked_locked_eq (now : Int) (s s1 : State) (st : LockStatus)
    (h : isLoginLocked now s = .ok (st, s1)) : st.locked = lockoutActive now s := by
  unfold isLoginLocked at h
  unfold lockoutActive
  simp only [Storage.getItem] at h
  cases hc : s.localStorage LOCKOUT_KEY with
  | none =>
    simp only [hc, falsyItem, if_true, Except.ok.injEq, Prod.mk.injEq] at h
    rw [← h.1]
  | some item =>
    cases item with
    | empty =>
      simp only [hc, falsyItem, if_true, Except.ok.injEq, Prod.mk.injEq] at h
      rw [← h.1]
    | invalid => simp [hc, falsyItem] at h
    | json lockout =>
      simp only [hc, falsyItem] at h
      by_cases hn : lockout.nullish = true
      · simp [hn] at h
      · by_cases hl : numLt (some now) (toNumber (lockout.get "until")) = true
        · simp [hn, hl] at h
          rw [← h.1]; simp [hl]
        · simp [hn, hl] at h
          rw [← h.1]; simp [hl]

/-- A readable lockout entry never makes `isLoginLocked` raise. -/
theorem isLoginLocked_ok_of_readable (now : Int) (s : State) (h : lockoutReadable s = true) :
    ∃ st s1, isLoginLocked now s = .ok (st, s1) := by
  unfold lockoutReadable at h
  unfold isLoginLocked
  simp only [Storage.getItem]
  cases hc : s.localStorage LOCKOUT_KEY with
  | none => simp [falsyItem]
  | some item =>
    cases item with
    | empty => simp [falsyItem]
    | invalid => simp [hc] at h
    | json lockout =>
      simp only [hc, Bool.not_eq_true'] at h
      by_cases hl : numLt (some now) (toNumber (lockout.get "until")) = true
      · simp [falsyItem, h, hl]
      · simp [falsyItem, h, hl]

/-- The function `authenticateAdmin` after a lockout check that passed with a
password of sufficient length and matching hashes. -/
theorem authenticateAdmin_match (digest : List Nat → List Nat) (random : Nat → Nat) (now : Int)
    (username password : String) (s s1 : State) (st : LockStatus)
    (hlock : isLoginLocked now s = .ok (st, s1)) (hun : st.locked = false)
    (hlen : SECURITY_CONFIG.MIN_PASSWORD_LENGTH ≤ jsLength password)
    (hu : sha256 digest username = ADMIN_CREDENTIALS.usernameHash)
    (hp : sha256 digest password = ADMIN_CREDENTIALS.passwordHash) :
    authenticateAdmin digest random now username password s =
      .ok ({ success := true
             message := "Login successful"
             locked := none
             token := some (createSession random now (resetLoginAttempts s1)).1.token },
           (createSession random now (resetLoginAttempts s1)).2) := by
  unfold authenticateAdmin
  simp [hlock, hun, Nat.not_lt.mpr hlen, verifyHash, hu, hp]

/-- The lockout check in an unlocked state: it returns and reports
unlocked. -/
theorem isLoginLocked_unlocked (now : Int) (s : State) (hstate : unlockedState now s = true) :
    ∃ st s1, isLoginLocked now s = .ok (st, s1) ∧ st.locked = false := by
  unfold unlockedState at hstate
  cases hc : s.localStorage LOCKOUT_KEY with
  | none => exact ⟨_, _, isLoginLocked_absent now s hc, rfl⟩
  | some item =>
    cases item with
    | empty =>
      have he : isLoginLocked now s = .ok ({ locked := false, remaining := some 0 }, s) := by
        simp [isLoginLocked, Storage.getItem, hc, falsyItem]
      exact ⟨_, _, he, rfl⟩
    | invalid => simp [hc] at hstate
    | json lockout =>
      simp only [hc, Bool.and_eq_true, Bool.not_eq_true'] at hstate
      obtain ⟨hnull, huntil⟩ := hstate
      have hlt : numLt (some now) (toNumber (lockout.get "until")) = false := by
        cases hv : lockout.get "until" <;> simp_all
      have he : isLoginLocked now s = .ok ({ locked := false, remaining := some 0 },
          resetLoginAttempts { s with localStorage := s.localStorage.removeItem LOCKOUT_KEY }) := by
        simp [isLoginLocked, Storage.getItem, hc, falsyItem, hnull, hlt]
      exact ⟨_, _, he, rfl⟩

/-- Success of `authenticateAdmin` in the states whose lockout entry the
lockout check can read. A result with `success: true` comes only with no
unexpired lockout stored, a password of at least MIN_PASSWORD_LENGTH (8)
UTF-16 code units and both SHA-256 texts equal to the stored hashes, in every
storage state; conversely, in an unlocked state (`unlockedState`) a password
of that length with both hashes equal gives `success: true`. An entry that is
not JSON makes the call raise instead. -/
theorem authenticateAdmin_success_iff (digest : List Nat → List Nat) (random : Nat → Nat)
    (now : Int) (username password : String) (s : State) :
    ((∃ r s1, authenticateAdmin digest random now username password s = .ok (r, s1) ∧
        r.success = true) →
      lockoutActive now s = false ∧
      SECURITY_CONFIG.MIN_PASSWORD_LENGTH ≤ jsLength password ∧
      sha256 digest username = ADMIN_CREDENTIALS.usernameHash ∧
      sha256 digest password = ADMIN_CREDENTIALS.passwordHash) ∧
    (unlockedState now s = true →
      SECURITY_CONFIG.MIN_PASSWORD_LENGTH ≤ jsLength password →
      sha256 digest username = ADMIN_CREDENTIALS.usernameHash →
      sha256 digest password = ADMIN_CREDENTIALS.passwordHash →
      ∃ r s1, authenticateAdmin digest random now username password s = .ok (r, s1) ∧
        r.success = true) := by
  constructor
  · rintro ⟨r, s2, hauth, hsucc⟩
    unfold authenticateAdmin at hauth
    cases hl : isLoginLocked now s with
    | error e => simp [hl] at hauth
    | ok p =>
      obtain ⟨st, s1⟩ := p
      have hact := isLoginLocked_locked_eq now s s1 st hl
      simp only [hl] at hauth
      by_cases hlocked : st.locked = true
      · simp [hlocked] at hauth
        rw [← hauth.1] at hsucc
        simp at hsucc
      · simp only [hlocked, Bool.false_eq_true, if_false] at hauth
        by_cases hshort : jsLength password < SECURITY_CONFIG.MIN_PASSWORD_LENGTH
        · simp [hshort] at hauth
          rw [← hauth.1] at hsucc
          simp at hsucc
        · simp only [hshort, if_false] at hauth
          by_cases hm : (verifyHash digest username ADMIN_CREDENTIALS.usernameHash &&
              verifyHash digest password ADMIN_CREDENTIALS.passwordHash) = true
          · simp only [Bool.and_eq_true, verifyHash, decide_eq_true_eq] at hm
            refine ⟨?_, Nat.not_lt.mp hshort, hm.1, hm.2⟩
            rw [← hact]
            simpa using hlocked
          · simp only [hm, Bool.false_eq_true, if_false] at hauth
            cases hr : recordFailedAttempt now s1 with
            | error e => simp [hr] at hauth
            | ok s3 =>
              simp only [hr] at hauth
              cases hg : getLoginAttempts s3 with
              | error e => simp [hg] at hauth
              | ok attempts =>
                simp only [hg] at hauth
                by_cases hn : attempts.nullish = true
                · simp [hn] at hauth
                · simp [hn] at hauth
                  rw [← hauth.1] at hsucc
                  simp at hsucc
  · intro hstate hlen hu hp
    obtain ⟨st, s1, hl, hun⟩ := isLoginLocked_unlocked now s hstate
    exact ⟨_, _, authenticateAdmin_match digest random now username password s s1 st hl hun
      hlen hu hp, rfl⟩

/-- The reference credentials succeed from empty storage. -/
theorem authenticateAdmin_success_iff_witness :
    ∃ r s1, authenticateAdmin tableDigest countingBytes 1000 "admin" "Click1Secure@2024"
      State.init = .ok (r, s1) ∧ r.success = true :=
  (authenticateAdmin_success_iff tableDigest countingBytes 1000 "admin" "Click1Secure@2024"
    State.init).2 rfl (by decide) (by decide) (by decide)

/-! ## Object field lemmas -/

theorem lookup_setField_same (fs : List (String × Val)) (k : String) (v : Val) :
    (setField fs k v).lookup k = some v := by
  induction fs with
  | nil => simp [setField, List.lookup]
  | cons hd tl ih =>
    obtain ⟨k0, v0⟩ := hd
    by_cases h : k0 = k
    · simp [setField, h, List.lookup]
    · have h2 : (k == k0) = false := by simpa using fun e => h e.symm
      simp [setField, h, List.lookup, h2, ih]

theorem lookup_setField_other (fs : List (String × Val)) (k k1 : String) (v : Val)
    (hne : k1 ≠ k) : (setField fs k v).lookup k1 = fs.lookup k1 := by
  induction fs with
  | nil =>
    have h2 : (k1 == k) = false := by simpa using hne
    simp [setField, List.lookup, h2]
  | cons hd tl ih =>
    obtain ⟨k0, v0⟩ := hd
    by_cases h : k0 = k
    · subst h
      have h2 : (k1 == k0) = false := by simpa using hne
      simp [setField, List.lookup, h2]
    · by_cases h3 : k1 = k0
      · subst h3
        simp [setField, h, List.lookup]
      · have h4 : (k1 == k0) = false := by simpa using h3
        simp [setField, h, List.lookup, h4, ih]

theorem stringifyField_fst (p q : String × Val) (h : stringifyField p = some q) :
    q.1 = p.1 := by
  obtain ⟨k, v⟩ := p
  cases v <;> simp [stringifyField] at h <;> rw [← h]

theorem lookup_filterMap_stringifyField (fs : List (String × Val)) (k : String) (v w : Val)
    (hl : fs.lookup k = some v) (hs : stringifyField (k, v) = some (k, w)) :
    (fs.filterMap stringifyField).lookup k = some w := by
  induction fs with
  | nil => simp [List.lookup] at hl
  | cons hd tl ih =>
    obtain ⟨k0, v0⟩ := hd
    by_cases h : k = k0
    · subst h
      simp [List.lookup] at hl
      subst hl
      simp [List.filterMap_cons, hs, List.lookup]
    · have h2 : (k == k0) = false := by simpa using h
      simp only [List.lookup, h2] at hl
      cases hf : stringifyField (k0, v0) with
      | none => simp [List.filterMap_cons, hf, ih hl]
      | some q =>
        have hq := stringifyField_fst (k0, v0) q hf
        obtain ⟨k2, v2⟩ := q
        simp only at hq
        subst hq
        simp [List.filterMap_cons, hf, List.lookup, h2, ih hl]

/-! ## The credential-mismatch path -/

/-- The attempts object after `attempts.count++` and `attempts.timestamp = now`
reads back, once stored, with count `c + 1`. -/
theorem stored_count_after_increment (fields : List (String × Val)) (c now : Int) :
    ((setField (setField fields "count" (.num (c + 1))) "timestamp" (.num now)).filterMap
      stringifyField).lookup "count" = some (.num (c + 1)) := by
  apply lookup_filterMap_stringifyField _ _ (.num (c + 1))
  · rw [lookup_setField_other _ _ _ _ (by decide), lookup_setField_same]
  · rfl

/-- What `recordFailedAttempt` does when the attempts object read from storage
is the object `fields` with numeric count `c`. -/
theorem recordFailedAttempt_record (now : Int) (s : State) (fields : List (String × Val))
    (c : Int) (hatt : getLoginAttempts s = .ok (.obj fields))
    (hcount : fields.lookup "count" = some (.num c)) :
    recordFailedAttempt now s =
      .ok (if SECURITY_CONFIG.MAX_LOGIN_ATTEMPTS ≤ c + 1 then
          setLockout now { s with localStorage := (s.localStorage.setItem LOGIN_ATTEMPTS_KEY
            (stringify (((Json.obj fields).set "count" (.num (c + 1))).set "timestamp"
              (.num now)))) }
        else { s with localStorage := (s.localStorage.setItem LOGIN_ATTEMPTS_KEY
            (stringify (((Json.obj fields).set "count" (.num (c + 1))).set "timestamp"
              (.num now)))) }) := by
  unfold recordFailedAttempt
  have h1 : (setField (setField fields "count" (.num (c + 1))) "timestamp" (.num now)).lookup
      "count" = some (.num (c + 1)) := by
    rw [lookup_setField_other _ _ _ _ (by decide), lookup_setField_same]
  simp only [hatt, Json.nullish, Json.get, hcount, Option.getD_some, toNumber, numAdd, numToVal,
    Json.set, h1, numGe, Bool.false_eq_true, if_false, decide_eq_true_eq]
  split <;> rfl

/-- The attempts object that `getLoginAttempts` reads after a recorded failure. -/
theorem getLoginAttempts_after_record (now : Int) (s : State) (fields : List (String × Val))
    (c : Int) :
    getLoginAttempts (if SECURITY_CONFIG.MAX_LOGIN_ATTEMPTS ≤ c + 1 then
          setLockout now { s with localStorage := (s.localStorage.setItem LOGIN_ATTEMPTS_KEY
            (stringify (((Json.obj fields).set "count" (.num (c + 1))).set "timestamp"
              (.num now)))) }
        else { s with localStorage := (s.localStorage.setItem LOGIN_ATTEMPTS_KEY
            (stringify (((Json.obj fields).set "count" (.num (c + 1))).set "timestamp"
              (.num now)))) }) =
      .ok (.obj ((setField (setField fields "count" (.num (c + 1))) "timestamp"
        (.num now)).filterMap stringifyField)) := by
  split
  · simp [getLoginAttempts, setLockout, Storage.getItem, Storage.setItem, keys_distinct.1,
      Json.set, stringify, falsyItem]
  · simp [getLoginAttempts, Storage.getItem, Storage.setItem, Json.set, stringify, falsyItem]

/-- The function `authenticateAdmin` on the credential-mismatch path: the
lockout check passed, the password is long enough, the hashes do not both
match, and the attempts object read from storage has numeric count `c`. -/
theorem authenticateAdmin_mismatch (digest : List Nat → List Nat) (random : Nat → Nat)
    (now : Int) (username password : String) (s s1 : State) (st : LockStatus)
    (fields : List (String × Val)) (c : Int)
    (hlock : isLoginLocked now s = .ok (st, s1)) (hun : st.locked = false)
    (hlen : SECURITY_CONFIG.MIN_PASSWORD_LENGTH ≤ jsLength password)
    (hmis : ¬ (sha256 digest username = ADMIN_CREDENTIALS.usernameHash ∧
      sha256 digest password = ADMIN_CREDENTIALS.passwordHash))
    (hatt : getLoginAttempts s1 = .ok (.obj fields))
    (hcount : fields.lookup "count" = some (.num c)) :
    authenticateAdmin digest random now username password s =
      .ok ({ success := false
             message :=
               if 0 < SECURITY_CONFIG.MAX_LOGIN_ATTEMPTS - (c + 1) then
                 "Invalid credentials. "
                   ++ toString (SECURITY_CONFIG.MAX_LOGIN_ATTEMPTS - (c + 1))
                   ++ " attempts remaining."
               else "Account locked due to too many failed attempts."
             locked := some (decide (SECURITY_CONFIG.MAX_LOGIN_ATTEMPTS - (c + 1) = 0))
             token := none },
           if SECURITY_CONFIG.MAX_LOGIN_ATTEMPTS ≤ c + 1 then
             setLockout now { s1 with localStorage := (s1.localStorage.setItem LOGIN_ATTEMPTS_KEY
               (stringify (((Json.obj fields).set "count" (.num (c + 1))).set "timestamp"
                 (.num now)))) }
           else { s1 with localStorage := (s1.localStorage.setItem LOGIN_ATTEMPTS_KEY
               (stringify (((Json.obj fields).set "count" (.num (c + 1))).set "timestamp"
                 (.num now)))) }) := by
  unfold authenticateAdmin
  have hm : (verifyHash digest username ADMIN_CREDENTIALS.usernameHash &&
      verifyHash digest password ADMIN_CREDENTIALS.passwordHash) = false := by
    simpa [verifyHash] using hmis
  simp only [hlock, hun, Bool.false_eq_true, if_false, Nat.not_lt.mpr hlen, hm,
    recordFailedAttempt_record now s1 fields c hatt hcount,
    getLoginAttempts_after_record now s1 fields c, Json.nullish, Json.get,
    stored_count_after_increment fields c now, Option.getD_some, toNumber, numSub, numGt, numLt,
    numStrictEq, numToString, decide_eq_true_eq]

/-- One failed login from a state without lockout entry whose attempts entry
is absent (`c = 0`) or the record written by the previous failure. -/
theorem authenticateAdmin_fail_step (digest : List Nat → List Nat) (random : Nat → Nat)
    (now : Int) (username password : String) (s : State) (fields : List (String × Val))
    (c : Int)
    (hlock : s.localStorage LOCKOUT_KEY = none)
    (hatt : getLoginAttempts s = .ok (.obj fields))
    (hcount : fields.lookup "count" = some (.num c))
    (hlen : SECURITY_CONFIG.MIN_PASSWORD_LENGTH ≤ jsLength password)
    (hmis : ¬ (sha256 digest username = ADMIN_CREDENTIALS.usernameHash ∧
      sha256 digest password = ADMIN_CREDENTIALS.passwordHash)) :
    authenticateAdmin digest random now username password s =
      .ok ({ success := false
             message :=
               if 0 < SECURITY_CONFIG.MAX_LOGIN_ATTEMPTS - (c + 1) then
                 "Invalid credentials. "
                   ++ toString (SECURITY_CONFIG.MAX_LOGIN_ATTEMPTS - (c + 1))
                   ++ " attempts remaining."
               else "Account locked due to too many failed attempts."
             locked := some (decide (SECURITY_CONFIG.MAX_LOGIN_ATTEMPTS - (c + 1) = 0))
             token := none },
           if SECURITY_CONFIG.MAX_LOGIN_ATTEMPTS ≤ c + 1 then
             setLockout now { s with localStorage := (s.localStorage.setItem LOGIN_ATTEMPTS_KEY
               (stringify (((Json.obj fields).set "count" (.num (c + 1))).set "timestamp"
                 (.num now)))) }
           else { s with localStorage := (s.localStorage.setItem LOGIN_ATTEMPTS_KEY
               (stringify (((Json.obj fields).set "count" (.num (c + 1))).set "timestamp"
                 (.num now)))) }) :=
  authenticateAdmin_mismatch digest random now username password s s _ fields c
    (isLoginLocked_absent now s hlock) rfl hlen hmis hatt hcount

/-- C3: from a state with no attempt record and no lockout record, three
consecutive `authenticateAdmin` calls with mismatching credentials (passwords
of at least 8 code units) answer `locked: false` with 2 and then 1 attempts
remaining, and `locked: true` on the third call, after which a lockout record
(until = time of the third call + 10 minutes) and the attempt count 3 are
stored; a fourth call before `until`, with any credentials, is rejected with
`locked: true` and leaves the state, hence the count 3, as it is. -/
theorem lockout_after_three_failures (digest : List Nat → List Nat) (random : Nat → Nat)
    (t1 t2 t3 t4 : Int) (u1 p1 u2 p2 u3 p3 u4 p4 : String) (s : State)
    (hatt : s.localStorage LOGIN_ATTEMPTS_KEY = none)
    (hlock : s.localStorage LOCKOUT_KEY = none)
    (hlen1 : 8 ≤ jsLength p1) (hlen2 : 8 ≤ jsLength p2) (hlen3 : 8 ≤ jsLength p3)
    (hmis1 : ¬ (sha256 digest u1 = ADMIN_CREDENTIALS.usernameHash ∧
      sha256 digest p1 = ADMIN_CREDENTIALS.passwordHash))
    (hmis2 : ¬ (sha256 digest u2 = ADMIN_CREDENTIALS.usernameHash ∧
      sha256 digest p2 = ADMIN_CREDENTIALS.passwordHash))
    (hmis3 : ¬ (sha256 digest u3 = ADMIN_CREDENTIALS.usernameHash ∧
      sha256 digest p3 = ADMIN_CREDENTIALS.passwordHash))
    (h4 : t4 < t3 + 600000) :
    ∃ (r1 r2 r3 r4 : AuthResult) (s1 s2 s3 : State),
      authenticateAdmin digest random t1 u1 p1 s = .ok (r1, s1) ∧
      r1.success = false ∧ r1.locked = some false ∧
      r1.message = "Invalid credentials. 2 attempts remaining." ∧
      authenticateAdmin digest random t2 u2 p2 s1 = .ok (r2, s2) ∧
      r2.success = false ∧ r2.locked = some false ∧
      r2.message = "Invalid credentials. 1 attempts remaining." ∧
      authenticateAdmin digest random t3 u3 p3 s2 = .ok (r3, s3) ∧
      r3.success = false ∧ r3.locked = some true ∧
      r3.message = "Account locked due to too many failed attempts." ∧
      s3.localStorage LOCKOUT_KEY = some (.json (.obj [("until", .num (t3 + 600000))])) ∧
      s3.localStorage LOGIN_ATTEMPTS_KEY =
        some (.json (.obj [("count", .num 3), ("timestamp", .num t3)])) ∧
      authenticateAdmin digest random t4 u4 p4 s3 = .ok (r4, s3) ∧
      r4.success = false ∧ r4.locked = some true := by
  have hk := keys_distinct
  -- first failure
  have A0 : getLoginAttempts s = .ok (.obj [("count", .num 0), ("timestamp", .null)]) := by
    simp [getLoginAttempts, Storage.getItem, hatt, falsyItem]
  obtain ⟨s1, hs1⟩ : ∃ s1 : State, s1 = { s with localStorage :=
      (s.localStorage.setItem LOGIN_ATTEMPTS_KEY
        (.json (.obj [("count", .num 1), ("timestamp", .num t1)]))) } := ⟨_, rfl⟩
  have e1 : authenticateAdmin digest random t1 u1 p1 s =
      .ok (⟨false, "Invalid credentials. 2 attempts remaining.", some false, none⟩, s1) := by
    rw [authenticateAdmin_fail_step digest random t1 u1 p1 s _ 0 hlock A0 rfl hlen1 hmis1, hs1]
    rfl
  have L1 : s1.localStorage LOCKOUT_KEY = none := by
    rw [hs1]; simp [Storage.setItem, hk.2, hlock]
  have A1 : getLoginAttempts s1 = .ok (.obj [("count", .num 1), ("timestamp", .num t1)]) := by
    rw [hs1]; simp [getLoginAttempts, Storage.getItem, Storage.setItem, falsyItem]
  -- second failure
  obtain ⟨s2, hs2⟩ : ∃ s2 : State, s2 = { s1 with localStorage :=
      (s1.localStorage.setItem LOGIN_ATTEMPTS_KEY
        (.json (.obj [("count", .num 2), ("timestamp", .num t2)]))) } := ⟨_, rfl⟩
  have e2 : authenticateAdmin digest random t2 u2 p2 s1 =
      .ok (⟨false, "Invalid credentials. 1 attempts remaining.", some false, none⟩, s2) := by
    rw [authenticateAdmin_fail_step digest random t2 u2 p2 s1 _ 1 L1 A1 rfl hlen2 hmis2, hs2]
    rfl
  have L2 : s2.localStorage LOCKOUT_KEY = none := by
    rw [hs2]; simp [Storage.setItem, hk.2, L1]
  have A2 : getLoginAttempts s2 = .ok (.obj [("count", .num 2), ("timestamp", .num t2)]) := by
    rw [hs2]; simp [getLoginAttempts, Storage.getItem, Storage.setItem, falsyItem]
  -- third failure
  obtain ⟨s3, hs3⟩ : ∃ s3 : State, s3 = setLockout t3 { s2 with localStorage :=
      (s2.localStorage.setItem LOGIN_ATTEMPTS_KEY
        (.json (.obj [("count", .num 3), ("timestamp", .num t3)]))) } := ⟨_, rfl⟩
  have e3 : authenticateAdmin digest random t3 u3 p3 s2 =
      .ok (⟨false, "Account locked due to too many failed attempts.", some true, none⟩, s3) := by
    rw [authenticateAdmin_fail_step digest random t3 u3 p3 s2 _ 2 L2 A2 rfl hlen3 hmis3, hs3]
    rfl
  have L3 : s3.localStorage LOCKOUT_KEY = some (.json (.obj [("until", .num (t3 + 600000))])) := by
    rw [hs3]
    simp [setLockout, Storage.setItem, SECURITY_CONFIG, stringify, stringifyField]
  have A3 : s3.localStorage LOGIN_ATTEMPTS_KEY =
      some (.json (.obj [("count", .num 3), ("timestamp", .num t3)])) := by
    rw [hs3]
    simp [setLockout, Storage.setItem, hk.1]
  -- fourth call, while locked
  have e4 : ∃ r4 : AuthResult, authenticateAdmin digest random t4 u4 p4 s3 = .ok (r4, s3) ∧
      r4.success = false ∧ r4.locked = some true := by
    unfold authenticateAdmin
    rw [isLoginLocked_record t4 s3 _ (t3 + 600000) L3 rfl, if_pos h4]
    exact ⟨_, rfl, rfl, rfl⟩
  obtain ⟨r4, e4, hr4⟩ := e4
  exact ⟨_, _, _, r4, s1, s2, s3, e1, rfl, rfl, rfl, e2, rfl, rfl, rfl, e3, rfl, rfl, rfl,
    L3, A3, e4, hr4.1, hr4.2⟩

/-- C3 at a concrete input: three wrong passwords from empty storage, then the
correct credentials while locked. -/
theorem lockout_after_three_failures_witness :
    ∃ (r1 r2 r3 r4 : AuthResult) (s1 s2 s3 : State),
      authenticateAdmin tableDigest countingBytes 1000 "admin" "password1" State.init
        = .ok (r1, s1) ∧
      r1.success = false ∧ r1.locked = some false ∧
      r1.message = "Invalid credentials. 2 attempts remaining." ∧
      authenticateAdmin tableDigest countingBytes 2000 "admin" "password2" s1 = .ok (r2, s2) ∧
      r2.success = false ∧ r2.locked = some false ∧
      r2.message = "Invalid credentials. 1 attempts remaining." ∧
      authenticateAdmin tableDigest countingBytes 3000 "root" "Click1Secure@2024" s2
        = .ok (r3, s3) ∧
      r3.success = false ∧ r3.locked = some true ∧
      r3.message = "Account locked due to too many failed attempts." ∧
      s3.localStorage LOCKOUT_KEY = some (.json (.obj [("until", .num (3000 + 600000))])) ∧
      s3.localStorage LOGIN_ATTEMPTS_KEY =
        some (.json (.obj [("count", .num 3), ("timestamp", .num 3000)])) ∧
      authenticateAdmin tableDigest countingBytes 4000 "admin" "Click1Secure@2024" s3
        = .ok (r4, s3) ∧
      r4.success = false ∧ r4.locked = some true :=
  lockout_after_three_failures tableDigest countingBytes 1000 2000 3000 4000
    "admin" "password1" "admin" "password2" "root" "Click1Secure@2024"
    "admin" "Click1Secure@2024" State.init rfl rfl (by decide) (by decide) (by decide)
    (by decide) (by decide) (by decide) (by decide)

/-- After a lockout check that reports unlocked, no lockout record is left:
the entry is absent or the empty string. -/
theorem isLoginLocked_unlocked_falsy (now : Int) (s s1 : State) (st : LockStatus)
    (h : isLoginLocked now s = .ok (st, s1)) (hun : st.locked = false) :
    falsyItem (s1.localStorage LOCKOUT_KEY) = true := by
  unfold isLoginLocked at h
  simp only [Storage.getItem] at h
  by_cases hf : falsyItem (s.localStorage LOCKOUT_KEY) = true
  · simp only [hf, if_true, Except.ok.injEq, Prod.mk.injEq] at h
    rw [← h.2]; exact hf
  · simp only [hf, Bool.false_eq_true, if_false] at h
    cases hc : s.localStorage LOCKOUT_KEY with
    | none => simp [hc, falsyItem] at hf
    | some item =>
      cases item with
      | empty => simp [hc, falsyItem] at hf
      | invalid => simp [hc] at h
      | json lockout =>
        simp only [hc] at h
        by_cases hn : lockout.nullish = true
        · simp [hn] at h
        · by_cases hl : numLt (some now) (toNumber (lockout.get "until")) = true
          · simp [hn, hl] at h
            rw [← h.1] at hun
            simp at hun
          · simp [hn, hl] at h
            rw [← h.2]
            simp [resetLoginAttempts, Storage.removeItem, keys_distinct.2, falsyItem]

/-- C4, the claim as stated fails: in `lockedState` the stored attempt count
is 3 and the lockout record (until 601000) has expired at time 700000, so a
mismatch with an 8-unit password reaches the hash comparison; the lockout
check has cleared the attempt record first, and the stored count afterwards is
1, not 3 + 1. -/
theorem attempt_count_restarts_after_expired_lockout :
    lockedState.localStorage LOGIN_ATTEMPTS_KEY =
      some (.json (.obj [("count", .num 3), ("timestamp", .num 1000)])) ∧
    lockoutActive 700000 lockedState = false ∧
    8 ≤ jsLength "password" ∧
    ¬ (sha256 tableDigest "admin" = ADMIN_CREDENTIALS.usernameHash ∧
       sha256 tableDigest "password" = ADMIN_CREDENTIALS.passwordHash) ∧
    ∃ r s1, authenticateAdmin tableDigest countingBytes 700000 "admin" "password" lockedState
        = .ok (r, s1) ∧
      s1.localStorage LOGIN_ATTEMPTS_KEY =
        some (.json (.obj [("count", .num 1), ("timestamp", .num 700000)])) ∧
      s1.localStorage LOGIN_ATTEMPTS_KEY ≠
        some (.json (.obj [("count", .num (3 + 1)), ("timestamp", .num 700000)])) :=
  ⟨rfl, by decide, by decide, by decide, _, _, rfl, rfl, by decide⟩

/-- C4, amended: let `c` be the attempt count read once the lockout check has
passed (the stored count when no lockout record is stored, 0 when the check has
just cleared an expired lockout together with the attempt record). A credential
mismatch with a password of at least 8 code units then stores the count
`c + 1`; it writes a lockout record with until = now + 10 minutes when
`c + 1 >= 3` and leaves no lockout record otherwise; the result is a failure
that reports `3 - (c + 1)` remaining attempts with `locked: false` when that
number is positive, and the locked message with `locked: true` when
`c + 1 = 3`. -/
theorem authenticateAdmin_mismatch_counts (digest : List Nat → List Nat) (random : Nat → Nat)
    (now : Int) (username password : String) (s s1 : State) (st : LockStatus)
    (fields : List (String × Val)) (c : Int)
    (hlock : isLoginLocked now s = .ok (st, s1)) (hun : st.locked = false)
    (hlen : 8 ≤ jsLength password)
    (hmis : ¬ (sha256 digest username = ADMIN_CREDENTIALS.usernameHash ∧
      sha256 digest password = ADMIN_CREDENTIALS.passwordHash))
    (hatt : getLoginAttempts s1 = .ok (.obj fields))
    (hcount : fields.lookup "count" = some (.num c)) :
    ∃ (r : AuthResult) (s2 : State) (fields2 : List (String × Val)),
      authenticateAdmin digest random now username password s = .ok (r, s2) ∧
      getLoginAttempts s2 = .ok (.obj fields2) ∧
      fields2.lookup "count" = some (.num (c + 1)) ∧
      (3 ≤ c + 1 → s2.localStorage LOCKOUT_KEY =
        some (.json (.obj [("until", .num (now + 10 * 60 * 1000))]))) ∧
      (c + 1 < 3 → falsyItem (s2.localStorage LOCKOUT_KEY) = true) ∧
      r.success = false ∧ r.token = none ∧
      (0 < 3 - (c + 1) → r.locked = some false ∧
        r.message = "Invalid credentials. " ++ toString (3 - (c + 1))
          ++ " attempts remaining.") ∧
      (c + 1 = 3 → r.locked = some true ∧
        r.message = "Account locked due to too many failed attempts.") := by
  have hstep := authenticateAdmin_mismatch digest random now username password s s1 st fields c
    hlock hun hlen hmis hatt hcount
  have hget := getLoginAttempts_after_record now s1 fields c
  have hfalsy := isLoginLocked_unlocked_falsy now s s1 st hlock hun
  refine ⟨_, _, _, hstep, hget, stored_count_after_increment fields c now, ?_, ?_, rfl, rfl,
    ?_, ?_⟩
  · intro h3
    have h3' : SECURITY_CONFIG.MAX_LOGIN_ATTEMPTS ≤ c + 1 := h3
    rw [if_pos h3']
    simp [setLockout, Storage.setItem, SECURITY_CONFIG, stringify, stringifyField]
  · intro h3
    have h3' : ¬ SECURITY_CONFIG.MAX_LOGIN_ATTEMPTS ≤ c + 1 := by
      simp only [SECURITY_CONFIG]; omega
    rw [if_neg h3']
    simpa [Storage.setItem, keys_distinct.2] using hfalsy
  · intro hpos
    have hpos' : 0 < SECURITY_CONFIG.MAX_LOGIN_ATTEMPTS - (c + 1) := hpos
    have hne : ¬ SECURITY_CONFIG.MAX_LOGIN_ATTEMPTS - (c + 1) = 0 := by
      simp only [SECURITY_CONFIG]; omega
    exact ⟨by simp [hne], by simp only [if_pos hpos']; rfl⟩
  · intro heq
    have hnpos : ¬ 0 < SECURITY_CONFIG.MAX_LOGIN_ATTEMPTS - (c + 1) := by
      simp only [SECURITY_CONFIG]; omega
    have hz : SECURITY_CONFIG.MAX_LOGIN_ATTEMPTS - (c + 1) = 0 := by
      simp only [SECURITY_CONFIG]; omega
    exact ⟨by simp [hz], by simp only [if_neg hnpos]⟩

/-- C4 (amended) at a concrete input: a second failure, from stored count 1. -/
theorem authenticateAdmin_mismatch_counts_witness :
    ∃ (r : AuthResult) (s2 : State) (fields2 : List (String × Val)),
      authenticateAdmin tableDigest countingBytes 5000 "admin" "password" oneFailureState
        = .ok (r, s2) ∧
      getLoginAttempts s2 = .ok (.obj fields2) ∧
      fields2.lookup "count" = some (.num (1 + 1)) ∧
      ((3 : Int) ≤ 1 + 1 → s2.localStorage LOCKOUT_KEY =
        some (.json (.obj [("until", .num (5000 + 10 * 60 * 1000))]))) ∧
      ((1 : Int) + 1 < 3 → falsyItem (s2.localStorage LOCKOUT_KEY) = true) ∧
      r.success = false ∧ r.token = none ∧
      ((0 : Int) < 3 - (1 + 1) → r.locked = some false ∧
        r.message = "Invalid credentials. " ++ toString ((3 : Int) - (1 + 1))
          ++ " attempts remaining.") ∧
      ((1 : Int) + 1 = 3 → r.locked = some true ∧
        r.message = "Account locked due to too many failed attempts.") :=
  authenticateAdmin_mismatch_counts tableDigest countingBytes 5000 "admin" "password"
    oneFailureState oneFailureState { locked := false, remaining := some 0 }
    [("count", .num 1), ("timestamp", .num 1000)] 1 rfl rfl (by decide) (by decide) rfl rfl

/-- C5, the claim as stated fails: `authenticateAdmin("admin", "wrong")` in a
state with no lockout and stored attempt count 1 answers `success: false`,
`locked: false`, and the stored attempt record is the same afterwards: the
count is still 1, not 2. -/
theorem wrong_is_too_short_to_count :
    oneFailureState.localStorage LOCKOUT_KEY = none ∧
    oneFailureState.localStorage LOGIN_ATTEMPTS_KEY =
      some (.json (.obj [("count", .num 1), ("timestamp", .num 1000)])) ∧
    ∃ r s1, authenticateAdmin tableDigest countingBytes 5000 "admin" "wrong" oneFailureState
        = .ok (r, s1) ∧
      r.success = false ∧ r.locked = some false ∧
      s1.localStorage LOGIN_ATTEMPTS_KEY =
        some (.json (.obj [("count", .num 1), ("timestamp", .num 1000)])) :=
  ⟨rfl, rfl, _, _, rfl, rfl, rfl, rfl⟩

/-- C5, amended: `authenticateAdmin("admin", "wrong")`, called in a state with
no lockout record, answers `success: false` with `locked: false` and returns
the state unchanged, so the stored failed-attempt counter is not incremented:
"wrong" has 5 code units, fewer than MIN_PASSWORD_LENGTH (8), and is rejected
before any hash is compared. -/
theorem authenticateAdmin_admin_wrong (digest : List Nat → List Nat) (random : Nat → Nat)
    (now : Int) (s : State) (hlock : s.localStorage LOCKOUT_KEY = none) :
    authenticateAdmin digest random now "admin" "wrong" s =
      .ok ({ success := false
             message := "Password must be at least 8 characters."
             locked := some false
             token := none }, s) := by
  unfold authenticateAdmin
  rw [isLoginLocked_absent now s hlock]
  have hshort : jsLength "wrong" < SECURITY_CONFIG.MIN_PASSWORD_LENGTH := by decide
  simp only [Bool.false_eq_true, if_false, if_pos hshort]
  rfl

/-- C5 (amended) at a concrete input. -/
theorem authenticateAdmin_admin_wrong_witness :
    authenticateAdmin tableDigest countingBytes 5000 "admin" "wrong" State.init =
      .ok ({ success := false
             message := "Password must be at least 8 characters."
             locked := some false
             token := none }, State.init) :=
  authenticateAdmin_admin_wrong tableDigest countingBytes 5000 State.init rfl

/-- C6: with a lockout record stored, at every time `now >= until` (the
instant `now = until` included) `isLoginLocked` answers `locked: false`,
`remaining: 0`, removes the lockout record and the attempt record (the attempt
count then reads 0) and touches nothing else; at every time `now < until` it
answers `locked: true` with the minutes left, rounded up, and returns the state
unchanged. -/
theorem isLoginLocked_expiry (now : Int) (s : State) (fields : List (String × Val)) (u : Int)
    (hrec : s.localStorage LOCKOUT_KEY = some (.json (.obj fields)))
    (huntil : fields.lookup "until" = some (.num u)) :
    (u ≤ now → ∃ s1 : State,
      isLoginLocked now s = .ok ({ locked := false, remaining := some 0 }, s1) ∧
      s1.localStorage LOCKOUT_KEY = none ∧
      s1.localStorage LOGIN_ATTEMPTS_KEY = none ∧
      getLoginAttempts s1 = .ok (.obj [("count", .num 0), ("timestamp", .null)]) ∧
      (∀ k, k ≠ LOCKOUT_KEY → k ≠ LOGIN_ATTEMPTS_KEY → s1.localStorage k = s.localStorage k) ∧
      s1.sessionStorage = s.sessionStorage) ∧
    (now < u →
      isLoginLocked now s =
        .ok ({ locked := true, remaining := some ((u - now + 59999) / 60000) }, s)) := by
  have h := isLoginLocked_record now s fields u hrec huntil
  constructor
  · intro hle
    rw [if_neg (not_lt.mpr hle)] at h
    refine ⟨_, h, ?_, ?_, ?_, ?_, rfl⟩
    · simp [resetLoginAttempts, Storage.removeItem, keys_distinct.2]
    · simp [resetLoginAttempts, Storage.removeItem]
    · simp [getLoginAttempts, resetLoginAttempts, Storage.getItem, Storage.removeItem, falsyItem]
    · intro k hk1 hk2
      simp [resetLoginAttempts, Storage.removeItem, hk1, hk2]
  · intro hlt
    rw [if_pos hlt] at h
    exact h

/-- C6 at a concrete input: `lockedState` exactly at its `until` time. -/
theorem isLoginLocked_expiry_witness :
    ∃ s1 : State,
      isLoginLocked 601000 lockedState = .ok ({ locked := false, remaining := some 0 }, s1) ∧
      s1.localStorage LOCKOUT_KEY = none ∧
      s1.localStorage LOGIN_ATTEMPTS_KEY = none ∧
      getLoginAttempts s1 = .ok (.obj [("count", .num 0), ("timestamp", .null)]) ∧
      (∀ k, k ≠ LOCKOUT_KEY → k ≠ LOGIN_ATTEMPTS_KEY →
        s1.localStorage k = lockedState.localStorage k) ∧
      s1.sessionStorage = lockedState.sessionStorage :=
  (isLoginLocked_expiry 601000 lockedState [("until", .num 601000)] 601000 rfl rfl).1
    (by decide)

/-- The state a returning `isLoginLocked` hands back: the input state, or the
input state without lockout entry and attempts entry. -/
theorem isLoginLocked_state (now : Int) (s s1 : State) (st : LockStatus)
    (h : isLoginLocked now s = .ok (st, s1)) :
    s1 = s ∨ s1 = resetLoginAttempts
      { s with localStorage := s.localStorage.removeItem LOCKOUT_KEY } := by
  unfold isLoginLocked at h
  simp only [Storage.getItem] at h
  by_cases hf : falsyItem (s.localStorage LOCKOUT_KEY) = true
  · simp only [hf, if_true, Except.ok.injEq, Prod.mk.injEq] at h
    exact Or.inl h.2.symm
  · simp only [hf, Bool.false_eq_true, if_false] at h
    cases hc : s.localStorage LOCKOUT_KEY with
    | none => simp [hc, falsyItem] at hf
    | some item =>
      cases item with
      | empty => simp [hc, falsyItem] at hf
      | invalid => simp [hc] at h
      | json lockout =>
        simp only [hc] at h
        by_cases hn : lockout.nullish = true
        · simp [hn] at h
        · by_cases hl : numLt (some now) (toNumber (lockout.get "until")) = true
          · simp [hn, hl] at h
            exact Or.inl h.2.symm
          · simp [hn, hl] at h
            exact Or.inr h.2.symm

/-- C7: for every username, every password shorter than MIN_PASSWORD_LENGTH
(8) and every unlocked state (`unlockedState`: the lockout entry is absent or
empty, or it is a lockout record that has expired, `until <= now`, or a JSON
value without a numeric `until`), `authenticateAdmin` answers
`success: false`, `locked: false` and hands back the state left by the lockout
check: the session storage is unchanged, the attempts entry is what it was or
has been removed (never incremented), no lockout record is written, and the
answer is the same for every digest function, so no hash takes part in it. -/
theorem authenticateAdmin_short_password (now : Int) (username password : String) (s : State)
    (hstate : unlockedState now s = true)
    (hshort : jsLength password < 8) :
    ∃ (r : AuthResult) (s1 : State),
      (∀ (digest : List Nat → List Nat) (random : Nat → Nat),
        authenticateAdmin digest random now username password s = .ok (r, s1)) ∧
      (∃ st, isLoginLocked now s = .ok (st, s1)) ∧
      r.success = false ∧ r.locked = some false ∧ r.token = none ∧
      r.message = "Password must be at least 8 characters." ∧
      s1.sessionStorage = s.sessionStorage ∧
      (s1.localStorage LOGIN_ATTEMPTS_KEY = s.localStorage LOGIN_ATTEMPTS_KEY ∨
        s1.localStorage LOGIN_ATTEMPTS_KEY = none) ∧
      (s1.localStorage LOCKOUT_KEY = s.localStorage LOCKOUT_KEY ∨
        s1.localStorage LOCKOUT_KEY = none) ∧
      (∀ k, k ≠ LOGIN_ATTEMPTS_KEY → k ≠ LOCKOUT_KEY →
        s1.localStorage k = s.localStorage k) := by
  obtain ⟨st, s1, hl, hst⟩ := isLoginLocked_unlocked now s hstate
  have hshort' : jsLength password < SECURITY_CONFIG.MIN_PASSWORD_LENGTH := hshort
  refine ⟨{ success := false
            message := "Password must be at least 8 characters."
            locked := some false
            token := none }, s1, ?_, ⟨st, hl⟩, rfl, rfl, rfl, rfl, ?_⟩
  · intro digest random
    unfold authenticateAdmin
    simp only [hl, hst, Bool.false_eq_true, if_false, if_pos hshort']
    rfl
  · rcases isLoginLocked_state now s s1 st hl with h | h
    · subst h
      exact ⟨rfl, Or.inl rfl, Or.inl rfl, fun _ _ _ => rfl⟩
    · subst h
      refine ⟨rfl, Or.inr ?_, Or.inr ?_, ?_⟩
      · simp [resetLoginAttempts, Storage.removeItem]
      · simp [resetLoginAttempts, Storage.removeItem, keys_distinct.2]
      · intro k h1 h2
        simp [resetLoginAttempts, Storage.removeItem, h1, h2]

/-- C7 at a concrete input: a 5-unit password against a state with one
recorded failure. -/
theorem authenticateAdmin_short_password_witness :
    ∃ (r : AuthResult) (s1 : State),
      (∀ (digest : List Nat → List Nat) (random : Nat → Nat),
        authenticateAdmin digest random 5000 "admin" "short" oneFailureState = .ok (r, s1)) ∧
      (∃ st, isLoginLocked 5000 oneFailureState = .ok (st, s1)) ∧
      r.success = false ∧ r.locked = some false ∧ r.token = none ∧
      r.message = "Password must be at least 8 characters." ∧
      s1.sessionStorage = oneFailureState.sessionStorage ∧
      (s1.localStorage LOGIN_ATTEMPTS_KEY = oneFailureState.localStorage LOGIN_ATTEMPTS_KEY ∨
        s1.localStorage LOGIN_ATTEMPTS_KEY = none) ∧
      (s1.localStorage LOCKOUT_KEY = oneFailureState.localStorage LOCKOUT_KEY ∨
        s1.localStorage LOCKOUT_KEY = none) ∧
      (∀ k, k ≠ LOGIN_ATTEMPTS_KEY → k ≠ LOCKOUT_KEY →
        s1.localStorage k = oneFailureState.localStorage k) :=
  authenticateAdmin_short_password 5000 "admin" "short" oneFailureState rfl (by decide)

/-- A successful `authenticateAdmin` came through the success branch: the
lockout check returned, and result and state are those built from
`resetLoginAttempts` and `createSession`. -/
theorem authenticateAdmin_success_inv (digest : List Nat → List Nat) (random : Nat → Nat)
    (now : Int) (username password : String) (s s1 : State) (r : AuthResult)
    (hauth : authenticateAdmin digest random now username password s = .ok (r, s1))
    (hsucc : r.success = true) :
    ∃ st s0, isLoginLocked now s = .ok (st, s0) ∧
      r.token = some (createSession random now (resetLoginAttempts s0)).1.token ∧
      s1 = (createSession random now (resetLoginAttempts s0)).2 := by
  unfold authenticateAdmin at hauth
  cases hl : isLoginLocked now s with
  | error e => simp [hl] at hauth
  | ok p =>
    obtain ⟨st, s0⟩ := p
    simp only [hl] at hauth
    by_cases hlocked : st.locked = true
    · simp [hlocked] at hauth
      rw [← hauth.1] at hsucc
      simp at hsucc
    · simp only [hlocked, Bool.false_eq_true, if_false] at hauth
      by_cases hshort : jsLength password < SECURITY_CONFIG.MIN_PASSWORD_LENGTH
      · simp [hshort] at hauth
        rw [← hauth.1] at hsucc
        simp at hsucc
      · simp only [hshort, if_false] at hauth
        by_cases hm : (verifyHash digest username ADMIN_CREDENTIALS.usernameHash &&
            verifyHash digest password ADMIN_CREDENTIALS.passwordHash) = true
        · simp only [hm, if_true, Except.ok.injEq, Prod.mk.injEq] at hauth
          refine ⟨st, s0, rfl, ?_, hauth.2.symm⟩
          rw [← hauth.1]
        · simp only [hm, Bool.false_eq_true, if_false] at hauth
          cases hr : recordFailedAttempt now s0 with
          | error e => simp [hr] at hauth
          | ok s3 =>
            simp only [hr] at hauth
            cases hg : getLoginAttempts s3 with
            | error e => simp [hg] at hauth
            | ok attempts =>
              simp only [hg] at hauth
              by_cases hn : attempts.nullish = true
              · simp [hn] at hauth
              · simp [hn] at hauth
                rw [← hauth.1] at hsucc
                simp at hsucc

/-- A freshly written session is valid at the time of its creation. -/
theorem isSessionValid_fresh (now : Int) (s : State) (token : String)
    (h : s.sessionStorage SESSION_KEY = some (.json (Session.toJson
      { token := token, createdAt := now, expiresAt := now + 15 * 60 * 1000,
        lastActivity := now }))) :
    isSessionValid now s = (true, s) := by
  simp [isSessionValid, getSession, Storage.getItem, h, falsyItem, Session.toJson, Json.nullish,
    Json.get, List.lookup, toNumber, numGt, numLt, numSub, Json.truthy, SECURITY_CONFIG]

/-- C8: after every successful `authenticateAdmin` call at time `now` the
attempt record is gone (the count reads 0), the session entry holds exactly the
new session (createdAt = now, lastActivity = now, expiresAt = now + 15
minutes) whatever was stored there before, the returned token is the stored
session token, and `isSessionValid` at that same time answers true and leaves
the state as it is. -/
theorem authenticateAdmin_success_effects (digest : List Nat → List Nat) (random : Nat → Nat)
    (now : Int) (username password : String) (s s1 : State) (r : AuthResult)
    (hauth : authenticateAdmin digest random now username password s = .ok (r, s1))
    (hsucc : r.success = true) :
    ∃ token : String,
      r.token = some token ∧
      s1.localStorage LOGIN_ATTEMPTS_KEY = none ∧
      getLoginAttempts s1 = .ok (.obj [("count", .num 0), ("timestamp", .null)]) ∧
      s1.sessionStorage SESSION_KEY = some (.json (Session.toJson
        { token := token, createdAt := now, expiresAt := now + 15 * 60 * 1000,
          lastActivity := now })) ∧
      isSessionValid now s1 = (true, s1) := by
  obtain ⟨st, s0, _, htok, hs1⟩ :=
    authenticateAdmin_success_inv digest random now username password s s1 r hauth hsucc
  have hsess : s1.sessionStorage SESSION_KEY = some (.json (Session.toJson
      { token := (createSession random now (resetLoginAttempts s0)).1.token
        createdAt := now, expiresAt := now + 15 * 60 * 1000, lastActivity := now })) := by
    rw [hs1]
    simp [createSession, Storage.setItem, stringify, Session.toJson, stringifyField,
      SECURITY_CONFIG]
  have hatt : s1.localStorage LOGIN_ATTEMPTS_KEY = none := by
    rw [hs1]
    simp [createSession, resetLoginAttempts, Storage.removeItem]
  refine ⟨_, htok, hatt, ?_, hsess, isSessionValid_fresh now s1 _ hsess⟩
  simp [getLoginAttempts, Storage.getItem, hatt, falsyItem]

/-- C8 at a concrete input: the reference credentials against `oneFailureState`. -/
theorem authenticateAdmin_success_effects_witness :
    ∃ (r : AuthResult) (s1 : State),
      authenticateAdmin tableDigest countingBytes 5000 "admin" "Click1Secure@2024"
        oneFailureState = .ok (r, s1) ∧
      r.success = true ∧
      ∃ token : String,
        r.token = some token ∧
        s1.localStorage LOGIN_ATTEMPTS_KEY = none ∧
        getLoginAttempts s1 = .ok (.obj [("count", .num 0), ("timestamp", .null)]) ∧
        s1.sessionStorage SESSION_KEY = some (.json (Session.toJson
          { token := token, createdAt := 5000, expiresAt := 5000 + 15 * 60 * 1000,
            lastActivity := 5000 })) ∧
        isSessionValid 5000 s1 = (true, s1) :=
  ⟨_, _, rfl, rfl, authenticateAdmin_success_effects tableDigest countingBytes 5000 "admin"
    "Click1Secure@2024" oneFailureState _ _ rfl rfl⟩

/-! ## Sessions -/

/-- What `getSession` returns for a stored session record whose `expiresAt`
is the number `e`. -/
theorem getSession_record (now : Int) (s : State) (fields : List (String × Val)) (e : Int)
    (hrec : s.sessionStorage SESSION_KEY = some (.json (.obj fields)))
    (he : fields.lookup "expiresAt" = some (.num e)) :
    getSession now s =
      if e < now then (.prim .null, clearSession s) else (.obj fields, s) := by
  simp [getSession, Storage.getItem, hrec, falsyItem, Json.nullish, Json.get, he, toNumber,
    numGt, numLt]

/-- What `getSession` returns when no session entry is stored. -/
theorem getSession_absent (now : Int) (s : State)
    (h : s.sessionStorage SESSION_KEY = none) : getSession now s = (.prim .null, s) := by
  simp [getSession, Storage.getItem, h, falsyItem]

/-- C9: for every stored session record with numeric `expiresAt = e` and
`lastActivity = a` and every time `now`, `isSessionValid` answers true exactly
when `now <= e` and `now - a <= 5 minutes`, both bounds inclusive; so at
`a + 6 minutes` the session is invalid although `expiresAt` has not passed.
With no session record stored the answer is false. -/
theorem isSessionValid_iff (now : Int) (s : State) (fields : List (String × Val)) (e a : Int)
    (hrec : s.sessionStorage SESSION_KEY = some (.json (.obj fields)))
    (he : fields.lookup "expiresAt" = some (.num e))
    (ha : fields.lookup "lastActivity" = some (.num a)) :
    ((isSessionValid now s).1 = true ↔ now ≤ e ∧ now - a ≤ 5 * 60 * 1000) ∧
    (now = a + 6 * 60 * 1000 → now ≤ e → (isSessionValid now s).1 = false) ∧
    (∀ s0 : State, s0.sessionStorage SESSION_KEY = none →
      (isSessionValid now s0).1 = false) := by
  have hiff : (isSessionValid now s).1 = true ↔ now ≤ e ∧ now - a ≤ 5 * 60 * 1000 := by
    unfold isSessionValid
    rw [getSession_record now s fields e hrec he]
    by_cases hexp : e < now
    · simp only [if_pos hexp, Json.truthy, Val.truthy]
      constructor
      · intro h; simp at h
      · intro h; omega
    · simp only [if_neg hexp, Json.truthy, Json.get, he, ha, Option.getD_some, toNumber, numGt,
        numLt, numSub, SECURITY_CONFIG]
      norm_num
      rw [if_neg hexp]
      by_cases hin : 300000 < now - a
      · rw [if_pos hin]
        constructor
        · intro h; simp at h
        · intro h; omega
      · rw [if_neg hin]
        constructor
        · intro _; omega
        · intro _; rfl
  refine ⟨hiff, ?_, ?_⟩
  · intro hnow _
    cases hv : (isSessionValid now s).1 with
    | false => rfl
    | true =>
      have := hiff.mp hv
      omega
  · intro s0 h0
    unfold isSessionValid
    rw [getSession_absent now s0 h0]
    rfl

/-- C9 at a concrete input: a session created at 0, idle since 0, looked at
after 6 minutes. -/
theorem isSessionValid_iff_witness :
    ((isSessionValid 360000 idleSessionState).1 = true ↔
      (360000 : Int) ≤ 900000 ∧ (360000 : Int) - 0 ≤ 5 * 60 * 1000) ∧
    ((360000 : Int) = 0 + 6 * 60 * 1000 → (360000 : Int) ≤ 900000 →
      (isSessionValid 360000 idleSessionState).1 = false) ∧
    (∀ s0 : State, s0.sessionStorage SESSION_KEY = none →
      (isSessionValid 360000 s0).1 = false) :=
  isSessionValid_iff 360000 idleSessionState
    [("token", .str "ABCDEFGHIJKLMNOPQRSTUVWXYZabcdef"), ("createdAt", .num 0),
      ("expiresAt", .num 900000), ("lastActivity", .num 0)] 900000 0 rfl rfl rfl

/-- C10, the code at the failing input: at time 400000 the session of
`idleSessionState` (last activity at 0) has exceeded the 5-minute inactivity
timeout and `isSessionValid` answers false, so no valid session exists; yet
`updateActivity` is not a no-op: it rewrites the record with
lastActivity = 400000, after which `isSessionValid` answers true. -/
theorem updateActivity_refreshes_idle_session :
    (isSessionValid 400000 idleSessionState).1 = false ∧
    (updateActivity 400000 idleSessionState).sessionStorage SESSION_KEY =
      some (.json (Session.toJson
        { token := "ABCDEFGHIJKLMNOPQRSTUVWXYZabcdef"
          createdAt := 0
          expiresAt := 900000
          lastActivity := 400000 })) ∧
    (updateActivity 400000 idleSessionState).sessionStorage SESSION_KEY ≠
      idleSessionState.sessionStorage SESSION_KEY ∧
    (isSessionValid 400000 (updateActivity 400000 idleSessionState)).1 = true :=
  ⟨rfl, rfl, by decide, rfl⟩

/-- What `updateActivity` computes: it looks only at the absolute expiry. For
a stored session record with numeric `expiresAt = e`: when `now <= e` it sets
lastActivity = now and persists the record, keeping the other fields; when
`now > e` it removes the record. With no session record stored it is a no-op.
It never touches `localStorage`. -/
theorem updateActivity_effect (now : Int) (s : State) (fields : List (String × Val)) (e : Int)
    (hrec : s.sessionStorage SESSION_KEY = some (.json (.obj fields)))
    (he : fields.lookup "expiresAt" = some (.num e)) :
    (now ≤ e →
      updateActivity now s = { s with sessionStorage := (s.sessionStorage.setItem SESSION_KEY
        (stringify (.obj (setField fields "lastActivity" (.num now))))) } ∧
      ((setField fields "lastActivity" (.num now)).filterMap stringifyField).lookup
        "lastActivity" = some (.num now)) ∧
    (e < now → updateActivity now s = clearSession s) ∧
    (∀ s0 : State, s0.sessionStorage SESSION_KEY = none → updateActivity now s0 = s0) ∧
    (updateActivity now s).localStorage = s.localStorage := by
  have hg := getSession_record now s fields e hrec he
  refine ⟨?_, ?_, ?_, ?_⟩
  · intro hle
    constructor
    · unfold updateActivity
      rw [hg, if_neg (not_lt.mpr hle)]
      simp [Json.truthy, Json.set]
    · exact lookup_filterMap_stringifyField _ _ _ _ (lookup_setField_same _ _ _) rfl
  · intro hlt
    unfold updateActivity
    rw [hg, if_pos hlt]
    simp [Json.truthy, Val.truthy]
  · intro s0 h0
    unfold updateActivity
    rw [getSession_absent now s0 h0]
    simp [Json.truthy, Val.truthy]
  · unfold updateActivity
    rw [hg]
    by_cases hlt : e < now
    · simp [hlt, Json.truthy, Val.truthy, clearSession]
    · simp [hlt, Json.truthy]

/-- The computation of `updateActivity` on the idle session of
`idleSessionState` at time 400000. -/
theorem updateActivity_effect_witness :
    ((400000 : Int) ≤ 900000 →
      updateActivity 400000 idleSessionState =
        { idleSessionState with sessionStorage :=
          (idleSessionState.sessionStorage.setItem SESSION_KEY
            (stringify (.obj (setField
              [("token", .str "ABCDEFGHIJKLMNOPQRSTUVWXYZabcdef"), ("createdAt", .num 0),
                ("expiresAt", .num 900000), ("lastActivity", .num 0)]
              "lastActivity" (.num 400000))))) } ∧
      ((setField
          [("token", .str "ABCDEFGHIJKLMNOPQRSTUVWXYZabcdef"), ("createdAt", .num 0),
            ("expiresAt", .num 900000), ("lastActivity", .num 0)]
          "lastActivity" (.num 400000)).filterMap stringifyField).lookup
        "lastActivity" = some (.num 400000)) ∧
    ((900000 : Int) < 400000 → updateActivity 400000 idleSessionState
      = clearSession idleSessionState) ∧
    (∀ s0 : State, s0.sessionStorage SESSION_KEY = none → updateActivity 400000 s0 = s0) ∧
    (updateActivity 400000 idleSessionState).localStorage = idleSessionState.localStorage :=
  updateActivity_effect 400000 idleSessionState
    [("token", .str "ABCDEFGHIJKLMNOPQRSTUVWXYZabcdef"), ("createdAt", .num 0),
      ("expiresAt", .num 900000), ("lastActivity", .num 0)] 900000 rfl rfl

/-! ## Absolute expiry -/

/-- What `isSessionValid` computes for a stored session record with numeric
`expiresAt = e` and `lastActivity = a`. -/
theorem isSessionValid_record (now : Int) (s : State) (fields : List (String × Val)) (e a : Int)
    (hrec : s.sessionStorage SESSION_KEY = some (.json (.obj fields)))
    (he : fields.lookup "expiresAt" = some (.num e))
    (ha : fields.lookup "lastActivity" = some (.num a)) :
    isSessionValid now s =
      if e < now then (false, clearSession s)
      else if 300000 < now - a then (false, clearSession s)
      else (true, s) := by
  unfold isSessionValid
  rw [getSession_record now s fields e hrec he]
  by_cases hexp : e < now
  · simp [hexp, Json.truthy, Val.truthy]
  · rw [if_neg hexp]
    have hmax : SECURITY_CONFIG.INACTIVITY_TIMEOUT_MINUTES * 60 * 1000 = 300000 := by
      simp [SECURITY_CONFIG]
    simp only [Json.truthy, Json.get, he, ha, Option.getD_some, toNumber, numGt,
      numLt, numSub, hmax, decide_eq_true_eq, Bool.not_true, Bool.false_eq_true, if_false,
      if_neg hexp]

/-- With no session entry stored, `isSessionValid` answers false. -/
theorem isSessionValid_absent (now : Int) (s : State)
    (h : s.sessionStorage SESSION_KEY = none) : isSessionValid now s = (false, s) := by
  unfold isSessionValid
  rw [getSession_absent now s h]
  rfl

/-- The session entry is absent or holds the session created at `t0` with
token `token`, its `lastActivity` being any number. -/
theorem updateActivity_keeps_session (token : String) (t0 t : Int) (s : State)
    (h : s.sessionStorage SESSION_KEY = none ∨ ∃ a : Int, s.sessionStorage SESSION_KEY =
      some (.json (Session.toJson
        { token := token, createdAt := t0, expiresAt := t0 + 15 * 60 * 1000,
          lastActivity := a }))) :
    (updateActivity t s).sessionStorage SESSION_KEY = none ∨
    ∃ a : Int, (updateActivity t s).sessionStorage SESSION_KEY =
      some (.json (Session.toJson
        { token := token, createdAt := t0, expiresAt := t0 + 15 * 60 * 1000,
          lastActivity := a })) := by
  rcases h with h | ⟨a, h⟩
  · left
    unfold updateActivity
    rw [getSession_absent t s h]
    simpa [Json.truthy, Val.truthy] using h
  · unfold updateActivity
    rw [getSession_record t s _ (t0 + 15 * 60 * 1000) h rfl]
    by_cases hexp : t0 + 15 * 60 * 1000 < t
    · left
      rw [if_pos hexp]
      simp [Json.truthy, Val.truthy, clearSession, Storage.removeItem]
    · right
      refine ⟨t, ?_⟩
      rw [if_neg hexp]
      simp [Json.truthy, Json.set, setField, stringify, stringifyField, Storage.setItem,
        Session.toJson]

/-- The invariant of `updateActivity_keeps_session` along a sequence of
`updateActivity` calls. -/
theorem updateActivity_sequence_keeps_session (token : String) (t0 : Int) (ts : List Int) :
    ∀ s : State,
      (s.sessionStorage SESSION_KEY = none ∨ ∃ a : Int, s.sessionStorage SESSION_KEY =
        some (.json (Session.toJson
          { token := token, createdAt := t0, expiresAt := t0 + 15 * 60 * 1000,
            lastActivity := a }))) →
      ((ts.foldl (fun st t => updateActivity t st) s).sessionStorage SESSION_KEY = none ∨
       ∃ a : Int, (ts.foldl (fun st t => updateActivity t st) s).sessionStorage SESSION_KEY =
        some (.json (Session.toJson
          { token := token, createdAt := t0, expiresAt := t0 + 15 * 60 * 1000,
            lastActivity := a }))) := by
  induction ts with
  | nil => intro s h; exact h
  | cons t rest ih =>
    intro s h
    exact ih (updateActivity t s) (updateActivity_keeps_session token t0 t s h)

/-- Along updates none of which comes after the expiry, the session stays
stored and its `lastActivity` is the time of the last update (the given one
when there is no update). -/
theorem updateActivity_sequence_last (token : String) (t0 : Int) (ts : List Int) :
    ∀ (s : State) (a : Int),
      s.sessionStorage SESSION_KEY = some (.json (Session.toJson
        { token := token, createdAt := t0, expiresAt := t0 + 15 * 60 * 1000,
          lastActivity := a })) →
      (∀ t ∈ ts, t ≤ t0 + 15 * 60 * 1000) →
      (ts.foldl (fun st t => updateActivity t st) s).sessionStorage SESSION_KEY =
        some (.json (Session.toJson
          { token := token, createdAt := t0, expiresAt := t0 + 15 * 60 * 1000,
            lastActivity := ts.getLast?.getD a })) := by
  induction ts with
  | nil => intro s a h _; simpa using h
  | cons t rest ih =>
    intro s a h hts
    have ht : ¬ t0 + 15 * 60 * 1000 < t := not_lt.mpr (hts t (List.mem_cons_self _ _))
    have hstep : (updateActivity t s).sessionStorage SESSION_KEY =
        some (.json (Session.toJson
          { token := token, createdAt := t0, expiresAt := t0 + 15 * 60 * 1000,
            lastActivity := t })) := by
      unfold updateActivity
      rw [getSession_record t s _ (t0 + 15 * 60 * 1000) h rfl, if_neg ht]
      simp [Json.truthy, Json.set, setField, stringify, stringifyField, Storage.setItem,
        Session.toJson]
    have := ih (updateActivity t s) t hstep (fun x hx => hts x (List.mem_cons_of_mem _ hx))
    rw [List.foldl_cons, this]
    cases rest with
    | nil => rfl
    | cons r rs =>
      rw [List.getLast?_cons_cons, List.getLast?_eq_getLast (r :: rs) (by simp)]
      rfl

/-- C11: absolute expiry is a hard ceiling. For a session created at `t0` and
any sequence `ts` of `updateActivity` times, the session entry afterwards is
either gone or still the created session with `expiresAt = t0 + 15 minutes`
(only `lastActivity` moves); `isSessionValid` answers false at every time later
than `t0 + 15 minutes`; and when no update came after the expiry and the last
update (the creation, if there was none) is at most 5 minutes before
`t0 + 14 minutes`, `isSessionValid` answers true at `t0 + 14 minutes`. -/
theorem absolute_expiry_hard_ceiling (random : Nat → Nat) (t0 : Int) (s : State)
    (ts : List Int) :
    ((ts.foldl (fun st t => updateActivity t st)
        (createSession random t0 s).2).sessionStorage SESSION_KEY = none ∨
      ∃ a : Int, (ts.foldl (fun st t => updateActivity t st)
        (createSession random t0 s).2).sessionStorage SESSION_KEY =
        some (.json (Session.toJson
          { token := (createSession random t0 s).1.token, createdAt := t0,
            expiresAt := t0 + 15 * 60 * 1000, lastActivity := a }))) ∧
    (∀ now : Int, t0 + 15 * 60 * 1000 < now →
      (isSessionValid now (ts.foldl (fun st t => updateActivity t st)
        (createSession random t0 s).2)).1 = false) ∧
    ((∀ t ∈ ts, t ≤ t0 + 15 * 60 * 1000) →
      t0 + 14 * 60 * 1000 - ts.getLast?.getD t0 ≤ 5 * 60 * 1000 →
      (isSessionValid (t0 + 14 * 60 * 1000) (ts.foldl (fun st t => updateActivity t st)
        (createSession random t0 s).2)).1 = true) := by
  have h0 : (createSession random t0 s).2.sessionStorage SESSION_KEY =
      some (.json (Session.toJson
        { token := (createSession random t0 s).1.token, createdAt := t0,
          expiresAt := t0 + 15 * 60 * 1000, lastActivity := t0 })) := by
    simp [createSession, Storage.setItem, stringify, Session.toJson, stringifyField,
      SECURITY_CONFIG]
  have hinv := updateActivity_sequence_keeps_session (createSession random t0 s).1.token t0 ts
    (createSession random t0 s).2 (Or.inr ⟨t0, h0⟩)
  refine ⟨hinv, ?_, ?_⟩
  · intro now hnow
    rcases hinv with hnone | ⟨a, hrec⟩
    · rw [isSessionValid_absent now _ hnone]
    · rw [isSessionValid_record now _ _ (t0 + 15 * 60 * 1000) a hrec rfl rfl, if_pos hnow]
  · intro hts hlast
    have hrec := updateActivity_sequence_last (createSession random t0 s).1.token t0 ts
      (createSession random t0 s).2 t0 h0 hts
    rw [isSessionValid_record _ _ _ (t0 + 15 * 60 * 1000) (ts.getLast?.getD t0) hrec rfl rfl]
    have h1 : ¬ t0 + 15 * 60 * 1000 < t0 + 14 * 60 * 1000 := by omega
    have h2 : ¬ 300000 < t0 + 14 * 60 * 1000 - ts.getLast?.getD t0 := by omega
    rw [if_neg h1, if_neg h2]

/-- C11 at concrete inputs: a session created at 0 is invalid at 16 minutes
after an update at 15.5 minutes, and valid at 14 minutes after updates at 5
and 10 minutes. -/
theorem absolute_expiry_hard_ceiling_witness :
    (isSessionValid 960000 ([930000].foldl (fun st t => updateActivity t st)
      (createSession countingBytes 0 State.init).2)).1 = false ∧
    (isSessionValid (0 + 14 * 60 * 1000) ([300000, 600000].foldl
      (fun st t => updateActivity t st) (createSession countingBytes 0 State.init).2)).1 = true :=
  ⟨(absolute_expiry_hard_ceiling countingBytes 0 State.init [930000]).2.1 960000 (by decide),
   (absolute_expiry_hard_ceiling countingBytes 0 State.init [300000, 600000]).2.2
     (by decide) (by decide)⟩

/-! ## Storage content outside the data model -/

/-- For a session entry that holds a JSON object, a false answer of
`isSessionValid` comes with the entry removed. -/
theorem isSessionValid_false_clears_record (now : Int) (s : State)
    (fields : List (String × Val))
    (hrec : s.sessionStorage SESSION_KEY = some (.json (.obj fields)))
    (hfalse : (isSessionValid now s).1 = false) :
    (isSessionValid now s).2 = clearSession s ∧
    (isSessionValid now s).2.sessionStorage SESSION_KEY = none := by
  have hstate : (isSessionValid now s).2 = clearSession s := by
    unfold isSessionValid at hfalse ⊢
    simp only [getSession, Storage.getItem, hrec, falsyItem, Bool.false_eq_true, if_false,
      Json.nullish] at hfalse ⊢
    by_cases hexp : numGt (some now) (toNumber ((Json.obj fields).get "expiresAt")) = true
    · simp [hexp, Json.truthy, Val.truthy]
    · simp only [hexp, Bool.false_eq_true, if_false, Json.truthy, Bool.not_true] at hfalse ⊢
      by_cases hin : numGt (numSub (some now) (toNumber ((Json.obj fields).get "lastActivity")))
          (some (SECURITY_CONFIG.INACTIVITY_TIMEOUT_MINUTES * 60 * 1000)) = true
      · simp [hin]
      · simp [hin] at hfalse
  refine ⟨hstate, ?_⟩
  rw [hstate]
  simp [clearSession, Storage.removeItem]

/-- C12, the claim as stated fails: the session entry holds a text that is
not JSON; `isSessionValid` answers false through the caught SyntaxError in
`getSession`, and the entry is still there afterwards. -/
theorem isSessionValid_false_keeps_corrupt_entry :
    isSessionValid 1000 corruptSessionState = (false, corruptSessionState) ∧
    (isSessionValid 1000 corruptSessionState).2.sessionStorage SESSION_KEY = some .invalid :=
  ⟨rfl, rfl⟩

/-- C12, amended: whenever `isSessionValid` returns false, for every content
of session storage, the session entry is afterwards either absent or the call
left storage exactly as it was. It is absent, and nothing else is changed,
whenever the stored content is a JSON object whose properties hold primitive
values, as every session record written by the module is: every violation
found in such a record clears it before false is returned. Content that is no
JSON object (no entry, the empty string, a text that is not JSON, a JSON
primitive) is left in place. -/
theorem isSessionValid_false_effect (now : Int) (s : State)
    (hfalse : (isSessionValid now s).1 = false) :
    ((isSessionValid now s).2.sessionStorage SESSION_KEY = none ∨
      (isSessionValid now s).2 = s) ∧
    (∀ fields, s.sessionStorage SESSION_KEY = some (.json (.obj fields)) →
      (isSessionValid now s).2 = clearSession s ∧
      (isSessionValid now s).2.sessionStorage SESSION_KEY = none) ∧
    ((∀ fields, s.sessionStorage SESSION_KEY ≠ some (.json (.obj fields))) →
      (isSessionValid now s).2 = s) := by
  have hobj : ∀ fields, s.sessionStorage SESSION_KEY = some (.json (.obj fields)) →
      (isSessionValid now s).2 = clearSession s ∧
      (isSessionValid now s).2.sessionStorage SESSION_KEY = none :=
    fun fields hrec => isSessionValid_false_clears_record now s fields hrec hfalse
  have hother : (∀ fields, s.sessionStorage SESSION_KEY ≠ some (.json (.obj fields))) →
      (isSessionValid now s).2 = s := by
    intro hno
    cases hc : s.sessionStorage SESSION_KEY with
    | none =>
      rw [isSessionValid_absent now s hc]
    | some item =>
      cases item with
      | empty =>
        simp [isSessionValid, getSession, Storage.getItem, hc, falsyItem, Json.truthy,
          Val.truthy]
      | invalid =>
        simp [isSessionValid, getSession, Storage.getItem, hc, falsyItem, Json.truthy,
          Val.truthy]
      | json j =>
        cases j with
        | obj fields => exact absurd hc (hno fields)
        | prim v =>
          cases v <;>
            simp [isSessionValid, getSession, Storage.getItem, hc, falsyItem, Json.truthy,
              Val.truthy, Json.nullish, Json.get, toNumber, numGt, numLt, numSub]
          all_goals split <;> rfl
  refine ⟨?_, hobj, hother⟩
  by_cases hex : ∃ fields, s.sessionStorage SESSION_KEY = some (.json (.obj fields))
  · obtain ⟨fields, hrec⟩ := hex
    exact Or.inl (hobj fields hrec).2
  · exact Or.inr (hother (fun fields h => hex ⟨fields, h⟩))

/-- C12 (amended) at concrete inputs: the idle session of `idleSessionState`
at time 400000 is reported invalid and removed; the entry of
`corruptSessionState`, which is not JSON, is reported invalid and stays. -/
theorem isSessionValid_false_effect_witness :
    (isSessionValid 400000 idleSessionState).1 = false ∧
    (isSessionValid 400000 idleSessionState).2 = clearSession idleSessionState ∧
    (isSessionValid 400000 idleSessionState).2.sessionStorage SESSION_KEY = none ∧
    (isSessionValid 1000 corruptSessionState).1 = false ∧
    (isSessionValid 1000 corruptSessionState).2 = corruptSessionState :=
  ⟨rfl,
    ((isSessionValid_false_effect 400000 idleSessionState rfl).2.1
      [("token", .str "ABCDEFGHIJKLMNOPQRSTUVWXYZabcdef"), ("createdAt", .num 0),
        ("expiresAt", .num 900000), ("lastActivity", .num 0)] rfl).1,
    ((isSessionValid_false_effect 400000 idleSessionState rfl).2.1
      [("token", .str "ABCDEFGHIJKLMNOPQRSTUVWXYZabcdef"), ("createdAt", .num 0),
        ("expiresAt", .num 900000), ("lastActivity", .num 0)] rfl).2,
    rfl,
    (isSessionValid_false_effect 1000 corruptSessionState rfl).2.2
      (fun fields h => by cases h)⟩

/-- C13, the code at the failing input: the lockout entry holds a text that is
not JSON; `authenticateAdmin` with the reference credentials raises the
SyntaxError of the unguarded `JSON.parse` in `isLoginLocked`. The same happens
in `getLoginAttempts` on the mismatch path when the attempts entry is not
JSON. -/
theorem authenticateAdmin_raises_on_corrupt_storage :
    authenticateAdmin tableDigest countingBytes 1000 "admin" "Click1Secure@2024"
      corruptLockoutState = .error .syntaxError ∧
    authenticateAdmin tableDigest countingBytes 1000 "admin" "password"
      corruptAttemptsState = .error .syntaxError :=
  ⟨rfl, rfl⟩

/-! ## Base64 round trip -/

theorem base64Index_base64Char (i : Nat) (h : i < 64) :
    base64Index (base64Char i) = some i := by
  have key : ∀ j : Fin 64, base64Index (base64Char j) = some j.val := by decide
  exact key ⟨i, h⟩

theorem base64Char_not_whitespace (i : Nat) (h : i < 64) :
    isAsciiWhitespace (base64Char i) = false := by
  have key : ∀ j : Fin 64, isAsciiWhitespace (base64Char j) = false := by decide
  exact key ⟨i, h⟩

theorem base64Char_ne_pad (i : Nat) (h : i < 64) : base64Char i ≠ '=' := by
  have key : ∀ j : Fin 64, base64Char j ≠ '=' := by decide
  exact key ⟨i, h⟩

theorem sextets_lt (bytes : List Nat) (hb : ∀ b ∈ bytes, b < 256) :
    ∀ x ∈ sextets bytes, x < 64 := by
  induction bytes using sextets.induct with
  | case1 a b c rest ih =>
    have ha := hb a (by simp)
    have hb1 := hb b (by simp)
    have hc := hb c (by simp)
    intro x hx
    simp only [sextets, List.mem_cons] at hx
    rcases hx with h | h | h | h | h
    · omega
    · omega
    · omega
    · omega
    · exact ih (fun y hy => hb y (by simp [hy])) x h
  | case2 a b =>
    have ha := hb a (by simp)
    have hb1 := hb b (by simp)
    intro x hx
    simp only [sextets, List.mem_cons, List.mem_singleton, List.not_mem_nil, or_false] at hx
    rcases hx with h | h | h <;> omega
  | case3 a =>
    have ha := hb a (by simp)
    intro x hx
    simp only [sextets, List.mem_cons, List.mem_singleton, List.not_mem_nil, or_false] at hx
    rcases hx with h | h <;> omega
  | case4 => intro x hx; simp [sextets] at hx

theorem decodeSextets_sextets (bytes : List Nat) (hb : ∀ b ∈ bytes, b < 256) :
    decodeSextets (sextets bytes) = bytes := by
  induction bytes using sextets.induct with
  | case1 a b c rest ih =>
    have ha := hb a (by simp)
    have hb1 := hb b (by simp)
    have hc := hb c (by simp)
    simp only [sextets, decodeSextets]
    rw [ih (fun y hy => hb y (by simp [hy]))]
    congr 1
    · omega
    · congr 1
      · omega
      · congr 1
        omega
  | case2 a b =>
    have ha := hb a (by simp)
    have hb1 := hb b (by simp)
    simp only [sextets, decodeSextets]
    congr 1
    · omega
    · congr 1
      omega
  | case3 a =>
    have ha := hb a (by simp)
    simp only [sextets, decodeSextets]
    congr 1
    omega
  | case4 => rfl

theorem sextets_length (bytes : List Nat) :
    (sextets bytes).length + (3 - bytes.length % 3) % 3 = 4 * ((bytes.length + 2) / 3) ∧
    (sextets bytes).length % 4 ≠ 1 := by
  induction bytes using sextets.induct with
  | case1 a b c rest ih =>
    simp only [sextets, List.length_cons]
    omega
  | case2 a b => simp [sextets]
  | case3 a => simp [sextets]
  | case4 => simp [sextets]

theorem stripPadding_of_reverse (cs r : List Char) (p : Nat) (hp : p ≤ 2)
    (hcs : cs.reverse = List.replicate p '=' ++ r) (hr : ∀ c ∈ r.head?, c ≠ '=') :
    stripPadding cs = r.reverse := by
  unfold stripPadding
  rw [hcs]
  have hcs2 : cs = r.reverse ++ List.replicate p '=' := by
    have := congrArg List.reverse hcs
    simpa using this
  interval_cases p
  · simp only [List.replicate_zero, List.nil_append]
    split
    · exact absurd rfl (hr '=' (by simp))
    · exact absurd rfl (hr '=' (by simp))
    · simpa using hcs2
  · simp only [List.replicate_one, List.singleton_append]
    split
    · rename_i rest heq
      simp only [List.cons.injEq, true_and] at heq
      rw [heq] at hr
      exact absurd rfl (hr '=' (by simp))
    · rename_i rest heq
      simp only [List.cons.injEq, true_and] at heq
      rw [heq]
    · rename_i h1 h2
      exact absurd rfl (h2 r)
  · have : List.replicate 2 '=' = ['=', '='] := rfl
    rw [this]
    simp only [List.cons_append, List.nil_append]

theorem stripPadding_append (body : List Char) (p : Nat) (hp : p ≤ 2)
    (h : ∀ c ∈ body, c ≠ '=') :
    stripPadding (body ++ List.replicate p '=') = body := by
  have := stripPadding_of_reverse (body ++ List.replicate p '=') body.reverse p hp
    (by simp [List.reverse_append]) (by
      intro c hc
      have hmem : c ∈ body.reverse := List.mem_of_mem_head? hc
      exact h c (List.mem_reverse.mp hmem))
  simpa using this

theorem base64Indices_map (groups : List Nat) (h : ∀ x ∈ groups, x < 64) :
    base64Indices (groups.map base64Char) = some groups := by
  induction groups with
  | nil => rfl
  | cons x rest ih =>
    have hx := h x (by simp)
    have hrest := ih (fun y hy => h y (by simp [hy]))
    simp [base64Indices, base64Index_base64Char x hx, hrest]

theorem filter_whitespace_encoded (groups : List Nat) (p : Nat) (h : ∀ x ∈ groups, x < 64) :
    (groups.map base64Char ++ List.replicate p '=').filter (fun c => !isAsciiWhitespace c) =
      groups.map base64Char ++ List.replicate p '=' := by
  rw [List.filter_eq_self]
  intro c hc
  rw [List.mem_append] at hc
  rcases hc with hc | hc
  · obtain ⟨x, hx, rfl⟩ := List.mem_map.mp hc
    simp [base64Char_not_whitespace x (h x hx)]
  · have := List.eq_of_mem_replicate hc
    subst this
    decide

/-- The function `atob` undoes `btoa` on every sequence of bytes. -/
theorem atob_btoa (bytes : List Nat) (hb : ∀ b ∈ bytes, b < 256) :
    ∃ text, btoa bytes = some text ∧ atob text = some bytes := by
  have hall : bytes.all (fun b => decide (b < 256)) = true := by
    simpa [List.all_eq_true] using hb
  have hlt := sextets_lt bytes hb
  have hlen := sextets_length bytes
  have hp : (3 - bytes.length % 3) % 3 ≤ 2 := by omega
  refine ⟨String.mk ((sextets bytes).map base64Char
    ++ List.replicate ((3 - bytes.length % 3) % 3) '='), by simp only [btoa, hall, if_true], ?_⟩
  unfold atob
  simp only [filter_whitespace_encoded (sextets bytes) _ hlt]
  have hlen4 : (List.map base64Char (sextets bytes)
      ++ List.replicate ((3 - bytes.length % 3) % 3) '=').length % 4 = 0 := by
    simp only [List.length_append, List.length_map, List.length_replicate]
    omega
  rw [if_pos hlen4, stripPadding_append _ _ hp (by
    intro c hc
    obtain ⟨x, hx, rfl⟩ := List.mem_map.mp hc
    exact base64Char_ne_pad x (hlt x hx))]
  have hne : ¬ (List.map base64Char (sextets bytes)).length % 4 = 1 := by
    simpa using hlen.2
  rw [if_neg hne, base64Indices_map _ hlt]
  simp [decodeSextets_sextets bytes hb]

/-! ## UTF-8 round trip -/

theorem utf8Lead_ascii (b : Nat) (h : b ≤ 127) : utf8Lead b = ([b], Utf8State.init) := by
  unfold utf8Lead
  rw [if_pos h]

theorem utf8Lead_two (b : Nat) (h : 194 ≤ b ∧ b ≤ 223) :
    utf8Lead b = ([], { codePoint := b % 32
                        bytesSeen := 0
                        bytesNeeded := 1
                        lowerBoundary := 128
                        upperBoundary := 191 }) := by
  unfold utf8Lead
  rw [if_neg (by omega), if_pos h]
  rfl

theorem utf8Lead_three (b : Nat) (h : 224 ≤ b ∧ b ≤ 239) :
    utf8Lead b = ([], { codePoint := b % 16
                        bytesSeen := 0
                        bytesNeeded := 2
                        lowerBoundary := if b = 224 then 160 else 128
                        upperBoundary := if b = 237 then 159 else 191 }) := by
  unfold utf8Lead
  rw [if_neg (by omega), if_neg (by omega), if_pos h]

theorem utf8Lead_four (b : Nat) (h : 240 ≤ b ∧ b ≤ 244) :
    utf8Lead b = ([], { codePoint := b % 8
                        bytesSeen := 0
                        bytesNeeded := 3
                        lowerBoundary := if b = 240 then 144 else 128
                        upperBoundary := if b = 244 then 143 else 191 }) := by
  unfold utf8Lead
  rw [if_neg (by omega), if_neg (by omega), if_neg (by omega), if_pos h]

theorem utf8Step_init (b : Nat) : utf8Step Utf8State.init b = utf8Lead b := by
  unfold utf8Step
  simp [Utf8State.init]

theorem utf8Step_more (cp seen needed lo hi b : Nat) (hn : needed ≠ 0)
    (hlo : lo ≤ b) (hhi : b ≤ hi) (hmore : seen + 1 ≠ needed) :
    utf8Step { codePoint := cp, bytesSeen := seen, bytesNeeded := needed,
               lowerBoundary := lo, upperBoundary := hi } b =
      ([], { codePoint := cp * 64 + b % 64, bytesSeen := seen + 1, bytesNeeded := needed,
             lowerBoundary := 128, upperBoundary := 191 }) := by
  unfold utf8Step
  rw [if_neg hn, if_neg (by simp only []; omega), if_pos hmore]

theorem utf8Step_last (cp seen needed lo hi b : Nat) (hn : needed ≠ 0)
    (hlo : lo ≤ b) (hhi : b ≤ hi) (hlast : seen + 1 = needed) :
    utf8Step { codePoint := cp, bytesSeen := seen, bytesNeeded := needed,
               lowerBoundary := lo, upperBoundary := hi } b =
      ([cp * 64 + b % 64], Utf8State.init) := by
  unfold utf8Step
  rw [if_neg hn, if_neg (by simp only []; omega), if_neg (by simp only []; omega)]

/-- The decoder reads back the encoding of one scalar value and is then in
its initial state again. -/
theorem utf8DecodeFrom_encode (n : Nat) (rest : List Nat)
    (hvalid : n < 55296 ∨ (57343 < n ∧ n < 1114112)) :
    utf8DecodeFrom Utf8State.init (utf8EncodeCodePoint n ++ rest) =
      n :: utf8DecodeFrom Utf8State.init rest := by
  unfold utf8EncodeCodePoint
  by_cases h1 : n < 128
  · rw [if_pos h1]
    simp only [List.singleton_append, utf8DecodeFrom, utf8Step_init,
      utf8Lead_ascii n (by omega)]
    rfl
  · rw [if_neg h1]
    by_cases h2 : n < 2048
    · rw [if_pos h2]
      simp only [List.cons_append, List.nil_append, utf8DecodeFrom, utf8Step_init,
        utf8Lead_two (192 + n / 64) (by omega)]
      rw [utf8Step_last _ 0 1 128 191 (128 + n % 64) (by omega) (by omega) (by omega) rfl]
      have e : (192 + n / 64) % 32 * 64 + (128 + n % 64) % 64 = n := by omega
      simp only [e, List.nil_append, List.singleton_append]
      rfl
    · rw [if_neg h2]
      by_cases h3 : n < 65536
      · rw [if_pos h3]
        simp only [List.cons_append, List.nil_append, utf8DecodeFrom, utf8Step_init,
          utf8Lead_three (224 + n / 4096) (by omega)]
        rw [utf8Step_more _ 0 2 _ _ (128 + n / 64 % 64) (by omega)
          (by split <;> omega) (by split <;> omega) (by omega)]
        simp only [List.nil_append]
        rw [utf8Step_last _ 1 2 128 191 (128 + n % 64) (by omega) (by omega) (by omega) rfl]
        have e : ((224 + n / 4096) % 16 * 64 + (128 + n / 64 % 64) % 64) * 64
            + (128 + n % 64) % 64 = n := by omega
        simp only [e, List.singleton_append]
        rfl
      · rw [if_neg h3]
        simp only [List.cons_append, List.nil_append, utf8DecodeFrom, utf8Step_init,
          utf8Lead_four (240 + n / 262144) (by omega)]
        rw [utf8Step_more _ 0 3 _ _ (128 + n / 4096 % 64) (by omega)
          (by split <;> omega) (by split <;> omega) (by omega)]
        simp only [List.nil_append]
        rw [utf8Step_more _ 1 3 128 191 (128 + n / 64 % 64) (by omega) (by omega) (by omega)
          (by omega)]
        simp only [List.nil_append]
        rw [utf8Step_last _ 2 3 128 191 (128 + n % 64) (by omega) (by omega) (by omega) rfl]
        have e : (((240 + n / 262144) % 8 * 64 + (128 + n / 4096 % 64) % 64) * 64
            + (128 + n / 64 % 64) % 64) * 64 + (128 + n % 64) % 64 = n := by omega
        simp only [e, List.singleton_append]
        rfl

theorem char_toNat_valid (c : Char) :
    c.toNat < 55296 ∨ (57343 < c.toNat ∧ c.toNat < 1114112) := by
  have h := c.valid
  simp only [UInt32.isValidChar, Nat.isValidChar] at h
  exact h

theorem utf8DecodeFrom_utf8Encode (cs : List Char) :
    utf8DecodeFrom Utf8State.init (cs.flatMap (fun c => utf8EncodeCodePoint c.toNat)) =
      cs.map Char.toNat := by
  induction cs with
  | nil => simp [utf8DecodeFrom, Utf8State.init]
  | cons c rest ih =>
    rw [List.flatMap_cons, utf8DecodeFrom_encode _ _ (char_toNat_valid c), ih]
    rfl

/-- The method `decode` undoes `encode` on every string that does not start
with the byte order mark U+FEFF. -/
theorem utf8Decode_utf8Encode (s : String)
    (hbom : s.data.head? ≠ some (Char.ofNat 65279)) :
    utf8Decode (utf8Encode s) = s := by
  unfold utf8Decode utf8Encode
  simp only [utf8DecodeFrom_utf8Encode]
  have hmap : (s.data.map Char.toNat).map Char.ofNat = s.data := by
    rw [List.map_map]
    conv_rhs => rw [← List.map_id s.data]
    apply List.map_congr_left
    intro c _
    simp [Char.ofNat_toNat]
  cases hd : s.data with
  | nil =>
    have : s = "" := by
      cases s; simp_all
    subst this
    rfl
  | cons c rest =>
    rw [hd] at hbom hmap
    have hc : c.toNat ≠ 65279 := by
      intro h
      apply hbom
      simp only [List.head?_cons, Option.some.injEq]
      rw [← h, Char.ofNat_toNat]
    simp only [List.map_cons]
    split
    · rename_i heq
      simp only [List.cons.injEq] at heq
      exact absurd heq.1 hc
    · simp only [List.map_cons] at hmap ⊢
      rw [hmap]
      cases s
      simp_all

/-! ## The reference credentials -/

set_option maxRecDepth 100000 in
/-- SHA-256 of "admin", in hexadecimal, is the stored username hash. -/
theorem sha256_admin : sha256 sha256Digest "admin" = ADMIN_CREDENTIALS.usernameHash := by
  decide

set_option maxRecDepth 100000 in
/-- SHA-256 of "Click1Secure@2024", in hexadecimal, is the stored password
hash. -/
theorem sha256_reference_password :
    sha256 sha256Digest "Click1Secure@2024" = ADMIN_CREDENTIALS.passwordHash := by
  decide

/-- Every index `byte % 70` hits a character of the alphabet, so the token
has one character per random byte, each from the alphabet. -/
theorem filterMap_token_chars (bytes : List Nat) :
    (bytes.filterMap (fun byte => TOKEN_CHARS.data.get? (byte % jsLength TOKEN_CHARS))).length
        = bytes.length ∧
    ∀ c ∈ bytes.filterMap (fun byte => TOKEN_CHARS.data.get? (byte % jsLength TOKEN_CHARS)),
      c ∈ TOKEN_CHARS.data := by
  have h70 : jsLength TOKEN_CHARS = 70 := by decide
  have hlen : TOKEN_CHARS.data.length = 70 := by decide
  induction bytes with
  | nil => simp
  | cons b rest ih =>
    have hlt : b % jsLength TOKEN_CHARS < TOKEN_CHARS.data.length := by
      rw [h70, hlen]; exact Nat.mod_lt _ (by decide)
    have hget : TOKEN_CHARS.data.get? (b % jsLength TOKEN_CHARS)
        = some (TOKEN_CHARS.data.get ⟨b % jsLength TOKEN_CHARS, hlt⟩) :=
      List.get?_eq_get hlt
    rw [List.filterMap_cons, hget]
    refine ⟨by simp only [List.length_cons, ih.1], ?_⟩
    intro c hc
    rcases List.mem_cons.mp hc with h | h
    · rw [h]; exact List.get_mem _ _ _
    · exact ih.2 c h

/-- A string of alphabet characters has as many UTF-16 code units as
characters. -/
theorem jsLength_token_chars (cs : List Char) (h : ∀ c ∈ cs, c ∈ TOKEN_CHARS.data) :
    jsLength (String.mk cs) = cs.length := by
  have hsmall : ∀ c ∈ TOKEN_CHARS.data, c.toNat < 65536 := by decide
  unfold jsLength
  induction cs with
  | nil => rfl
  | cons c rest ih =>
    have hc := hsmall c (h c (by simp))
    have hrest := ih (fun x hx => h x (by simp [hx]))
    simp only [List.map_cons, List.sum_cons, if_pos hc, List.length_cons] at hrest ⊢
    omega

/-- The token made from an array of bytes has one character, and one UTF-16
code unit, for each byte. -/
theorem tokenFromBytes_length (array : List Nat) :
    (tokenFromBytes array).length = array.length ∧
    jsLength (tokenFromBytes array) = array.length := by
  have h := filterMap_token_chars array
  unfold tokenFromBytes
  refine ⟨?_, ?_⟩
  · simp only [String.length]
    rw [h.1]
  · rw [jsLength_token_chars _ h.2, h.1]

/-- Up to the quota of `crypto.getRandomValues`, `generateSessionToken`
returns the token made from the random bytes. -/
theorem generateSessionToken_ok (random : Nat → Nat) (length : Nat)
    (h : length ≤ RANDOM_VALUES_QUOTA) :
    generateSessionToken random length
      = .ok (tokenFromBytes ((List.range length).map (fun i => random i % 256))) := by
  unfold generateSessionToken
  rw [if_neg (Nat.not_lt.mpr h)]

/-- The token of `createSession`: the default length is within the quota. -/
theorem createSession_token (random : Nat → Nat) (now : Int) (s : State) :
    (createSession random now s).1.token
      = tokenFromBytes ((List.range SECURITY_CONFIG.TOKEN_LENGTH).map (fun i => random i % 256)) := by
  unfold createSession
  simp only [generateSessionToken_ok random SECURITY_CONFIG.TOKEN_LENGTH (by decide)]

/-- The token of `createSession` has 32 characters and UTF-16 code units. -/
theorem createSession_token_length (random : Nat → Nat) (now : Int) (s : State) :
    (createSession random now s).1.token.length = 32 ∧
    jsLength (createSession random now s).1.token = 32 := by
  rw [createSession_token]
  have h := tokenFromBytes_length
    ((List.range SECURITY_CONFIG.TOKEN_LENGTH).map (fun i => random i % 256))
  simpa [SECURITY_CONFIG] using h

/-- C20: `authenticateAdmin("admin", "Click1Secure@2024")`, called in a state
with no lockout record, succeeds against the two stored reference hashes:
SHA-256("admin") is `usernameHash`, SHA-256("Click1Secure@2024") is
`passwordHash`, and the result is `success: true` with a token of exactly 32
characters. -/
theorem authenticateAdmin_reference_credentials (random : Nat → Nat) (now : Int) (s : State)
    (hlock : s.localStorage LOCKOUT_KEY = none) :
    sha256 sha256Digest "admin" = ADMIN_CREDENTIALS.usernameHash ∧
    sha256 sha256Digest "Click1Secure@2024" = ADMIN_CREDENTIALS.passwordHash ∧
    ∃ (r : AuthResult) (s1 : State) (token : String),
      authenticateAdmin sha256Digest random now "admin" "Click1Secure@2024" s = .ok (r, s1) ∧
      r.success = true ∧ r.message = "Login successful" ∧ r.token = some token ∧
      token.length = 32 ∧ jsLength token = 32 := by
  refine ⟨sha256_admin, sha256_reference_password, _, _, _,
    authenticateAdmin_match sha256Digest random now "admin" "Click1Secure@2024" s s _
      (isLoginLocked_absent now s hlock) rfl (by decide) sha256_admin
      sha256_reference_password, rfl, rfl, rfl, ?_⟩
  exact createSession_token_length random now (resetLoginAttempts s)

/-- C20 at a concrete input: empty storage at time 1000. -/
theorem authenticateAdmin_reference_credentials_witness :
    sha256 sha256Digest "admin" = ADMIN_CREDENTIALS.usernameHash ∧
    sha256 sha256Digest "Click1Secure@2024" = ADMIN_CREDENTIALS.passwordHash ∧
    ∃ (r : AuthResult) (s1 : State) (token : String),
      authenticateAdmin sha256Digest countingBytes 1000 "admin" "Click1Secure@2024" State.init
        = .ok (r, s1) ∧
      r.success = true ∧ r.message = "Login successful" ∧ r.token = some token ∧
      token.length = 32 ∧ jsLength token = 32 :=
  authenticateAdmin_reference_credentials countingBytes 1000 State.init rfl

/-- C2, the code at the failing input: the lockout entry holds the text `{`,
which is no lockout record, so no unexpired lockout exists; the password
`Click1Secure@2024` has at least 8 code units; SHA-256 of `admin` and of the
password are the two stored hashes. Yet `authenticateAdmin` does not return
`success: true`: at every time and for every random source it raises the
SyntaxError of the unguarded `JSON.parse` in `isLoginLocked`. -/
theorem authenticateAdmin_correct_credentials_raise :
    corruptLockoutState.localStorage LOCKOUT_KEY = some .invalid ∧
    SECURITY_CONFIG.MIN_PASSWORD_LENGTH ≤ jsLength "Click1Secure@2024" ∧
    sha256 sha256Digest "admin" = ADMIN_CREDENTIALS.usernameHash ∧
    sha256 sha256Digest "Click1Secure@2024" = ADMIN_CREDENTIALS.passwordHash ∧
    (∀ (random : Nat → Nat) (now : Int),
      authenticateAdmin sha256Digest random now "admin" "Click1Secure@2024"
        corruptLockoutState = .error .syntaxError) ∧
    (∀ (random : Nat → Nat) (now : Int),
      ¬ ∃ r s1, authenticateAdmin sha256Digest random now "admin" "Click1Secure@2024"
        corruptLockoutState = .ok (r, s1) ∧ r.success = true) := by
  have hraise : ∀ (random : Nat → Nat) (now : Int),
      authenticateAdmin sha256Digest random now "admin" "Click1Secure@2024"
        corruptLockoutState = .error .syntaxError := fun _ _ => rfl
  refine ⟨rfl, by decide, sha256_admin, sha256_reference_password, hraise, ?_⟩
  rintro random now ⟨r, s1, h, _⟩
  rw [hraise random now] at h
  cases h

/-! ## Encrypted store -/

theorem demoAesGcm_correct : demoAesGcm.Correct := by
  intro key iv plaintext ciphertext h
  simp only [demoAesGcm] at h
  by_cases hall : plaintext.all (fun b => decide (b < 256)) = true
  · simp only [hall, if_true, Option.some.injEq] at h
    subst h
    have hbytes : ∀ b ∈ plaintext, b < 256 := by simpa [List.all_eq_true] using hall
    refine ⟨?_, ?_⟩
    · intro b hb
      rcases List.mem_append.mp hb with hb | hb
      · exact hbytes b hb
      · have := List.eq_of_mem_replicate hb
        rw [this]
        exact Nat.mod_lt _ (by decide)
    · have htake : (plaintext ++ List.replicate 16 ((key.sum + iv.sum + plaintext.sum) % 256)).take
          ((plaintext ++ List.replicate 16 ((key.sum + iv.sum + plaintext.sum) % 256)).length
            - 16) = plaintext := by
        rw [List.length_append, List.length_replicate, Nat.add_sub_cancel]
        exact List.take_left' rfl
      simp only [demoAesGcm, htake, if_true]
  · simp [hall] at h

theorem literalCodec_lawful : literalCodec.Lawful := by
  refine ⟨?_, by decide, ?_⟩
  · intro v
    cases v <;> decide
  · intro s hs
    simp only [literalCodec]
    by_cases h1 : s = "null"
    · subst h1; exact absurd hs (by decide)
    · by_cases h2 : s = "true"
      · subst h2; exact absurd hs (by decide)
      · by_cases h3 : s = "false"
        · subst h3; exact absurd hs (by decide)
        · simp [h1, h2, h3]

theorem generateIV_length (random : Nat → Nat) : (generateIV random).length = 12 := by
  simp [generateIV]

theorem btoa_bytes (codes : List Nat) (text : String) (h : btoa codes = some text) :
    ∀ b ∈ codes, b < 256 := by
  unfold btoa at h
  by_cases hall : codes.all (fun b => decide (b < 256)) = true
  · simpa [List.all_eq_true] using hall
  · simp [hall] at h

/-- A blob returned by `btoa` decodes to the bytes it was made from. -/
theorem atob_of_btoa (codes : List Nat) (text : String) (h : btoa codes = some text) :
    atob text = some codes := by
  obtain ⟨text1, h1, h2⟩ := atob_btoa codes (btoa_bytes codes text h)
  rw [h] at h1
  cases h1
  exact h2

/-- What a blob returned by `encryptData` is made of. -/
theorem encryptData_some (aes : AesGcm) (digest : List Nat → List Nat) (random : Nat → Nat)
    (maxArguments : Nat) (data keyPassword blob : String)
    (h : encryptData aes digest random maxArguments data keyPassword = some blob) :
    ∃ key ciphertext, deriveKey digest keyPassword KEY_SALT = some key ∧
      aes.encrypt key (generateIV random) (utf8Encode data) = some ciphertext ∧
      btoa (generateIV random ++ ciphertext) = some blob ∧
      atob blob = some (generateIV random ++ ciphertext) := by
  unfold encryptData at h
  cases hk : deriveKey digest keyPassword KEY_SALT with
  | none => simp [hk] at h
  | some key =>
    cases he : aes.encrypt key (generateIV random) (utf8Encode data) with
    | none => simp [hk, he] at h
    | some ciphertext =>
      simp only [hk, he] at h
      by_cases hlimit : maxArguments < (generateIV random ++ ciphertext).length
      · rw [if_pos hlimit] at h
        cases h
      · rw [if_neg hlimit] at h
        exact ⟨key, ciphertext, rfl, he, h, atob_of_btoa _ _ h⟩

/-- The function `decryptData` undoes `encryptData` on every text that does
not start with the byte order mark. -/
theorem decryptData_of_encryptData (aes : AesGcm) (digest : List Nat → List Nat)
    (random : Nat → Nat) (maxArguments : Nat) (data keyPassword blob : String) (haes : aes.Correct)
    (hbom : data.data.head? ≠ some (Char.ofNat 65279))
    (h : encryptData aes digest random maxArguments data keyPassword = some blob) :
    decryptData aes digest blob keyPassword = some data := by
  obtain ⟨key, ciphertext, hk, he, _, hatob⟩ :=
    encryptData_some aes digest random maxArguments data keyPassword blob h
  unfold decryptData
  simp only [hatob, hk, List.take_left' (generateIV_length random),
    List.drop_left' (generateIV_length random), (haes _ _ _ _ he).2,
    utf8Decode_utf8Encode data hbom]

theorem stringify_no_bom {V : Type} (codec : JsonCodec V) (hcodec : codec.Lawful) (v : V) :
    (codec.stringify v).data.head? ≠ some (Char.ofNat 65279) := by
  intro h
  have h1 := hcodec.2.2 _ h
  rw [hcodec.1 v] at h1
  cases h1

theorem stringify_ne_empty {V : Type} (codec : JsonCodec V) (hcodec : codec.Lawful) (v : V) :
    codec.stringify v ≠ "" := by
  intro h
  have h1 := hcodec.1 v
  rw [h, hcodec.2.1] at h1
  cases h1

/-- C14: the round trip and where it breaks. For every JSON value `v`, every
key password and every nonce drawn by `encryptData`, when the key derivation
and the AES-GCM encryption succeed and the primitive decrypts what it
encrypted: if nonce and ciphertext together (12 + ciphertext bytes) fit in the
argument list of one call, `encryptData` returns a blob, the blob decodes
(base64) to exactly nonce followed by ciphertext, the 12-byte split gives back
the nonce and the ciphertext, and `decryptData` of the blob is the serialized
text of `v`; if they do not fit, `String.fromCharCode(...combined)` raises,
`encryptData` returns `null`, and there is no blob to decrypt. -/
theorem encryptData_roundtrip_argument_limit {V : Type} (aes : AesGcm)
    (digest : List Nat → List Nat) (random : Nat → Nat) (maxArguments : Nat)
    (codec : JsonCodec V) (v : V)
    (keyPassword : String) (key ciphertext : List Nat)
    (haes : aes.Correct) (hcodec : codec.Lawful)
    (hkey : deriveKey digest keyPassword KEY_SALT = some key)
    (henc : aes.encrypt key (generateIV random) (utf8Encode (codec.stringify v))
      = some ciphertext) :
    (12 + ciphertext.length ≤ maxArguments →
      ∃ blob : String,
        encryptData aes digest random maxArguments (codec.stringify v) keyPassword = some blob ∧
        atob blob = some (generateIV random ++ ciphertext) ∧
        (generateIV random ++ ciphertext).take 12 = generateIV random ∧
        (generateIV random ++ ciphertext).drop 12 = ciphertext ∧
        decryptData aes digest blob keyPassword = some (codec.stringify v)) ∧
    (maxArguments < 12 + ciphertext.length →
      encryptData aes digest random maxArguments (codec.stringify v) keyPassword = none) := by
  have hlen : (generateIV random ++ ciphertext).length = 12 + ciphertext.length := by
    rw [List.length_append, generateIV_length]
  constructor
  · intro hfit
    have hbytes : ∀ b ∈ generateIV random ++ ciphertext, b < 256 := by
      intro b hb
      rcases List.mem_append.mp hb with hb | hb
      · simp only [generateIV, List.mem_map] at hb
        obtain ⟨i, _, rfl⟩ := hb
        exact Nat.mod_lt _ (by decide)
      · exact (haes _ _ _ _ henc).1 b hb
    obtain ⟨blob, hbtoa, hatob⟩ := atob_btoa _ hbytes
    have hnot : ¬ maxArguments < (generateIV random ++ ciphertext).length := by
      rw [hlen]; omega
    have hblob : encryptData aes digest random maxArguments (codec.stringify v) keyPassword
        = some blob := by
      simp only [encryptData, hkey, henc, if_neg hnot, hbtoa]
    exact ⟨blob, hblob, hatob, List.take_left' (generateIV_length random),
      List.drop_left' (generateIV_length random),
      decryptData_of_encryptData aes digest random maxArguments _ keyPassword blob haes
        (stringify_no_bom codec hcodec v) hblob⟩
  · intro hover
    have hpos : maxArguments < (generateIV random ++ ciphertext).length := by
      rw [hlen]; exact hover
    simp only [encryptData, hkey, henc, if_pos hpos]

/-- C14 at concrete inputs, with the stand-in primitives and the literal
`true` under the default key password (12 + 20 bytes): with room for 65536
arguments the round trip holds, and with room for 20 arguments `encryptData`
returns `null`. -/
theorem encryptData_roundtrip_argument_limit_witness :
    (∃ blob : String,
      encryptData demoAesGcm tableDigest countingBytes 65536 (literalCodec.stringify .litTrue)
        DEFAULT_KEY_PASSWORD = some blob ∧
      atob blob = some (generateIV countingBytes
        ++ ([116, 114, 117, 101] ++ List.replicate 16 2)) ∧
      (generateIV countingBytes ++ ([116, 114, 117, 101] ++ List.replicate 16 2)).take 12
        = generateIV countingBytes ∧
      (generateIV countingBytes ++ ([116, 114, 117, 101] ++ List.replicate 16 2)).drop 12
        = [116, 114, 117, 101] ++ List.replicate 16 2 ∧
      decryptData demoAesGcm tableDigest blob DEFAULT_KEY_PASSWORD
        = some (literalCodec.stringify .litTrue)) ∧
    encryptData demoAesGcm tableDigest countingBytes 20 (literalCodec.stringify .litTrue)
      DEFAULT_KEY_PASSWORD = none :=
  ⟨(encryptData_roundtrip_argument_limit demoAesGcm tableDigest countingBytes 65536 literalCodec
      .litTrue DEFAULT_KEY_PASSWORD (List.replicate 32 0)
      ([116, 114, 117, 101] ++ List.replicate 16 2)
      demoAesGcm_correct literalCodec_lawful (by decide) (by decide)).1 (by decide),
   (encryptData_roundtrip_argument_limit demoAesGcm tableDigest countingBytes 20 literalCodec
      .litTrue DEFAULT_KEY_PASSWORD (List.replicate 32 0)
      ([116, 114, 117, 101] ++ List.replicate 16 2)
      demoAesGcm_correct literalCodec_lawful (by decide) (by decide)).2 (by decide)⟩

/-- C15: for every key `k` and every JSON value `v` for which encryption
succeeds, `secureRetrieve(k)` after `secureStore(k, v)` returns `v`; and
`secureStore` leaves the entries under every other key as they were. -/
theorem secureRetrieve_secureStore {V : Type} (aes : AesGcm) (digest : List Nat → List Nat)
    (random : Nat → Nat) (maxArguments : Nat) (codec : JsonCodec V) (key : String) (v : V)
    (st : RawStorage)
    (blob : String) (haes : aes.Correct) (hcodec : codec.Lawful)
    (hblob : encryptData aes digest random maxArguments (codec.stringify v) DEFAULT_KEY_PASSWORD
      = some blob) :
    secureRetrieve aes digest codec key (secureStore aes digest random maxArguments codec key v st) = v ∧
    secureStore aes digest random maxArguments codec key v st key = some blob ∧
    ∀ k, k ≠ key → secureStore aes digest random maxArguments codec key v st k = st k := by
  obtain ⟨_, ciphertext, _, _, _, hatob⟩ :=
    encryptData_some aes digest random maxArguments _ DEFAULT_KEY_PASSWORD blob hblob
  have hne : blob ≠ "" := by
    intro h
    rw [h] at hatob
    have h0 : atob "" = some [] := by decide
    rw [h0] at hatob
    have hlen := congrArg (fun o => (o.getD []).length) hatob
    simp [generateIV_length] at hlen
    omega
  have hstore : secureStore aes digest random maxArguments codec key v st = st.setItem key blob := by
    simp only [secureStore, hblob, if_neg hne]
  have hdec := decryptData_of_encryptData aes digest random maxArguments _ DEFAULT_KEY_PASSWORD blob haes
    (stringify_no_bom codec hcodec v) hblob
  refine ⟨?_, ?_, ?_⟩
  · rw [hstore]
    simp only [secureRetrieve, RawStorage.setItem, if_true, if_neg hne, hdec,
      if_neg (stringify_ne_empty codec hcodec v), hcodec.1 v]
  · rw [hstore]
    simp [RawStorage.setItem]
  · intro k hk
    rw [hstore]
    simp [RawStorage.setItem, hk]

/-- C15 at a concrete input: storing the literal `false` under `staffRequests`
with the stand-in primitives. -/
theorem secureRetrieve_secureStore_witness :
    secureRetrieve demoAesGcm tableDigest literalCodec "staffRequests"
      (secureStore demoAesGcm tableDigest countingBytes 65536 literalCodec "staffRequests" .litFalse
        emptyRawStorage) = .litFalse ∧
    secureStore demoAesGcm tableDigest countingBytes 65536 literalCodec "staffRequests" .litFalse
      emptyRawStorage "staffRequests" = some "AAECAwQFBgcICQoLZmFsc2VNTU1NTU1NTU1NTU1NTU1N" ∧
    ∀ k, k ≠ "staffRequests" →
      secureStore demoAesGcm tableDigest countingBytes 65536 literalCodec "staffRequests" .litFalse
        emptyRawStorage k = emptyRawStorage k :=
  secureRetrieve_secureStore demoAesGcm tableDigest countingBytes 65536 literalCodec "staffRequests"
    .litFalse emptyRawStorage "AAECAwQFBgcICQoLZmFsc2VNTU1NTU1NTU1NTU1NTU1N"
    demoAesGcm_correct literalCodec_lawful (by decide)

/-- C16: `secureRetrieve` is total (every operation that can raise runs inside
a `try`) and returns `null` when the key is absent, when the stored blob is
not valid base64, when `decryptData` fails in any way (key import,
authenticated decryption), and when the decrypted text is not valid JSON; a
result other than `null` comes only from a stored blob that decodes, decrypts
and parses, and is the parsed value. -/
theorem secureRetrieve_null_cases {V : Type} (aes : AesGcm) (digest : List Nat → List Nat)
    (codec : JsonCodec V) (key : String) (st : RawStorage) :
    (st key = none → secureRetrieve aes digest codec key st = codec.null) ∧
    (∀ blob, st key = some blob → atob blob = none →
      secureRetrieve aes digest codec key st = codec.null) ∧
    (∀ blob combined k, st key = some blob → atob blob = some combined →
      deriveKey digest DEFAULT_KEY_PASSWORD KEY_SALT = some k →
      aes.decrypt k (combined.take 12) (combined.drop 12) = none →
      secureRetrieve aes digest codec key st = codec.null) ∧
    (∀ blob, st key = some blob → decryptData aes digest blob DEFAULT_KEY_PASSWORD = none →
      secureRetrieve aes digest codec key st = codec.null) ∧
    (∀ blob text, st key = some blob →
      decryptData aes digest blob DEFAULT_KEY_PASSWORD = some text → codec.parse text = none →
      secureRetrieve aes digest codec key st = codec.null) ∧
    (secureRetrieve aes digest codec key st ≠ codec.null →
      ∃ blob combined k plaintext value, st key = some blob ∧ atob blob = some combined ∧
        deriveKey digest DEFAULT_KEY_PASSWORD KEY_SALT = some k ∧
        aes.decrypt k (combined.take 12) (combined.drop 12) = some plaintext ∧
        codec.parse (utf8Decode plaintext) = some value ∧
        secureRetrieve aes digest codec key st = value) := by
  have hdecnone : ∀ blob, st key = some blob →
      decryptData aes digest blob DEFAULT_KEY_PASSWORD = none →
      secureRetrieve aes digest codec key st = codec.null := by
    intro blob hb hd
    unfold secureRetrieve
    simp only [hb, hd]
    split <;> rfl
  refine ⟨?_, ?_, ?_, hdecnone, ?_, ?_⟩
  · intro h
    simp [secureRetrieve, h]
  · intro blob hb ha
    exact hdecnone blob hb (by simp [decryptData, ha])
  · intro blob combined k hb ha hk hd
    exact hdecnone blob hb (by simp [decryptData, ha, hk, hd])
  · intro blob text hb hd hp
    unfold secureRetrieve
    simp only [hb, hd, hp]
    split
    · rfl
    · split <;> rfl
  · intro hne
    unfold secureRetrieve at hne ⊢
    cases hb : st key with
    | none => simp [hb] at hne
    | some blob =>
      simp only [hb] at hne ⊢
      by_cases he : blob = ""
      · simp [he] at hne
      · simp only [if_neg he] at hne ⊢
        cases ha : atob blob with
        | none => simp [decryptData, ha] at hne
        | some combined =>
          cases hk : deriveKey digest DEFAULT_KEY_PASSWORD KEY_SALT with
          | none => simp [decryptData, ha, hk] at hne
          | some k =>
            cases hd : aes.decrypt k (combined.take 12) (combined.drop 12) with
            | none => simp [decryptData, ha, hk, hd] at hne
            | some plaintext =>
              have hdec : decryptData aes digest blob DEFAULT_KEY_PASSWORD
                  = some (utf8Decode plaintext) := by
                simp [decryptData, ha, hk, hd]
              simp only [hdec] at hne ⊢
              by_cases ht : utf8Decode plaintext = ""
              · simp [ht] at hne
              · simp only [if_neg ht] at hne ⊢
                cases hp : codec.parse (utf8Decode plaintext) with
                | none => simp [hp] at hne
                | some value =>
                  exact ⟨blob, combined, k, plaintext, value, rfl, ha, rfl, hd, hp, by simp [hp]⟩

/-- C16 at concrete inputs: an absent key, a blob that is not base64, and a
blob whose checksum was altered all give `null`. -/
theorem secureRetrieve_null_cases_witness :
    secureRetrieve demoAesGcm tableDigest literalCodec "staffRequests" emptyRawStorage
      = literalCodec.null ∧
    secureRetrieve demoAesGcm tableDigest literalCodec "staffRequests"
      (emptyRawStorage.setItem "staffRequests" "not base64!") = literalCodec.null ∧
    secureRetrieve demoAesGcm tableDigest literalCodec "staffRequests"
      (emptyRawStorage.setItem "staffRequests" "AAECAwQFBgcICQoLZmFsc2VNTU1NTU1NTU1NTU1NTU1O")
      = literalCodec.null :=
  ⟨(secureRetrieve_null_cases demoAesGcm tableDigest literalCodec "staffRequests"
      emptyRawStorage).1 rfl,
   (secureRetrieve_null_cases demoAesGcm tableDigest literalCodec "staffRequests"
      (emptyRawStorage.setItem "staffRequests" "not base64!")).2.1 "not base64!" rfl
      (by decide),
   (secureRetrieve_null_cases demoAesGcm tableDigest literalCodec "staffRequests"
      (emptyRawStorage.setItem "staffRequests"
        "AAECAwQFBgcICQoLZmFsc2VNTU1NTU1NTU1NTU1NTU1O")).2.2.2.1
      "AAECAwQFBgcICQoLZmFsc2VNTU1NTU1NTU1NTU1NTU1O" rfl (by decide)⟩

/-- The SHA-256 digest has 32 bytes. -/
theorem sha256Digest_length (data : List Nat) : (sha256Digest data).length = 32 := by
  simp [sha256Digest, wordBytes]

/-- C17: `deriveKey` is deterministic. For every passphrase and salt the key
material is the SHA-256 digest of the UTF-8 bytes of passphrase followed by
salt; it depends on nothing else, so two calls with the same inputs give the
same key, and what one call's key encrypted the other call's key decrypts
(for a primitive that decrypts what it encrypted). -/
theorem deriveKey_deterministic (password salt : String) :
    deriveKey sha256Digest password salt
      = some (sha256Digest (utf8Encode (password ++ salt))) ∧
    (∀ k1 k2, deriveKey sha256Digest password salt = some k1 →
      deriveKey sha256Digest password salt = some k2 → k1 = k2) ∧
    (∀ (aes : AesGcm), aes.Correct → ∀ k1 k2 iv plaintext ciphertext,
      deriveKey sha256Digest password salt = some k1 →
      deriveKey sha256Digest password salt = some k2 →
      aes.encrypt k1 iv plaintext = some ciphertext →
      aes.decrypt k2 iv ciphertext = some plaintext) := by
  have hkey : deriveKey sha256Digest password salt
      = some (sha256Digest (utf8Encode (password ++ salt))) := by
    simp [deriveKey, sha256Digest_length]
  refine ⟨hkey, ?_, ?_⟩
  · intro k1 k2 h1 h2
    rw [h1] at h2
    exact Option.some.inj h2
  · intro aes haes k1 k2 iv plaintext ciphertext h1 h2 henc
    rw [h1] at h2
    cases h2
    exact (haes k1 iv plaintext ciphertext henc).2

/-- C17 at a concrete input: the key of the encrypted store. -/
theorem deriveKey_deterministic_witness :
    deriveKey sha256Digest DEFAULT_KEY_PASSWORD KEY_SALT
      = some (sha256Digest (utf8Encode (DEFAULT_KEY_PASSWORD ++ KEY_SALT))) :=
  (deriveKey_deterministic DEFAULT_KEY_PASSWORD KEY_SALT).1

/-- C18: nonce uniqueness over the embedding. `encryptData` draws 12 bytes as
nonce on every call; for every plaintext and key password, two calls whose
nonces differ return two different blobs, and the first 12 decoded bytes of
each blob are its nonce, so they differ too. -/
theorem encryptData_distinct_nonces (aes : AesGcm) (digest : List Nat → List Nat)
    (random1 random2 : Nat → Nat) (maxArguments : Nat) (data keyPassword blob1 blob2 : String)
    (hiv : generateIV random1 ≠ generateIV random2)
    (h1 : encryptData aes digest random1 maxArguments data keyPassword = some blob1)
    (h2 : encryptData aes digest random2 maxArguments data keyPassword = some blob2) :
    (generateIV random1).length = 12 ∧ (generateIV random2).length = 12 ∧
    blob1 ≠ blob2 ∧
    ∃ combined1 combined2, atob blob1 = some combined1 ∧ atob blob2 = some combined2 ∧
      combined1.take 12 = generateIV random1 ∧ combined2.take 12 = generateIV random2 ∧
      combined1.take 12 ≠ combined2.take 12 := by
  obtain ⟨_, c1, _, _, _, ha1⟩ := encryptData_some aes digest random1 maxArguments data keyPassword blob1 h1
  obtain ⟨_, c2, _, _, _, ha2⟩ := encryptData_some aes digest random2 maxArguments data keyPassword blob2 h2
  have t1 : (generateIV random1 ++ c1).take 12 = generateIV random1 :=
    List.take_left' (generateIV_length random1)
  have t2 : (generateIV random2 ++ c2).take 12 = generateIV random2 :=
    List.take_left' (generateIV_length random2)
  refine ⟨generateIV_length random1, generateIV_length random2, ?_, _, _, ha1, ha2, t1, t2, ?_⟩
  · intro hb
    rw [hb, ha2] at ha1
    have := congrArg (List.take 12) (Option.some.inj ha1)
    rw [t1, t2] at this
    exact hiv this.symm
  · rw [t1, t2]
    exact hiv

/-- C18 at a concrete input: the same plaintext under the nonces of
`countingBytes` and `constantBytes`. -/
theorem encryptData_distinct_nonces_witness :
    (generateIV countingBytes).length = 12 ∧ (generateIV constantBytes).length = 12 ∧
    "AAECAwQFBgcICQoLdHJ1ZQICAgICAgICAgICAgICAgI="
      ≠ "BwcHBwcHBwcHBwcHdHJ1ZRQUFBQUFBQUFBQUFBQUFBQ=" ∧
    ∃ combined1 combined2,
      atob "AAECAwQFBgcICQoLdHJ1ZQICAgICAgICAgICAgICAgI=" = some combined1 ∧
      atob "BwcHBwcHBwcHBwcHdHJ1ZRQUFBQUFBQUFBQUFBQUFBQ=" = some combined2 ∧
      combined1.take 12 = generateIV countingBytes ∧
      combined2.take 12 = generateIV constantBytes ∧
      combined1.take 12 ≠ combined2.take 12 :=
  encryptData_distinct_nonces demoAesGcm tableDigest countingBytes constantBytes 65536 "true"
    DEFAULT_KEY_PASSWORD "AAECAwQFBgcICQoLdHJ1ZQICAgICAgICAgICAgICAgI="
    "BwcHBwcHBwcHBwcHdHJ1ZRQUFBQUFBQUFBQUFBQUFBQ=" (by decide) (by decide) (by decide)

/-- The function `decryptData` reads a blob only through its base64
decoding. -/
theorem decryptData_congr_atob (aes : AesGcm) (digest : List Nat → List Nat)
    (text1 text2 keyPassword : String) (h : atob text1 = atob text2) :
    decryptData aes digest text1 keyPassword = decryptData aes digest text2 keyPassword := by
  unfold decryptData
  rw [h]

/-- A bit flip that tamper sensitivity does not speak about: in the blob that
`encryptData` returns for the text `true`, the last character before the
padding is `I` (code 73); flipping one bit of it gives `K` (code 75). The two
low bits of that character are not part of any byte, so the altered blob
decodes to the same bytes (neither nonce nor ciphertext+tag differs) and
`decryptData` returns what it returns for the original blob. -/
theorem decryptData_accepts_flipped_unused_bit :
    encryptData demoAesGcm tableDigest countingBytes 65536 "true" DEFAULT_KEY_PASSWORD
      = some "AAECAwQFBgcICQoLdHJ1ZQICAgICAgICAgICAgICAgI=" ∧
    "AAECAwQFBgcICQoLdHJ1ZQICAgICAgICAgICAgICAgK=".data
      = "AAECAwQFBgcICQoLdHJ1ZQICAgICAgICAgICAgICAgI=".data.set 42 (Char.ofNat (73 ^^^ 2)) ∧
    "AAECAwQFBgcICQoLdHJ1ZQICAgICAgICAgICAgICAgK="
      ≠ "AAECAwQFBgcICQoLdHJ1ZQICAgICAgICAgICAgICAgI=" ∧
    atob "AAECAwQFBgcICQoLdHJ1ZQICAgICAgICAgICAgICAgK="
      = atob "AAECAwQFBgcICQoLdHJ1ZQICAgICAgICAgICAgICAgI=" ∧
    (∀ (aes : AesGcm) (digest : List Nat → List Nat) (keyPassword : String),
      decryptData aes digest "AAECAwQFBgcICQoLdHJ1ZQICAgICAgICAgICAgICAgK=" keyPassword
        = decryptData aes digest "AAECAwQFBgcICQoLdHJ1ZQICAgICAgICAgICAgICAgI=" keyPassword) ∧
    decryptData demoAesGcm tableDigest "AAECAwQFBgcICQoLdHJ1ZQICAgICAgICAgICAgICAgK="
      DEFAULT_KEY_PASSWORD = some "true" :=
  ⟨by decide, by decide, by decide, by decide,
    fun aes digest keyPassword => decryptData_congr_atob aes digest _ _ keyPassword (by decide),
    by decide⟩

/-- When `decryptData` returns `null`: exactly when the text is not valid
base64, or the key cannot be derived, or the AES-GCM primitive rejects the
decoded nonce (first 12 bytes) and ciphertext+tag (the rest); and a text that
decodes to the same bytes as another gives the same result. -/
theorem decryptData_null_iff (aes : AesGcm) (digest : List Nat → List Nat)
    (text blob keyPassword : String) :
    (decryptData aes digest text keyPassword = none ↔
      (atob text = none ∨ deriveKey digest keyPassword KEY_SALT = none ∨
        ∃ combined key, atob text = some combined ∧
          deriveKey digest keyPassword KEY_SALT = some key ∧
          aes.decrypt key (combined.take 12) (combined.drop 12) = none)) ∧
    (atob text = atob blob →
      decryptData aes digest text keyPassword = decryptData aes digest blob keyPassword) := by
  refine ⟨?_, decryptData_congr_atob aes digest text blob keyPassword⟩
  unfold decryptData
  cases ha : atob text with
  | none => simp
  | some combined =>
    cases hk : deriveKey digest keyPassword KEY_SALT with
    | none => simp
    | some key =>
      cases hd : aes.decrypt key (combined.take 12) (combined.drop 12) with
      | none => simp [hd]
      | some plaintext => simp [hd]

/-- A blob whose checksum byte was altered is rejected by the stand-in
primitive `demoAesGcm`, and `decryptData` returns `null`. -/
theorem decryptData_null_iff_witness :
    decryptData demoAesGcm tableDigest "AAECAwQFBgcICQoLdHJ1ZQICAgICAgICAgICAgICAgM="
      DEFAULT_KEY_PASSWORD = none :=
  (decryptData_null_iff demoAesGcm tableDigest
    "AAECAwQFBgcICQoLdHJ1ZQICAgICAgICAgICAgICAgM="
    "AAECAwQFBgcICQoLdHJ1ZQICAgICAgICAgICAgICAgI=" DEFAULT_KEY_PASSWORD).1.mpr
    (Or.inr (Or.inr ⟨generateIV countingBytes
      ++ [116, 114, 117, 101, 2, 2, 2, 2, 2, 2, 2, 2, 2, 2, 2, 2, 2, 2, 2, 3],
      List.replicate 32 0, by decide, by decide, by decide⟩))

theorem singleMessageAesGcm_correct : singleMessageAesGcm.Correct := by
  intro key iv plaintext ciphertext h
  simp only [singleMessageAesGcm] at h ⊢
  by_cases hc : iv = generateIV countingBytes ∧ plaintext = [116, 114, 117, 101]
  · rw [if_pos hc] at h
    cases h
    refine ⟨by decide, ?_⟩
    rw [if_pos ⟨hc.1, rfl⟩, hc.2]
  · rw [if_neg hc] at h
    cases h

theorem singleMessageAesGcm_authenticates (key : List Nat) :
    singleMessageAesGcm.Authenticates key (generateIV countingBytes)
      ([116, 114, 117, 101] ++ List.replicate 16 2) := by
  intro iv1 ciphertext1 hne
  have hnot : ¬ (iv1 = generateIV countingBytes
      ∧ ciphertext1 = [116, 114, 117, 101] ++ List.replicate 16 2) := by
    intro h
    rcases hne with h1 | h1
    · exact h1 h.1
    · exact h1 h.2
  simp only [singleMessageAesGcm, if_neg hnot]

/-- C19: tamper sensitivity. Let `blob` be what `encryptData` returned for a
text, made of the nonce and the ciphertext+tag that the primitive produced
under the derived key, and let the primitive authenticate, in the ideal form
of the AES-GCM guarantee: under that key it accepts no other pair of nonce and
ciphertext+tag. Then for every text put in the place of the blob, in
particular the blob with any one bit flipped, that is no longer valid base64
or whose decoded nonce (first 12 bytes) or ciphertext+tag (the rest) differs,
`decryptData` returns `null` rather than a plaintext. The blob itself decodes
to nonce followed by ciphertext+tag. -/
theorem decryptData_rejects_tampered (aes : AesGcm) (digest : List Nat → List Nat)
    (random : Nat → Nat) (maxArguments : Nat) (data keyPassword blob text : String)
    (key ciphertext : List Nat)
    (hblob : encryptData aes digest random maxArguments data keyPassword = some blob)
    (hkey : deriveKey digest keyPassword KEY_SALT = some key)
    (henc : aes.encrypt key (generateIV random) (utf8Encode data) = some ciphertext)
    (hauth : aes.Authenticates key (generateIV random) ciphertext)
    (htamper : atob text = none ∨
      ∃ combined, atob text = some combined ∧
        (combined.take 12 ≠ generateIV random ∨ combined.drop 12 ≠ ciphertext)) :
    atob blob = some (generateIV random ++ ciphertext) ∧
    decryptData aes digest text keyPassword = none := by
  obtain ⟨key1, ciphertext1, hk1, he1, _, hatob⟩ :=
    encryptData_some aes digest random maxArguments data keyPassword blob hblob
  rw [hkey] at hk1
  cases hk1
  rw [henc] at he1
  cases he1
  refine ⟨hatob, ?_⟩
  unfold decryptData
  rcases htamper with hnone | ⟨combined, hsome, hdiff⟩
  · simp only [hnone]
  · simp only [hsome, hkey, hauth (combined.take 12) (combined.drop 12) hdiff]

/-- C19 at a concrete input: in the blob for the text `true`, the character
`I` (code 73) at index 42 with one bit flipped is `M` (code 77); the altered
text is valid base64 and decodes to a different last tag byte, and
`decryptData` returns `null`. -/
theorem decryptData_rejects_tampered_witness :
    "AAECAwQFBgcICQoLdHJ1ZQICAgICAgICAgICAgICAgM=".data
      = "AAECAwQFBgcICQoLdHJ1ZQICAgICAgICAgICAgICAgI=".data.set 42 (Char.ofNat (73 ^^^ 4)) ∧
    atob "AAECAwQFBgcICQoLdHJ1ZQICAgICAgICAgICAgICAgI="
      = some (generateIV countingBytes ++ ([116, 114, 117, 101] ++ List.replicate 16 2)) ∧
    decryptData singleMessageAesGcm tableDigest "AAECAwQFBgcICQoLdHJ1ZQICAgICAgICAgICAgICAgM="
      DEFAULT_KEY_PASSWORD = none :=
  ⟨by decide,
    decryptData_rejects_tampered singleMessageAesGcm tableDigest countingBytes 65536 "true"
      DEFAULT_KEY_PASSWORD "AAECAwQFBgcICQoLdHJ1ZQICAgICAgICAgICAgICAgI="
      "AAECAwQFBgcICQoLdHJ1ZQICAgICAgICAgICAgICAgM=" (List.replicate 32 0)
      ([116, 114, 117, 101] ++ List.replicate 16 2) (by decide) (by decide) (by decide)
      (singleMessageAesGcm_authenticates (List.replicate 32 0))
      (Or.inr ⟨generateIV countingBytes
        ++ [116, 114, 117, 101, 2, 2, 2, 2, 2, 2, 2, 2, 2, 2, 2, 2, 2, 2, 2, 3],
        by decide, Or.inr (by decide)⟩)⟩

/-! ## Logout, token check and malformed session records -/

/-- C21: `clearSession` deletes the session record whatever was stored:
afterwards the session entry is absent, `getSession` returns `null` and
`isSessionValid` returns false at every time, both without further effect; the
durable storage, hence the attempt record and the lockout record, and the other
entries of session storage are exactly as before. -/
theorem clearSession_effect (now : Int) (s : State) :
    (clearSession s).sessionStorage SESSION_KEY = none ∧
    getSession now (clearSession s) = (.prim .null, clearSession s) ∧
    isSessionValid now (clearSession s) = (false, clearSession s) ∧
    (clearSession s).localStorage = s.localStorage ∧
    (clearSession s).localStorage LOGIN_ATTEMPTS_KEY = s.localStorage LOGIN_ATTEMPTS_KEY ∧
    (clearSession s).localStorage LOCKOUT_KEY = s.localStorage LOCKOUT_KEY ∧
    (∀ k, k ≠ SESSION_KEY → (clearSession s).sessionStorage k = s.sessionStorage k) := by
  have h : (clearSession s).sessionStorage SESSION_KEY = none := by
    simp [clearSession, Storage.removeItem]
  refine ⟨h, getSession_absent now _ h, isSessionValid_absent now _ h, rfl, rfl, rfl, ?_⟩
  intro k hk
  simp [clearSession, Storage.removeItem, hk]

/-- C25, the claim as stated fails: for the length 65537 no sequence of
random bytes is delivered, `crypto.getRandomValues` raises a
QuotaExceededError, and `generateSessionToken` returns no string. -/
theorem generateSessionToken_raises_above_quota :
    generateSessionToken countingBytes 65537 = .error .quotaExceededError ∧
    ¬ ∃ token : String, generateSessionToken countingBytes 65537 = .ok token := by
  have h : generateSessionToken countingBytes 65537 = .error .quotaExceededError := by
    unfold generateSessionToken
    rw [if_pos (by decide)]
  refine ⟨h, ?_⟩
  rintro ⟨token, htoken⟩
  rw [h] at htoken
  cases htoken

/-- C25, amended: for every length `n` up to 65536, the quota of
`crypto.getRandomValues`, and every source of random bytes,
`generateSessionToken` returns a string of exactly `n` characters (and UTF-16
code units), each a member of the 70-character alphabet; the index
`byte % 70` always hits a character, so nothing is dropped as `undefined`. The
default length `TOKEN_LENGTH` is 32. For every longer length the call raises
a QuotaExceededError and returns no token. -/
theorem generateSessionToken_spec (random : Nat → Nat) (n : Nat) :
    (n ≤ 65536 →
      ∃ token : String, generateSessionToken random n = .ok token ∧
        token.length = n ∧ jsLength token = n ∧
        (∀ c ∈ token.data, c ∈ TOKEN_CHARS.data)) ∧
    (65536 < n → generateSessionToken random n = .error .quotaExceededError) ∧
    jsLength TOKEN_CHARS = 70 ∧ TOKEN_CHARS.data.length = 70 ∧
    (∀ byte : Nat, (TOKEN_CHARS.data.get? (byte % jsLength TOKEN_CHARS)).isSome = true) ∧
    SECURITY_CONFIG.TOKEN_LENGTH = 32 := by
  have h70 : jsLength TOKEN_CHARS = 70 := by decide
  have hdata : TOKEN_CHARS.data.length = 70 := by decide
  refine ⟨?_, ?_, h70, hdata, ?_, rfl⟩
  · intro hn
    have hlen := tokenFromBytes_length ((List.range n).map (fun i => random i % 256))
    refine ⟨_, generateSessionToken_ok random n hn, ?_, ?_, ?_⟩
    · rw [hlen.1]; simp
    · rw [hlen.2]; simp
    · exact (filterMap_token_chars ((List.range n).map (fun i => random i % 256))).2
  · intro hn
    have hq : RANDOM_VALUES_QUOTA < n := hn
    unfold generateSessionToken
    rw [if_pos hq]
  · intro byte
    have hlt : byte % jsLength TOKEN_CHARS < TOKEN_CHARS.data.length := by
      rw [h70, hdata]; exact Nat.mod_lt _ (by decide)
    rw [List.get?_eq_get hlt]
    rfl

/-- C25 (amended) at concrete inputs: the default length 32 gives a token of
32 alphabet characters, and the length 70000 raises. -/
theorem generateSessionToken_spec_witness :
    (∃ token : String, generateSessionToken countingBytes 32 = .ok token ∧
      token.length = 32 ∧ jsLength token = 32 ∧
      (∀ c ∈ token.data, c ∈ TOKEN_CHARS.data)) ∧
    generateSessionToken countingBytes 70000 = .error .quotaExceededError :=
  ⟨(generateSessionToken_spec countingBytes 32).1 (by decide),
    (generateSessionToken_spec countingBytes 70000).2.1 (by decide)⟩

/-- C26, the code at the failing input: at time 400000 the session of
`idleSessionState` has been idle for longer than 5 minutes, `isSessionValid`
answers false, and `verifySessionToken` with the session token answers true. -/
theorem verifySessionToken_accepts_idle_session :
    (verifySessionToken 400000 (.str "ABCDEFGHIJKLMNOPQRSTUVWXYZabcdef") idleSessionState).1
      = .prim (.bool true) ∧
    (isSessionValid 400000 idleSessionState).1 = false :=
  ⟨rfl, rfl⟩

/-- What `verifySessionToken` computes: it consults the absolute expiry only.
For a stored session record with numeric `expiresAt = e` and
`lastActivity = a`, it returns true exactly when `now <= e` and the stored
token is the given token; `isSessionValid` at the same time returns true
exactly when in addition `now - a <= 5 minutes`. -/
theorem verifySessionToken_iff (now : Int) (token : Val) (s : State)
    (fields : List (String × Val)) (e a : Int)
    (hrec : s.sessionStorage SESSION_KEY = some (.json (.obj fields)))
    (he : fields.lookup "expiresAt" = some (.num e))
    (ha : fields.lookup "lastActivity" = some (.num a)) :
    ((verifySessionToken now token s).1 = .prim (.bool true) ↔
      now ≤ e ∧ strictEq ((fields.lookup "token").getD .undefined) token = true) ∧
    ((verifySessionToken now token s).1 = .prim (.bool true) →
      ((isSessionValid now s).1 = true ↔ now - a ≤ 5 * 60 * 1000)) := by
  have hv : (verifySessionToken now token s).1 = .prim (.bool true) ↔
      now ≤ e ∧ strictEq ((fields.lookup "token").getD .undefined) token = true := by
    unfold verifySessionToken
    rw [getSession_record now s fields e hrec he]
    by_cases hexp : e < now
    · rw [if_pos hexp]
      simp only [Json.truthy, Val.truthy, Bool.false_eq_true, if_false]
      constructor
      · intro h; cases h
      · intro h; omega
    · rw [if_neg hexp]
      simp only [Json.truthy, if_true, Json.get, Json.prim.injEq, Val.bool.injEq]
      constructor
      · intro h; exact ⟨by omega, h⟩
      · intro h; exact h.2
  refine ⟨hv, ?_⟩
  intro h
  have hle := (hv.mp h).1
  rw [isSessionValid_record now s fields e a hrec he ha, if_neg (by omega)]
  by_cases hin : 300000 < now - a
  · rw [if_pos hin]
    constructor
    · intro h2; cases h2
    · intro h2; omega
  · rw [if_neg hin]
    constructor
    · intro _; omega
    · intro _; rfl

/-- The computation of `verifySessionToken` on the idle session at time
400000. -/
theorem verifySessionToken_iff_witness :
    ((verifySessionToken 400000 (.str "ABCDEFGHIJKLMNOPQRSTUVWXYZabcdef") idleSessionState).1
        = .prim (.bool true) ↔
      (400000 : Int) ≤ 900000 ∧
      strictEq (([("token", Val.str "ABCDEFGHIJKLMNOPQRSTUVWXYZabcdef"), ("createdAt", .num 0),
        ("expiresAt", .num 900000), ("lastActivity", .num 0)].lookup "token").getD .undefined)
        (.str "ABCDEFGHIJKLMNOPQRSTUVWXYZabcdef") = true) ∧
    ((verifySessionToken 400000 (.str "ABCDEFGHIJKLMNOPQRSTUVWXYZabcdef") idleSessionState).1
        = .prim (.bool true) →
      ((isSessionValid 400000 idleSessionState).1 = true ↔
        (400000 : Int) - 0 ≤ 5 * 60 * 1000)) :=
  verifySessionToken_iff 400000 (.str "ABCDEFGHIJKLMNOPQRSTUVWXYZabcdef") idleSessionState
    [("token", .str "ABCDEFGHIJKLMNOPQRSTUVWXYZabcdef"), ("createdAt", .num 0),
      ("expiresAt", .num 900000), ("lastActivity", .num 0)] 900000 0 rfl rfl rfl

/-- C28, the code at the failing input: the session entry is the JSON text of
an empty object. `getSession` returns it (the comparison of `now` with the
missing `expiresAt` is false), the inactivity comparison with `NaN` is false
too, and `isSessionValid` answers true, at every time; `verifySessionToken`
with the token `undefined` answers true as well. -/
theorem isSessionValid_accepts_empty_record :
    (∀ now : Int, isSessionValid now emptyRecordSessionState = (true, emptyRecordSessionState)) ∧
    (∀ now : Int, (verifySessionToken now .undefined emptyRecordSessionState).1
      = .prim (.bool true)) :=
  ⟨fun _ => rfl, fun _ => rfl⟩

/-! ## Sanitization and validation -/

theorem not_mem_replaceAllChar (d x : Char) (replacement : String) (s : List Char)
    (hr : d ∉ replacement.data) (hs : d = x ∨ d ∉ s) :
    d ∉ replaceAllChar x replacement s := by
  intro hmem
  simp only [replaceAllChar, List.mem_flatMap] at hmem
  obtain ⟨y, hy, hd⟩ := hmem
  by_cases hyx : y = x
  · rw [if_pos hyx] at hd
    exact hr hd
  · rw [if_neg hyx] at hd
    have hdy : d = y := by simpa using hd
    rcases hs with h | h
    · exact hyx (hdy ▸ h)
    · exact h (hdy ▸ hy)

theorem not_mem_innerHTMLOfText (d : Char) (text : String)
    (hd : d = LESS_THAN ∨ d = GREATER_THAN) : d ∉ innerHTMLOfText text := by
  intro hmem
  simp only [innerHTMLOfText, List.mem_flatMap] at hmem
  obtain ⟨y, _, hdy⟩ := hmem
  unfold escapeTextChar at hdy
  split at hdy
  · rcases hd with h | h <;> subst h <;> revert hdy <;> decide
  · split at hdy
    · rcases hd with h | h <;> subst h <;> revert hdy <;> decide
    · split at hdy
      · rcases hd with h | h <;> subst h <;> revert hdy <;> decide
      · split at hdy
        · rcases hd with h | h <;> subst h <;> revert hdy <;> decide
        · rename_i h1 h2 h3 h4
          have hdy2 : d = y := by simpa using hdy
          rcases hd with h | h
          · exact h3 (hdy2 ▸ h)
          · exact h4 (hdy2 ▸ h)

/-- C23: for every string input the result of `sanitizeInput` contains none of
the characters `<`, `>`, double quote, apostrophe and `/`; for every input that
is not a string the result is the empty string; the definitions of security.js
and script.js are the same function. -/
theorem sanitizeInput_no_markup (input : Json) :
    (∀ text, input = .prim (.str text) →
      ∀ c ∈ (sanitizeInput input).data,
        c ≠ LESS_THAN ∧ c ≠ GREATER_THAN ∧ c ≠ DOUBLE_QUOTE ∧ c ≠ APOSTROPHE ∧ c ≠ SLASH) ∧
    ((∀ text, input ≠ .prim (.str text)) → sanitizeInput input = "") ∧
    Script.sanitizeInput input = sanitizeInput input := by
  refine ⟨?_, ?_, rfl⟩
  · intro text hinput
    subst hinput
    have key : ∀ d : Char, d = LESS_THAN ∨ d = GREATER_THAN ∨ d = DOUBLE_QUOTE ∨ d = APOSTROPHE
        ∨ d = SLASH → d ∉ (sanitizeInput (.prim (.str text))).data := by
      intro d hd
      simp only [sanitizeInput]
      have h0 : d = LESS_THAN ∨ d = GREATER_THAN → d ∉ innerHTMLOfText text :=
        not_mem_innerHTMLOfText d text
      have hne : ∀ r : String, r ∈ ["&#x2F;", "&#x27;", "&quot;", "&gt;", "&lt;", "&amp;"] →
          d ∉ r.data := by
        intro r hr
        rcases hd with h | h | h | h | h <;> subst h <;> revert r <;> decide
      -- each replacement removes its character and brings none of the five
      apply not_mem_replaceAllChar _ _ _ _ (hne _ (by simp))
      by_cases h5 : d = SLASH
      · exact Or.inl h5
      · right
        apply not_mem_replaceAllChar _ _ _ _ (hne _ (by simp))
        by_cases h4 : d = APOSTROPHE
        · exact Or.inl h4
        · right
          apply not_mem_replaceAllChar _ _ _ _ (hne _ (by simp))
          by_cases h3 : d = DOUBLE_QUOTE
          · exact Or.inl h3
          · right
            have h12 : d = LESS_THAN ∨ d = GREATER_THAN := by
              rcases hd with h | h | h | h | h
              · exact Or.inl h
              · exact Or.inr h
              · exact absurd h h3
              · exact absurd h h4
              · exact absurd h h5
            apply not_mem_replaceAllChar _ _ _ _ (hne _ (by simp))
            right
            apply not_mem_replaceAllChar _ _ _ _ (hne _ (by simp))
            right
            apply not_mem_replaceAllChar _ _ _ _ (hne _ (by simp))
            right
            exact h0 h12
    intro c hc
    refine ⟨?_, ?_, ?_, ?_, ?_⟩ <;> intro h <;> exact key c (by simp [h]) hc
  · intro hns
    unfold sanitizeInput
    split
    · rename_i text
      exact absurd rfl (hns text)
    · rfl

/-- C23 at a concrete input: a tag with an attribute. -/
theorem sanitizeInput_no_markup_witness :
    ∀ c ∈ (sanitizeInput (.prim (.str "<a href=x>"))).data,
      c ≠ LESS_THAN ∧ c ≠ GREATER_THAN ∧ c ≠ DOUBLE_QUOTE ∧ c ≠ APOSTROPHE ∧ c ≠ SLASH :=
  (sanitizeInput_no_markup (.prim (.str "<a href=x>"))).1 "<a href=x>" rfl

theorem matchAnchored_replicate (p : Char → Bool) (n : Nat) :
    ∀ cs : List Char, matchAnchored (List.replicate n p) cs = true ↔
      cs.length = n ∧ ∀ c ∈ cs, p c = true := by
  induction n with
  | zero =>
    intro cs
    cases cs with
    | nil => simp [matchAnchored]
    | cons c rest => simp [matchAnchored]
  | succ n ih =>
    intro cs
    cases cs with
    | nil => simp [List.replicate_succ, matchAnchored]
    | cons c rest =>
      simp only [List.replicate_succ, matchAnchored, Bool.and_eq_true, ih rest, List.length_cons,
        List.mem_cons, forall_eq_or_imp, Nat.add_right_cancel_iff]
      constructor
      · rintro ⟨h1, h2, h3⟩; exact ⟨h2, h1, h3⟩
      · rintro ⟨h1, h2, h3⟩; exact ⟨h2, h1, h3⟩

theorem isSixToNine_iff (c : Char) :
    isSixToNine c = true ↔ (c = '6' ∨ c = '7' ∨ c = '8' ∨ c = '9') := by
  constructor
  · intro h
    simp only [isSixToNine, Bool.and_eq_true, decide_eq_true_eq] at h
    have hc : c = Char.ofNat c.toNat := (Char.ofNat_toNat c).symm
    have hcases : c.toNat = 54 ∨ c.toNat = 55 ∨ c.toNat = 56 ∨ c.toNat = 57 := by omega
    rcases hcases with h1 | h1 | h1 | h1 <;> rw [h1] at hc
    · exact Or.inl hc
    · exact Or.inr (Or.inl hc)
    · exact Or.inr (Or.inr (Or.inl hc))
    · exact Or.inr (Or.inr (Or.inr hc))
  · intro h
    rcases h with h | h | h | h <;> subst h <;> decide

/-- C24: for every string, `isValidPhone` returns true if and only if the
string with all white space removed consists of exactly 10 ASCII digits the
first of which is 6, 7, 8 or 9; the definitions of security.js and script.js
are the same function. -/
theorem isValidPhone_iff (phone : String) :
    (isValidPhone phone = true ↔
      (phone.data.filter (fun c => !isRegexWhitespace c)).length = 10 ∧
      (∀ c ∈ phone.data.filter (fun c => !isRegexWhitespace c), isRegexDigit c = true) ∧
      ∃ c rest, phone.data.filter (fun c => !isRegexWhitespace c) = c :: rest ∧
        (c = '6' ∨ c = '7' ∨ c = '8' ∨ c = '9')) ∧
    Script.isValidPhone phone = isValidPhone phone := by
  refine ⟨?_, rfl⟩
  unfold isValidPhone PHONE_REGEX
  cases hd : phone.data.filter (fun c => !isRegexWhitespace c) with
  | nil => simp [matchAnchored]
  | cons c rest =>
    simp only [matchAnchored, Bool.and_eq_true, matchAnchored_replicate, isSixToNine_iff,
      List.length_cons, List.mem_cons, forall_eq_or_imp]
    constructor
    · rintro ⟨h1, h2, h3⟩
      refine ⟨by omega, ⟨?_, h3⟩, c, rest, rfl, h1⟩
      rcases h1 with h | h | h | h <;> subst h <;> decide
    · rintro ⟨h1, ⟨_, h3⟩, c1, rest1, heq, h4⟩
      simp only [List.cons.injEq] at heq
      refine ⟨by rw [heq.1]; exact h4, by omega, h3⟩

/-- C24 at a concrete input: a mobile number written with a space is accepted,
so without the space it is 10 digits starting with 6, 7, 8 or 9. -/
theorem isValidPhone_iff_witness :
    (("98765 43210".data.filter (fun c => !isRegexWhitespace c)).length = 10 ∧
      (∀ c ∈ "98765 43210".data.filter (fun c => !isRegexWhitespace c),
        isRegexDigit c = true) ∧
      ∃ c rest, "98765 43210".data.filter (fun c => !isRegexWhitespace c) = c :: rest ∧
        (c = '6' ∨ c = '7' ∨ c = '8' ∨ c = '9')) ∧
    Script.isValidPhone "98765 43210" = isValidPhone "98765 43210" :=
  ⟨(isValidPhone_iff "98765 43210").1.mp (by decide), (isValidPhone_iff "98765 43210").2⟩

/-! ## Service worker -/

/-- C22: admin pages are never cached. For every GET request whose URL path
contains `/admin-login.html`, `/admin-dashboard.html` or `/admin.js`, the fetch
handler returns without responding, so neither `handleStaticAsset` nor
`handlePageRequest` runs for it; and no entry of `STATIC_ASSETS`, the list
cached at install time, contains one of these paths. -/
theorem admin_pages_never_cached (request : FetchRequest)
    (hget : request.method = "GET")
    (hadmin : includes request.pathname "/admin-login.html" = true ∨
      includes request.pathname "/admin-dashboard.html" = true ∨
      includes request.pathname "/admin.js" = true) :
    onFetch request = .ok .notHandled ∧
    ∀ asset ∈ STATIC_ASSETS, ∀ page ∈ ADMIN_PAGES, includes asset page = false := by
  refine ⟨?_, by decide⟩
  have hany : ADMIN_PAGES.any (fun page => includes request.pathname page) = true := by
    simp only [ADMIN_PAGES, List.any_cons, List.any_nil, Bool.or_false, Bool.or_eq_true]
    rcases hadmin with h | h | h
    · exact Or.inl h
    · exact Or.inr (Or.inl h)
    · exact Or.inr (Or.inr h)
  unfold onFetch
  rw [if_neg (by simp [hget]), if_pos hany]

/-- C22 at a concrete input: a navigation to the admin dashboard. -/
theorem admin_pages_never_cached_witness :
    onFetch { method := "GET"
              url := "https://click1solutions.in/admin-dashboard.html"
              pathname := "/admin-dashboard.html"
              protocol := "https:"
              mode := "navigate"
              accept := some "text/html" } = .ok .notHandled ∧
    ∀ asset ∈ STATIC_ASSETS, ∀ page ∈ ADMIN_PAGES, includes asset page = false :=
  admin_pages_never_cached _ rfl (Or.inr (Or.inl (by decide)))

/-! ## The login invariant -/

theorem getSession_localStorage (now : Int) (s : State) :
    (getSession now s).2.localStorage = s.localStorage := by
  unfold getSession
  simp only [Storage.getItem]
  split
  · rfl
  · split
    · split
      · rfl
      · split <;> rfl
    · rfl

theorem isSessionValid_localStorage (now : Int) (s : State) :
    (isSessionValid now s).2.localStorage = s.localStorage := by
  have h := getSession_localStorage now s
  unfold isSessionValid
  simp only []
  split
  · exact h
  · split
    · exact h
    · split
      · exact h
      · exact h

theorem updateActivity_localStorage (now : Int) (s : State) :
    (updateActivity now s).localStorage = s.localStorage := by
  have h := getSession_localStorage now s
  unfold updateActivity
  simp only []
  split
  · exact h
  · exact h

/-- The invariant reads durable storage only. -/
theorem LoginInvariant_congr (s s1 : State) (h : s1.localStorage = s.localStorage)
    (hinv : LoginInvariant s) : LoginInvariant s1 := by
  unfold LoginInvariant at hinv ⊢
  rw [h]
  exact hinv

theorem isLockedMessage_locked (rest : String) :
    isLockedMessage ("Account locked. Try again in " ++ rest) = true := by
  simp [isLockedMessage, String.data_append, List.isPrefixOf]

theorem isLockedMessage_password (rest : String) :
    isLockedMessage ("Password must be at least " ++ rest) = false := by
  simp [isLockedMessage, String.data_append, List.isPrefixOf]

theorem isLockedMessage_invalid (rest : String) :
    isLockedMessage ("Invalid credentials. " ++ rest) = false := by
  simp [isLockedMessage, String.data_append, List.isPrefixOf]

/-- The attempts record written by a failure on top of a two-field record. -/
theorem stringify_incremented (c now : Int) (tv : Val) :
    stringify (((Json.obj [("count", .num c), ("timestamp", tv)]).set "count"
      (.num (c + 1))).set "timestamp" (.num now))
      = .json (.obj [("count", .num (c + 1)), ("timestamp", .num now)]) := by
  rfl

theorem getLoginAttempts_absent (s : State) (h : s.localStorage LOGIN_ATTEMPTS_KEY = none) :
    getLoginAttempts s = .ok (.obj [("count", .num 0), ("timestamp", .null)]) := by
  simp [getLoginAttempts, Storage.getItem, h, falsyItem]

theorem getLoginAttempts_stored (s : State) (attempts : Json)
    (h : s.localStorage LOGIN_ATTEMPTS_KEY = some (.json attempts)) :
    getLoginAttempts s = .ok attempts := by
  simp [getLoginAttempts, Storage.getItem, h, falsyItem]

/-- After a lockout check that reported unlocked and left no lockout record,
`authenticateAdmin` continues as it would from the state the check left. -/
theorem authenticateAdmin_after_check (digest : List Nat → List Nat) (random : Nat → Nat)
    (now : Int) (username password : String) (s s1 : State) (st : LockStatus)
    (hlock : isLoginLocked now s = .ok (st, s1)) (hun : st.locked = false)
    (hnone : s1.localStorage LOCKOUT_KEY = none) :
    authenticateAdmin digest random now username password s
      = authenticateAdmin digest random now username password s1 := by
  unfold authenticateAdmin
  rw [hlock, isLoginLocked_absent now s1 hnone]
  simp only [hun, Bool.false_eq_true, if_false]

/-- One `authenticateAdmin` call from a state of the invariant that has no
lockout record. -/
theorem authenticateAdmin_open (digest : List Nat → List Nat) (random : Nat → Nat)
    (now : Int) (username password : String) (s : State)
    (hlock : s.localStorage LOCKOUT_KEY = none)
    (hatt : s.localStorage LOGIN_ATTEMPTS_KEY = none ∨
      ∃ c t : Int, (c = 1 ∨ c = 2) ∧ s.localStorage LOGIN_ATTEMPTS_KEY
        = some (.json (.obj [("count", .num c), ("timestamp", .num t)]))) :
    ∃ r s1, authenticateAdmin digest random now username password s = .ok (r, s1) ∧
      LoginInvariant s1 ∧
      (r.success = false → (isLockedMessage r.message = true ↔ r.locked = some true)) := by
  have hinv : LoginInvariant s := by
    rcases hatt with h | ⟨c, t, hc, h⟩
    · exact Or.inl ⟨h, hlock⟩
    · exact Or.inr (Or.inl ⟨c, t, hc, h, hlock⟩)
  by_cases hshort : jsLength password < SECURITY_CONFIG.MIN_PASSWORD_LENGTH
  · have h : authenticateAdmin digest random now username password s =
        .ok ({ success := false
               message := "Password must be at least "
                 ++ toString SECURITY_CONFIG.MIN_PASSWORD_LENGTH ++ " characters."
               locked := some false
               token := none }, s) := by
      unfold authenticateAdmin
      simp only [isLoginLocked_absent now s hlock, Bool.false_eq_true, if_false, if_pos hshort]
    refine ⟨_, _, h, hinv, ?_⟩
    intro _
    simp only [String.append_assoc, isLockedMessage_password]
    simp
  · have hlen : SECURITY_CONFIG.MIN_PASSWORD_LENGTH ≤ jsLength password := Nat.not_lt.mp hshort
    by_cases hm : sha256 digest username = ADMIN_CREDENTIALS.usernameHash ∧
        sha256 digest password = ADMIN_CREDENTIALS.passwordHash
    · refine ⟨_, _, authenticateAdmin_match digest random now username password s s _
        (isLoginLocked_absent now s hlock) rfl hlen hm.1 hm.2, ?_, ?_⟩
      · refine Or.inl ⟨?_, ?_⟩
        · simp [createSession, resetLoginAttempts, Storage.removeItem]
        · simp [createSession, resetLoginAttempts, Storage.removeItem, keys_distinct.2, hlock]
      · intro h
        simp at h
    · rcases hatt with h0 | ⟨c, t, hc, hrec⟩
      · have h := authenticateAdmin_fail_step digest random now username password s
          [("count", .num 0), ("timestamp", .null)] 0 hlock (getLoginAttempts_absent s h0) rfl
          hlen hm
        rw [stringify_incremented 0 now .null] at h
        refine ⟨_, _, h, ?_, ?_⟩
        · refine Or.inr (Or.inl ⟨1, now, Or.inl rfl, ?_, ?_⟩)
          · simp [SECURITY_CONFIG, Storage.setItem]
          · simp [SECURITY_CONFIG, Storage.setItem, keys_distinct.2, hlock]
        · intro _
          simp [SECURITY_CONFIG, String.append_assoc, isLockedMessage_invalid]
      · have h := authenticateAdmin_fail_step digest random now username password s
          [("count", .num c), ("timestamp", .num t)] c hlock
          (getLoginAttempts_stored s _ hrec) rfl hlen hm
        rw [stringify_incremented c now (.num t)] at h
        refine ⟨_, _, h, ?_, ?_⟩
        · rcases hc with hc | hc
          · subst hc
            refine Or.inr (Or.inl ⟨2, now, Or.inr rfl, ?_, ?_⟩)
            · simp [SECURITY_CONFIG, Storage.setItem]
            · simp [SECURITY_CONFIG, Storage.setItem, keys_distinct.2, hlock]
          · subst hc
            refine Or.inr (Or.inr ⟨now, now + 600000, ?_, ?_⟩)
            · simp [SECURITY_CONFIG, setLockout, Storage.setItem, keys_distinct.1]
            · simp [SECURITY_CONFIG, setLockout, Storage.setItem, stringify, stringifyField]
        · intro _
          rcases hc with hc | hc
          · subst hc
            simp [SECURITY_CONFIG, String.append_assoc, isLockedMessage_invalid]
          · subst hc
            simp [SECURITY_CONFIG]
            decide

/-- The lockout check keeps the invariant and never raises under it. -/
theorem isLoginLocked_invariant (now : Int) (s : State) (hinv : LoginInvariant s) :
    ∃ st s1, isLoginLocked now s = .ok (st, s1) ∧ LoginInvariant s1 := by
  rcases hinv with ⟨ha, hl⟩ | ⟨c, t, hc, ha, hl⟩ | ⟨t, u, ha, hl⟩
  · exact ⟨_, _, isLoginLocked_absent now s hl, Or.inl ⟨ha, hl⟩⟩
  · exact ⟨_, _, isLoginLocked_absent now s hl, Or.inr (Or.inl ⟨c, t, hc, ha, hl⟩)⟩
  · have h := isLoginLocked_record now s [("until", .num u)] u hl rfl
    by_cases hlt : now < u
    · rw [if_pos hlt] at h
      exact ⟨_, _, h, Or.inr (Or.inr ⟨t, u, ha, hl⟩)⟩
    · rw [if_neg hlt] at h
      refine ⟨_, _, h, Or.inl ⟨?_, ?_⟩⟩
      · simp [resetLoginAttempts, Storage.removeItem]
      · simp [resetLoginAttempts, Storage.removeItem, keys_distinct.2]

/-- One `authenticateAdmin` call from a state of the invariant: it returns,
the invariant holds afterwards, and a failed result carries an
`Account locked` message exactly when it carries `locked: true`. -/
theorem authenticateAdmin_invariant (digest : List Nat → List Nat) (random : Nat → Nat)
    (now : Int) (username password : String) (s : State) (hinv : LoginInvariant s) :
    ∃ r s1, authenticateAdmin digest random now username password s = .ok (r, s1) ∧
      LoginInvariant s1 ∧
      (r.success = false → (isLockedMessage r.message = true ↔ r.locked = some true)) := by
  rcases hinv with ⟨ha, hl⟩ | ⟨c, t, hc, ha, hl⟩ | ⟨t, u, ha, hl⟩
  · exact authenticateAdmin_open digest random now username password s hl (Or.inl ha)
  · exact authenticateAdmin_open digest random now username password s hl
      (Or.inr ⟨c, t, hc, ha⟩)
  · have h := isLoginLocked_record now s [("until", .num u)] u hl rfl
    by_cases hlt : now < u
    · rw [if_pos hlt] at h
      have hr : authenticateAdmin digest random now username password s =
          .ok ({ success := false
                 message := "Account locked. Try again in "
                   ++ numToString (some ((u - now + 59999) / 60000)) ++ " minutes."
                 locked := some true
                 token := none }, s) := by
        unfold authenticateAdmin
        simp only [h, if_true]
      refine ⟨_, _, hr, Or.inr (Or.inr ⟨t, u, ha, hl⟩), ?_⟩
      intro _
      simp only [String.append_assoc, isLockedMessage_locked]
    · rw [if_neg hlt] at h
      have hnone : (resetLoginAttempts
          { s with localStorage := s.localStorage.removeItem LOCKOUT_KEY }).localStorage
          LOCKOUT_KEY = none := by
        simp [resetLoginAttempts, Storage.removeItem, keys_distinct.2]
      rw [authenticateAdmin_after_check digest random now username password s _ _ h rfl hnone]
      refine authenticateAdmin_open digest random now username password _ hnone (Or.inl ?_)
      simp [resetLoginAttempts, Storage.removeItem]

/-- Every call of the gate returns under the invariant and keeps it. -/
theorem runCall_invariant (digest : List Nat → List Nat) (call : GateCall) (s : State)
    (hinv : LoginInvariant s) :
    ∃ s1, runCall digest call s = .ok s1 ∧ LoginInvariant s1 := by
  cases call with
  | authenticateAdmin now username password random =>
    obtain ⟨r, s1, h, hi, _⟩ :=
      authenticateAdmin_invariant digest random now username password s hinv
    exact ⟨s1, by simp [runCall, h], hi⟩
  | isLoginLocked now =>
    obtain ⟨st, s1, h, hi⟩ := isLoginLocked_invariant now s hinv
    exact ⟨s1, by simp [runCall, h], hi⟩
  | isSessionValid now =>
    exact ⟨_, rfl, LoginInvariant_congr s _ (isSessionValid_localStorage now s) hinv⟩
  | updateActivity now =>
    exact ⟨_, rfl, LoginInvariant_congr s _ (updateActivity_localStorage now s) hinv⟩
  | clearSession =>
    exact ⟨_, rfl, LoginInvariant_congr s _ rfl hinv⟩

/-- Every sequence of calls returns under the invariant and keeps it. -/
theorem runCalls_invariant (digest : List Nat → List Nat) (calls : List GateCall) :
    ∀ s : State, LoginInvariant s →
      ∃ s1, runCalls digest calls s = .ok s1 ∧ LoginInvariant s1 := by
  induction calls with
  | nil => intro s hinv; exact ⟨s, rfl, hinv⟩
  | cons call rest ih =>
    intro s hinv
    obtain ⟨s1, h1, hi1⟩ := runCall_invariant digest call s hinv
    obtain ⟨s2, h2, hi2⟩ := ih s1 hi1
    exact ⟨s2, by simp [runCalls, h1, h2], hi2⟩

/-- What the invariant says about the stored count and the lockout record. -/
theorem storedAttemptCount_of_invariant (s : State) (hinv : LoginInvariant s) :
    ∃ c : Int, storedAttemptCount s = some c ∧ 0 ≤ c ∧ c ≤ SECURITY_CONFIG.MAX_LOGIN_ATTEMPTS ∧
      ((s.localStorage LOCKOUT_KEY).isSome = true ↔ c = SECURITY_CONFIG.MAX_LOGIN_ATTEMPTS) := by
  rcases hinv with ⟨ha, hl⟩ | ⟨c, t, hc, ha, hl⟩ | ⟨t, u, ha, hl⟩
  · refine ⟨0, ?_, le_refl _, by decide, ?_⟩
    · rw [storedAttemptCount, getLoginAttempts_absent s ha]; rfl
    · rw [hl]; simp [SECURITY_CONFIG]
  · refine ⟨c, ?_, ?_, ?_, ?_⟩
    · rw [storedAttemptCount, getLoginAttempts_stored s _ ha]; rfl
    · rcases hc with hc | hc <;> omega
    · rcases hc with hc | hc <;> simp [SECURITY_CONFIG, hc]
    · rw [hl]
      rcases hc with hc | hc <;> simp [SECURITY_CONFIG, hc]
  · refine ⟨3, ?_, by decide, by decide, ?_⟩
    · rw [storedAttemptCount, getLoginAttempts_stored s _ ha]; rfl
    · rw [hl]; simp [SECURITY_CONFIG]

/-- C27: every sequence of `authenticateAdmin`, `isLoginLocked`,
`isSessionValid`, `updateActivity` and `clearSession` calls from empty storage
(at any times, so in particular at non-decreasing ones) runs without an
exception to a state whose stored attempt count is a number between 0 and
MAX_LOGIN_ATTEMPTS (3) and in which a lockout record is stored if and only if
that count equals MAX_LOGIN_ATTEMPTS; and every `authenticateAdmin` call made in
such a state returns, and when it fails its message begins with
`Account locked` exactly when its result has `locked: true`. -/
theorem reachable_login_invariant (digest : List Nat → List Nat) (calls : List GateCall) :
    ∃ s : State, runCalls digest calls State.init = .ok s ∧
      (∃ c : Int, storedAttemptCount s = some c ∧ 0 ≤ c ∧
        c ≤ SECURITY_CONFIG.MAX_LOGIN_ATTEMPTS ∧
        ((s.localStorage LOCKOUT_KEY).isSome = true ↔ c = SECURITY_CONFIG.MAX_LOGIN_ATTEMPTS)) ∧
      (∀ (random : Nat → Nat) (now : Int) (username password : String),
        ∃ r s1, authenticateAdmin digest random now username password s = .ok (r, s1) ∧
          (r.success = false →
            (isLockedMessage r.message = true ↔ r.locked = some true))) := by
  obtain ⟨s, hrun, hinv⟩ := runCalls_invariant digest calls State.init (Or.inl ⟨rfl, rfl⟩)
  refine ⟨s, hrun, storedAttemptCount_of_invariant s hinv, ?_⟩
  intro random now username password
  obtain ⟨r, s1, h, _, hmsg⟩ :=
    authenticateAdmin_invariant digest random now username password s hinv
  exact ⟨r, s1, h, hmsg⟩

end Click1
